import Mathlib

/-! # FingerprintDoorbell: pairing protocol and fingerprint sensor component

A shallow embedding of `src/fingerprint_pairing.h` and of
`src/components/fingerprint_sensor/fingerprint_sensor.h` (of which
`src/esphome/fingerprint_sensor.h` is the variant with every published sensor wired).

Conventions of the embedding:
* `uint8_t` values and bytes are natural numbers; `int` is `Int`; `std::string` is `String`,
  a byte `b` of a `char` buffer being the character `Char.ofNat b`;
* whatever the sensor answers is an input: a `PacketReply` for the notepad commands, a script of
  `Reply` values for the commands of the Adafruit driver;
* every externally visible effect (publication, preference write, sensor command, delay) is
  appended to an event list, so that "nothing was emitted" is a statement about that list.
-/

namespace FingerprintDoorbell

/-! ## Codes of the Adafruit fingerprint driver header

`Adafruit_Fingerprint.h` is an external library; the values below are the ones of its header. -/

abbrev FINGERPRINT_OK : Nat := 0x00
abbrev FINGERPRINT_PACKETRECIEVEERR : Nat := 0x01
abbrev FINGERPRINT_NOFINGER : Nat := 0x02
abbrev FINGERPRINT_IMAGEFAIL : Nat := 0x03
abbrev FINGERPRINT_IMAGEMESS : Nat := 0x06
abbrev FINGERPRINT_FEATUREFAIL : Nat := 0x07
abbrev FINGERPRINT_NOTFOUND : Nat := 0x09
abbrev FINGERPRINT_ENROLLMISMATCH : Nat := 0x0A
abbrev FINGERPRINT_INVALIDIMAGE : Nat := 0x15
abbrev FINGERPRINT_COMMANDPACKET : Nat := 0x1
abbrev FINGERPRINT_ACKPACKET : Nat := 0x7
abbrev FINGERPRINT_LED_BREATHING : Nat := 0x01
abbrev FINGERPRINT_LED_FLASHING : Nat := 0x02
abbrev FINGERPRINT_LED_ON : Nat := 0x03
abbrev FINGERPRINT_LED_RED : Nat := 0x01
abbrev FINGERPRINT_LED_BLUE : Nat := 0x02
abbrev FINGERPRINT_LED_PURPLE : Nat := 0x03

abbrev FINGERPRINT_VERIFYPASSWORD : Nat := 0x13

/-- Notepad write command, `#define FINGERPRINT_WRITENOTEPAD 0x18`. -/
abbrev FINGERPRINT_WRITENOTEPAD : Nat := 0x18
/-- Notepad read command, `#define FINGERPRINT_READNOTEPAD 0x19`. -/
abbrev FINGERPRINT_READNOTEPAD : Nat := 0x19

/-! ## C strings -/

/-- The `std::string` constructed from a `char` buffer: the bytes before the first NUL. -/
def string_of_buffer (buffer : List Nat) : String :=
  String.mk ((buffer.takeWhile (fun b => decide (b ≠ 0))).map Char.ofNat)

/-- The bytes seen through `s.c_str()`: the characters of `s` (modulo 256), followed by the
terminating NUL. -/
def c_str (s : String) : List Nat :=
  s.data.map (fun c => c.toNat % 256) ++ [0]

/-! ## Pairing: `src/fingerprint_pairing.h` -/

/-- What `getStructuredPacket(&packet)` leaves behind: its return value and the received packet
(`data` is the content of the packet buffer, read as 0 past its end). -/
structure PacketReply where
  status : Nat
  type : Nat
  data : List Nat
deriving DecidableEq, Repr

/-- Effects of the pairing component, in program order. -/
inductive PairingEvent where
  | sensor_command (data : List Nat)
  | prefs_put_pairing_code (value : String)
  | prefs_put_pairing_valid (value : Bool)
  | publish_pairing_valid (state : Bool)
  | publish_pairing_warning (state : String)
deriving DecidableEq, Repr

/-- The members of `FingerprintPairing`, the two entries of `global_prefs` it uses, and the
effects so far. -/
structure FingerprintPairing where
  stored_pairing_code_ : String
  pairing_valid_ : Bool
  prefs_pairing_code : Option String
  prefs_pairing_valid : Option Bool
  events : List PairingEvent
deriving DecidableEq, Repr

/-- One lowercase hexadecimal digit, as `%x` prints it. -/
def hex_digit (n : Nat) : Nat :=
  if n < 10 then 48 + n else 87 + n

/-- The two characters `sprintf(.., "%02x", b)` writes for an `unsigned char`. -/
def sprintf_02x (b : Nat) : List Nat :=
  [hex_digit (b % 256 / 16), hex_digit (b % 256 % 16)]

/-- `sprintf(&buf[at], "%02x", b)`: the two digits and the terminating NUL. -/
def sprintf_02x_at (buf : List Nat) (pos : Nat) (b : Nat) : List Nat :=
  ((buf.set pos ((sprintf_02x b).getD 0 0)).set (pos + 1) ((sprintf_02x b).getD 1 0)).set
    (pos + 2) 0

/-- `generate_pairing_code`, lines 47-82. The SHA-256 digest `hash` (32 bytes, computed from
`esp_random()`, `millis()`, the SSID and the MAC address) is the input; its first 16 bytes are
rendered into `hex_string[33]`, whose last byte is NUL. -/
def generate_pairing_code (hash : List Nat) : String :=
  let hex_string := (List.range 16).foldl
    (fun buf i => sprintf_02x_at buf (i * 2) (hash.getD i 0))
    (List.replicate 33 0)
  string_of_buffer hex_string

/-- The command packet `write_notepad` sends: command byte, page and `length` bytes of `text`
(`length` capped at 32). -/
def write_notepad_packet (page_number : Nat) (text : List Nat) (length : Nat) : List Nat :=
  let length := if length > 32 then 32 else length
  [FINGERPRINT_WRITENOTEPAD, page_number] ++ (List.range length).map (fun i => text.getD i 0)

/-- `write_notepad`, lines 87-109: the value returned for a given reply of the sensor. -/
def write_notepad (_page_number : Nat) (_text : List Nat) (_length : Nat) (reply : PacketReply) :
    Nat :=
  if reply.status ≠ FINGERPRINT_OK then FINGERPRINT_PACKETRECIEVEERR
  else if reply.type ≠ FINGERPRINT_ACKPACKET then FINGERPRINT_PACKETRECIEVEERR
  else reply.data.getD 0 0

/-- `read_notepad`, lines 114-138: the returned status and the `text` buffer afterwards. -/
def read_notepad (_page_number : Nat) (text : List Nat) (length : Nat) (reply : PacketReply) :
    Nat × List Nat :=
  if reply.status ≠ FINGERPRINT_OK then (FINGERPRINT_PACKETRECIEVEERR, text)
  else if reply.type ≠ FINGERPRINT_ACKPACKET then (FINGERPRINT_PACKETRECIEVEERR, text)
  else
    let text :=
      if reply.data.getD 0 0 = FINGERPRINT_OK then
        (List.range (min length 32)).foldl (fun t i => t.set i (reply.data.getD (i + 1) 0)) text
      else text
    (reply.data.getD 0 0, text)

/-- `get_sensor_pairing_code`, lines 143-156. -/
def get_sensor_pairing_code (reply : PacketReply) : String :=
  let buffer := List.replicate 33 0
  let (result, buffer) := read_notepad 0 buffer 32 reply
  if result = FINGERPRINT_OK then
    string_of_buffer (buffer.set 32 0)
  else
    ""

/-- `do_pairing`, lines 161-191. `hash` is the digest behind the generated code and `reply` the
sensor's answer to the notepad write. -/
def do_pairing (hash : List Nat) (reply : PacketReply) (self : FingerprintPairing) :
    Bool × FingerprintPairing :=
  let new_code := generate_pairing_code hash
  let self := { self with events := self.events ++
    [PairingEvent.sensor_command (write_notepad_packet 0 (c_str new_code) 32)] }
  let result := write_notepad 0 (c_str new_code) 32 reply
  if result = FINGERPRINT_OK then
    (true, { self with
      prefs_pairing_code := some new_code
      prefs_pairing_valid := some true
      stored_pairing_code_ := new_code
      pairing_valid_ := true
      events := self.events ++
        [PairingEvent.prefs_put_pairing_code new_code,
         PairingEvent.prefs_put_pairing_valid true,
         PairingEvent.publish_pairing_valid true,
         PairingEvent.publish_pairing_warning "Pairing successful"] })
  else
    (false, { self with events := self.events ++
      [PairingEvent.publish_pairing_warning "Pairing failed - check sensor connection"] })

/-- `check_pairing`, lines 196-246. One sensor exchange at most takes place: the notepad write of
`do_pairing` or the notepad read, and `reply` is the sensor's answer to it. -/
def check_pairing (hash : List Nat) (reply : PacketReply) (self : FingerprintPairing) :
    Bool × FingerprintPairing :=
  if self.stored_pairing_code_ = "" then
    do_pairing hash reply self
  else if !self.pairing_valid_ then
    (false, { self with events := self.events ++
      [PairingEvent.publish_pairing_valid false,
       PairingEvent.publish_pairing_warning
         "SECURITY: Pairing invalid! Sensor may have been replaced. Do re-pairing."] })
  else
    let self := { self with events := self.events ++
      [PairingEvent.sensor_command [FINGERPRINT_READNOTEPAD, 0]] }
    let sensor_code := get_sensor_pairing_code reply
    if sensor_code = "" then
      (false, self)
    else if sensor_code = self.stored_pairing_code_ then
      (true, { self with events := self.events ++
        [PairingEvent.publish_pairing_valid true,
         PairingEvent.publish_pairing_warning ""] })
    else
      (false, { self with
        pairing_valid_ := false
        prefs_pairing_valid := some false
        events := self.events ++
          [PairingEvent.prefs_put_pairing_valid false,
           PairingEvent.publish_pairing_valid false,
           PairingEvent.publish_pairing_warning
             ("SECURITY ALERT: Sensor pairing mismatch! " ++
              "Possible attack or sensor replacement detected. " ++
              "Fingerprint matches will be blocked. If you replaced the sensor, do re-pairing.")] })

/-- `setup`, lines 19-38. The answer to `verifyPassword` only selects a log line; the members
are loaded from the preferences (`value_or("")`, `value_or(false)`), and `reply` is the sensor's
answer to the notepad write of the automatic pairing, when there is one. -/
def FingerprintPairing.setup (hash : List Nat) (reply : PacketReply) (self : FingerprintPairing) :
    FingerprintPairing :=
  let self := { self with events := self.events ++
    [PairingEvent.sensor_command [FINGERPRINT_VERIFYPASSWORD, 0, 0, 0, 0]] }
  let self := { self with
    stored_pairing_code_ := self.prefs_pairing_code.getD ""
    pairing_valid_ := self.prefs_pairing_valid.getD false }
  if self.stored_pairing_code_ = "" then (do_pairing hash reply self).2 else self

/-! ## Fingerprint sensor component: `src/components/fingerprint_sensor/fingerprint_sensor.h`

`src/esphome/fingerprint_sensor.h` is the same code without the `nullptr` tests: it is this
model with the six `*_sensor_` flags set. -/

/-- What the sensor answers to one driver command: the returned status and the values the driver
stores in its public members (`fingerID` and `confidence` after `fingerSearch`, `templateCount`
after `getTemplateCount`). -/
structure Reply where
  status : Nat
  fingerID : Nat
  confidence : Nat
  templateCount : Nat
deriving DecidableEq, Repr

/-- Driver commands whose answer the component waits for. -/
inductive SensorCall where
  | verifyPassword
  | getParameters
  | getTemplateCount
  | getImage
  | image2Tz (slot : Nat)
  | fingerSearch
  | createModel
  | storeModel (id : Int)
  | deleteModel (id : Int)
  | emptyDatabase
deriving DecidableEq, Repr

/-- Effects of the sensor component, in program order. `call c status` is a driver command
together with the status the sensor answered. -/
inductive Event where
  | call (c : SensorCall) (status : Nat)
  | LEDcontrol (control speed coloridx count : Nat)
  | delay (ms : Nat)
  | publish_match_id (state : Int)
  | publish_match_name (state : String)
  | publish_confidence (state : Int)
  | publish_enrolled_count (state : Int)
  | publish_status (state : String)
  | publish_ring (state : Bool)
  | preferences_putString (key value : String)
  | preferences_remove (key : String)
  | preferences_clear
deriving DecidableEq, Repr

/-- The members of `FingerprintSensor`. A `*_sensor_` flag tells whether that pointer is set;
`preferences_` is the content of the "fingerprints" namespace; `finger_*` are the public members
of the driver object; `replies` is what the sensor will answer to the coming commands and
`events` what has happened so far. -/
structure FingerprintSensor where
  match_id_sensor_ : Bool
  match_name_sensor_ : Bool
  confidence_sensor_ : Bool
  enrolled_count_sensor_ : Bool
  status_sensor_ : Bool
  ring_sensor_ : Bool
  preferences_ : List (String × String)
  fingerprint_names_ : List (Int × String)
  connected_ : Bool
  enrolling_ : Bool
  enroll_id_ : Int
  enroll_name_ : String
  last_scan_time_ : Nat
  last_ring_state_ : Bool
  finger_templateCount : Nat
  finger_fingerID : Nat
  finger_confidence : Nat
  replies : List Reply
  events : List Event
deriving DecidableEq, Repr

/-! ### `Preferences` (key/value store) and `std::map<int, std::string>` -/

/-- `preferences_.isKey(key)`. -/
def preferences_isKey (key : String) : List (String × String) → Bool
  | [] => false
  | (k, _) :: rest => if k = key then true else preferences_isKey key rest

/-- `preferences_.getString(key, defaultValue)`. -/
def preferences_getString (key : String) (defaultValue : String) :
    List (String × String) → String
  | [] => defaultValue
  | (k, v) :: rest => if k = key then v else preferences_getString key defaultValue rest

/-- `preferences_.putString(key, value)`: overwrite the entry of `key` or create it. -/
def preferences_putString (key value : String) : List (String × String) → List (String × String)
  | [] => [(key, value)]
  | (k, v) :: rest =>
      if k = key then (key, value) :: rest else (k, v) :: preferences_putString key value rest

/-- `preferences_.remove(key)`. -/
def preferences_remove (key : String) (prefs : List (String × String)) : List (String × String) :=
  prefs.filter (fun e => decide (e.1 ≠ key))

/-- `fingerprint_names_.find(id)`: the mapped name, `none` standing for `end()`. -/
def map_find (id : Int) : List (Int × String) → Option String
  | [] => none
  | (k, v) :: rest => if k = id then some v else map_find id rest

/-- `fingerprint_names_[id] = name` on a map kept in key order. -/
def map_assign (id : Int) (name : String) : List (Int × String) → List (Int × String)
  | [] => [(id, name)]
  | (k, v) :: rest =>
      if id < k then (id, name) :: (k, v) :: rest
      else if k = id then (id, name) :: rest
      else (k, v) :: map_assign id name rest

/-- `fingerprint_names_.erase(id)`. -/
def map_erase (id : Int) (m : List (Int × String)) : List (Int × String) :=
  m.filter (fun e => decide (e.1 ≠ id))

/-- Arduino `String(id)` for an `int`: its decimal rendering. -/
def String_of_int (id : Int) : String :=
  toString id

/-! ### Small steps -/

/-- Send a driver command and take the sensor's next answer; `none` when the script of answers
is used up (the code would still be waiting). -/
def finger_call (c : SensorCall) (self : FingerprintSensor) :
    Option (Reply × FingerprintSensor) :=
  match self.replies with
  | [] => none
  | r :: rest =>
      some (r, { self with replies := rest, events := self.events ++ [Event.call c r.status] })

/-- `finger_.LEDcontrol(control, speed, coloridx, count)`; its acknowledgement is discarded by
every caller, so it takes no answer from the script. -/
def finger_LEDcontrol (control speed coloridx count : Nat) (self : FingerprintSensor) :
    FingerprintSensor :=
  { self with events := self.events ++ [Event.LEDcontrol control speed coloridx count] }

/-- `delay(ms)`. -/
def delay (ms : Nat) (self : FingerprintSensor) : FingerprintSensor :=
  { self with events := self.events ++ [Event.delay ms] }

/-- `if (status_sensor_ != nullptr) status_sensor_->publish_state(state)`. -/
def publish_status (state : String) (self : FingerprintSensor) : FingerprintSensor :=
  if self.status_sensor_ then
    { self with events := self.events ++ [Event.publish_status state] }
  else self

/-- `if (ring_sensor_ != nullptr) ring_sensor_->publish_state(state)`. -/
def publish_ring (state : Bool) (self : FingerprintSensor) : FingerprintSensor :=
  if self.ring_sensor_ then
    { self with events := self.events ++ [Event.publish_ring state] }
  else self

/-- `if (match_id_sensor_ != nullptr) match_id_sensor_->publish_state(state)`. -/
def publish_match_id (state : Int) (self : FingerprintSensor) : FingerprintSensor :=
  if self.match_id_sensor_ then
    { self with events := self.events ++ [Event.publish_match_id state] }
  else self

/-- `if (match_name_sensor_ != nullptr) match_name_sensor_->publish_state(state)`. -/
def publish_match_name (state : String) (self : FingerprintSensor) : FingerprintSensor :=
  if self.match_name_sensor_ then
    { self with events := self.events ++ [Event.publish_match_name state] }
  else self

/-- `if (confidence_sensor_ != nullptr) confidence_sensor_->publish_state(state)`. -/
def publish_confidence (state : Int) (self : FingerprintSensor) : FingerprintSensor :=
  if self.confidence_sensor_ then
    { self with events := self.events ++ [Event.publish_confidence state] }
  else self

/-- `if (enrolled_count_sensor_ != nullptr) enrolled_count_sensor_->publish_state(state)`. -/
def publish_enrolled_count (state : Int) (self : FingerprintSensor) : FingerprintSensor :=
  if self.enrolled_count_sensor_ then
    { self with events := self.events ++ [Event.publish_enrolled_count state] }
  else self

/-- `finger_.getTemplateCount()`: the driver stores the answered count in `templateCount`. -/
def finger_getTemplateCount (self : FingerprintSensor) : Option FingerprintSensor :=
  match finger_call SensorCall.getTemplateCount self with
  | none => none
  | some (r, self) => some { self with finger_templateCount := r.templateCount }

/-! ### Enrollment -/

/-- The loop `while (finger_.getImage() != FINGERPRINT_NOFINGER) delay(50);` of
`perform_enrollment`. `fuel` bounds the number of iterations; every iteration takes one answer
from the script, so `replies.length + 1` is never exhausted first. -/
def wait_no_finger : Nat → FingerprintSensor → Option FingerprintSensor
  | 0, _ => none
  | fuel + 1, self =>
      match finger_call SensorCall.getImage self with
      | none => none
      | some (r, self) =>
          if r.status ≠ FINGERPRINT_NOFINGER then wait_no_finger fuel (delay 50 self)
          else some self

/-- The loop `while (result != FINGERPRINT_OK)` of `perform_enrollment`, entered with
`result = FINGERPRINT_NOFINGER`. The first component is `some result` when the loop executed
`return result`, and `none` when it ended with an image captured. -/
def wait_for_finger : Nat → FingerprintSensor → Option (Option Nat × FingerprintSensor)
  | 0, _ => none
  | fuel + 1, self =>
      match finger_call SensorCall.getImage self with
      | none => none
      | some (r, self) =>
          if r.status = FINGERPRINT_PACKETRECIEVEERR ∨ r.status = FINGERPRINT_IMAGEFAIL then
            some (some r.status, self)
          else
            let self := delay 50 self
            if r.status ≠ FINGERPRINT_OK then wait_for_finger fuel self
            else some (none, self)

/-- Lines 393-399 of `perform_enrollment`: from the second pass on, wait until the finger is
lifted, then 500 ms more. -/
def wait_finger_lifted (pass : Nat) (self : FingerprintSensor) : Option FingerprintSensor :=
  if pass > 1 then
    match wait_no_finger (self.replies.length + 1)
        (finger_LEDcontrol FINGERPRINT_LED_BREATHING 100 FINGERPRINT_LED_PURPLE 0 self) with
    | none => none
    | some self => some (delay 500 self)
  else some self

/-- The body of `for (int pass = 1; pass <= 5; pass++)` in `perform_enrollment`, lines 387-428.
The first component is `some result` when the body executed `return result`. -/
def enrollment_pass (pass : Nat) (self : FingerprintSensor) :
    Option (Option Nat × FingerprintSensor) :=
  let self := publish_status ("Enrollment pass " ++ toString pass ++ "/5: Place finger") self
  match wait_finger_lifted pass self with
  | none => none
  | some self =>
      let self := finger_LEDcontrol FINGERPRINT_LED_FLASHING 25 FINGERPRINT_LED_PURPLE 0 self
      match wait_for_finger (self.replies.length + 1) self with
      | none => none
      | some (some result, self) => some (some result, self)
      | some (none, self) =>
          match finger_call (SensorCall.image2Tz pass) self with
          | none => none
          | some (r, self) =>
              if r.status ≠ FINGERPRINT_OK then some (some r.status, self)
              else
                let self := finger_LEDcontrol FINGERPRINT_LED_ON 0 FINGERPRINT_LED_PURPLE 0 self
                some (none, delay 1000 self)

/-- The passes of the `for` loop of `perform_enrollment`, run in order until one returns. -/
def enrollment_passes : List Nat → FingerprintSensor → Option (Option Nat × FingerprintSensor)
  | [], self => some (none, self)
  | pass :: rest, self =>
      match enrollment_pass pass self with
      | none => none
      | some (some result, self) => some (some result, self)
      | some (none, self) => enrollment_passes rest self

/-- `perform_enrollment`, lines 382-460: the returned `int` and the state afterwards; `none`
when the sensor's answers run out while the code is still polling. -/
def perform_enrollment (id : Int) (self : FingerprintSensor) : Option (Int × FingerprintSensor) :=
  match enrollment_passes [1, 2, 3, 4, 5] self with
  | none => none
  | some (some result, self) => some ((result : Int), self)
  | some (none, self) =>
      let self := publish_status "Creating fingerprint model..." self
      match finger_call SensorCall.createModel self with
      | none => none
      | some (r, self) =>
          if r.status ≠ FINGERPRINT_OK then some ((r.status : Int), self)
          else
            let self := publish_status "Storing fingerprint..." self
            match finger_call (SensorCall.storeModel id) self with
            | none => none
            | some (r, self) =>
                if r.status ≠ FINGERPRINT_OK then some ((r.status : Int), self)
                else some (0, self)

/-- The state `enroll_fingerprint` hands to `perform_enrollment`, lines 109-116. -/
def enroll_begin (id : Int) (name : String) (self : FingerprintSensor) : FingerprintSensor :=
  publish_status "Enrollment started. Place finger on sensor 5 times..."
    { self with enrolling_ := true, enroll_id_ := id, enroll_name_ := name }

/-- Lines 126-128 of `enroll_fingerprint`: `preferences_.putString(key.c_str(), name.c_str())`
with `key = String(id)`, then `fingerprint_names_[id] = name`. -/
def save_name (id : Int) (name : String) (self : FingerprintSensor) : FingerprintSensor :=
  let key := String_of_int id
  let value := string_of_buffer (c_str name)
  { self with
    preferences_ := preferences_putString key value self.preferences_
    events := self.events ++ [Event.preferences_putString key value]
    fingerprint_names_ := map_assign id name self.fingerprint_names_ }

/-- Lines 171-173 of `delete_fingerprint`: `preferences_.remove(key.c_str())` with
`key = String(id)`, then `fingerprint_names_.erase(id)`. -/
def remove_name (id : Int) (self : FingerprintSensor) : FingerprintSensor :=
  let key := String_of_int id
  { self with
    preferences_ := preferences_remove key self.preferences_
    events := self.events ++ [Event.preferences_remove key]
    fingerprint_names_ := map_erase id self.fingerprint_names_ }

/-- `enroll_fingerprint`, lines 92-150. -/
def enroll_fingerprint (id : Int) (name : String) (self : FingerprintSensor) :
    Option FingerprintSensor :=
  if !self.connected_ then
    some (publish_status "Error: Sensor not connected" self)
  else if id < 1 ∨ id > 200 then
    some (publish_status "Error: Invalid ID" self)
  else
    match perform_enrollment id (enroll_begin id name self) with
    | none => none
    | some (result, self) =>
        let finished :=
          if result = 0 then
            let self := save_name id name self
            let self := publish_status "Enrollment successful!" self
            match finger_getTemplateCount self with
            | none => none
            | some self => some (publish_enrolled_count self.finger_templateCount self)
          else
            some (publish_status "Enrollment failed!" self)
        match finished with
        | none => none
        | some self =>
            some (finger_LEDcontrol FINGERPRINT_LED_BREATHING 250 FINGERPRINT_LED_BLUE 0
              { self with enrolling_ := false })

/-- `delete_fingerprint`, lines 153-190. -/
def delete_fingerprint (id : Int) (self : FingerprintSensor) : Option FingerprintSensor :=
  if !self.connected_ then some self
  else if id < 1 ∨ id > 200 then some self
  else
    match finger_call (SensorCall.deleteModel id) self with
    | none => none
    | some (r, self) =>
        if r.status = FINGERPRINT_OK then
          let self := remove_name id self
          let self := publish_status "Fingerprint deleted" self
          match finger_getTemplateCount self with
          | none => none
          | some self => some (publish_enrolled_count self.finger_templateCount self)
        else
          some (publish_status "Delete failed!" self)

/-- `clear_all`, lines 193-221. -/
def clear_all (self : FingerprintSensor) : Option FingerprintSensor :=
  if !self.connected_ then some self
  else
    match finger_call SensorCall.emptyDatabase self with
    | none => none
    | some (r, self) =>
        if r.status = FINGERPRINT_OK then
          let self := { self with
            preferences_ := []
            events := self.events ++ [Event.preferences_clear]
            fingerprint_names_ := [] }
          let self := publish_status "All fingerprints cleared" self
          some (publish_enrolled_count 0 self)
        else
          some (publish_status "Clear failed!" self)

/-! ### Scanning -/

/-- `a - b` on `unsigned long` (32 bits on the ESP32). -/
def u32_sub (a b : Nat) : Nat :=
  (a % 2 ^ 32 + 2 ^ 32 - b % 2 ^ 32) % 2 ^ 32

/-- `scan_fingerprint`, lines 258-380, with `current_time` the value `millis()` returns. -/
def scan_fingerprint (current_time : Nat) (self : FingerprintSensor) : Option FingerprintSensor :=
  if u32_sub current_time self.last_scan_time_ < 100 then some self
  else
    let self := { self with last_scan_time_ := current_time % 2 ^ 32 }
    match finger_call SensorCall.getImage self with
    | none => none
    | some (r, self) =>
        if r.status = FINGERPRINT_NOFINGER then
          if self.last_ring_state_ then
            let self := { self with last_ring_state_ := false }
            let self := publish_ring false self
            let self := publish_match_id (-1) self
            let self := publish_match_name "" self
            let self := publish_confidence 0 self
            some (finger_LEDcontrol FINGERPRINT_LED_BREATHING 250 FINGERPRINT_LED_BLUE 0 self)
          else some self
        else if r.status ≠ FINGERPRINT_OK then some self
        else
          let self := finger_LEDcontrol FINGERPRINT_LED_FLASHING 25 FINGERPRINT_LED_RED 0 self
          match finger_call (SensorCall.image2Tz 1) self with
          | none => none
          | some (r, self) =>
              if r.status ≠ FINGERPRINT_OK then some self
              else
                match finger_call SensorCall.fingerSearch self with
                | none => none
                | some (r, self) =>
                    let self := { self with
                      finger_fingerID := r.fingerID, finger_confidence := r.confidence }
                    if r.status = FINGERPRINT_OK then
                      let id : Int := self.finger_fingerID
                      let confidence : Int := self.finger_confidence
                      let name :=
                        match map_find id self.fingerprint_names_ with
                        | some found => found
                        | none => "Unknown"
                      let self := publish_match_id id self
                      let self := publish_match_name name self
                      let self := publish_confidence confidence self
                      let self := publish_ring false self
                      let self :=
                        finger_LEDcontrol FINGERPRINT_LED_ON 0 FINGERPRINT_LED_PURPLE 0 self
                      let self := publish_status ("Match: " ++ name) self
                      let self := { self with last_ring_state_ := true }
                      some (delay 3000 self)
                    else if r.status = FINGERPRINT_NOTFOUND then
                      let self := publish_ring true self
                      let self := publish_match_id (-1) self
                      let self := publish_match_name "" self
                      let self := publish_confidence 0 self
                      let self := publish_status "Doorbell ring!" self
                      let self := { self with last_ring_state_ := true }
                      some (delay 1000 self)
                    else some self

/-- `loop`, lines 78-89, at time `current_time`. -/
def loop (current_time : Nat) (self : FingerprintSensor) : Option FingerprintSensor :=
  if !self.connected_ then some self
  else if self.enrolling_ then some self
  else scan_fingerprint current_time self

/-- Successive calls of `scan_fingerprint` at the given times. -/
def scan_steps : List Nat → FingerprintSensor → Option FingerprintSensor
  | [], self => some self
  | t :: ts, self =>
      match scan_fingerprint t self with
      | none => none
      | some self => scan_steps ts self

/-- Whether an event is a published observation of a scan result (ring flag, matched id,
matched name, confidence). -/
def is_observation : Event → Bool
  | Event.publish_ring _ => true
  | Event.publish_match_id _ => true
  | Event.publish_match_name _ => true
  | Event.publish_confidence _ => true
  | _ => false

/-- Whether an event talks to the sensor. -/
def is_sensor_event : Event → Bool
  | Event.call _ _ => true
  | Event.LEDcontrol _ _ _ _ => true
  | _ => false

/-! ### Start-up -/

/-- `load_fingerprint_names`, lines 243-256. -/
def load_fingerprint_names (self : FingerprintSensor) : FingerprintSensor :=
  (List.range' 1 200).foldl
    (fun self i =>
      let key := String_of_int (i : Int)
      if preferences_isKey key self.preferences_ then
        let name := preferences_getString key "" self.preferences_
        if name.length > 0 then
          { self with fingerprint_names_ :=
              map_assign (i : Int) (string_of_buffer (c_str name)) self.fingerprint_names_ }
        else self
      else self)
    self

/-- `setup`, lines 25-76; `finger_.verifyPassword()` is true when the sensor answers OK. -/
def setup (self : FingerprintSensor) : Option FingerprintSensor :=
  let self := delay 50 self
  match finger_call SensorCall.verifyPassword self with
  | none => none
  | some (r, self) =>
      if r.status = FINGERPRINT_OK then
        let self := finger_LEDcontrol FINGERPRINT_LED_FLASHING 25 FINGERPRINT_LED_BLUE 0 self
        match finger_call SensorCall.getParameters self with
        | none => none
        | some (_, self) =>
            match finger_getTemplateCount self with
            | none => none
            | some self =>
                let self := publish_enrolled_count self.finger_templateCount self
                let self := publish_status "Ready" self
                let self := { self with connected_ := true }
                let self := load_fingerprint_names self
                some (finger_LEDcontrol FINGERPRINT_LED_BREATHING 250 FINGERPRINT_LED_BLUE 0 self)
      else
        let self := delay 5000 self
        match finger_call SensorCall.verifyPassword self with
        | none => none
        | some (r, self) =>
            if r.status = FINGERPRINT_OK then
              let self := { self with connected_ := true }
              some (finger_LEDcontrol FINGERPRINT_LED_BREATHING 250 FINGERPRINT_LED_BLUE 0 self)
            else
              let self := publish_status "Sensor not found!" self
              some { self with connected_ := false }

/-! ## Notions used to state the properties -/

/-- Operations on the pairing component, each with the digest behind the code it would generate
and the sensor's reply to its notepad command: `check_pairing`, `do_pairing`, and `setup` (a
reboot). -/
inductive PairingOp where
  | check (hash : List Nat) (reply : PacketReply)
  | pair (hash : List Nat) (reply : PacketReply)
  | setup (hash : List Nat) (reply : PacketReply)
deriving DecidableEq, Repr

/-- An explicit `do_pairing` whose notepad write the sensor acknowledged with OK. -/
def PairingOp.acknowledged_pair : PairingOp → Bool
  | .pair hash reply =>
      decide (write_notepad 0 (c_str (generate_pairing_code hash)) 32 reply = FINGERPRINT_OK)
  | _ => false

/-- Whether the operation is a reboot. -/
def PairingOp.is_setup : PairingOp → Bool
  | .setup _ _ => true
  | _ => false

/-- Run one pairing operation; the first component is what it returned (`setup` returns
nothing). -/
def PairingOp.run : PairingOp → FingerprintPairing → Option Bool × FingerprintPairing
  | .check hash reply, self =>
      (some (check_pairing hash reply self).1, (check_pairing hash reply self).2)
  | .pair hash reply, self =>
      (some (do_pairing hash reply self).1, (do_pairing hash reply self).2)
  | .setup hash reply, self => (none, self.setup hash reply)

/-- Run pairing operations in sequence, collecting what each returned. -/
def run_ops : List PairingOp → FingerprintPairing → List (Option Bool) × FingerprintPairing
  | [], self => ([], self)
  | op :: ops, self =>
      let r := op.run self
      let rs := run_ops ops r.2
      (r.1 :: rs.1, rs.2)

/-- The persisted pairing record agrees with the members and is not marked valid. -/
def persisted_invalid (self : FingerprintPairing) : Prop :=
  self.prefs_pairing_code = some self.stored_pairing_code_ ∧
  self.prefs_pairing_valid ≠ some true

instance (self : FingerprintPairing) : Decidable (persisted_invalid self) := by
  unfold persisted_invalid
  infer_instance

/-- The observation published when the finger is lifted, on the sensors that are set. -/
def cleared_observation (self : FingerprintSensor) : List Event :=
  (if self.ring_sensor_ then [Event.publish_ring false] else []) ++
  (if self.match_id_sensor_ then [Event.publish_match_id (-1)] else []) ++
  (if self.match_name_sensor_ then [Event.publish_match_name ""] else []) ++
  (if self.confidence_sensor_ then [Event.publish_confidence 0] else [])

/-- The events `after` has on top of those of `before`. -/
def new_events (before after : FingerprintSensor) : List Event :=
  after.events.drop before.events.length

/-- Driver commands that build and store the template. -/
def is_model_call : SensorCall → Bool
  | SensorCall.image2Tz _ => true
  | SensorCall.createModel => true
  | SensorCall.storeModel _ => true
  | _ => false

/-- The steps of an enrollment that decide its outcome: template conversion, model creation,
model storage, and writes to the preferences. -/
def is_enroll_step : Event → Bool
  | Event.call c _ => is_model_call c
  | Event.preferences_putString _ _ => true
  | Event.preferences_remove _ => true
  | Event.preferences_clear => true
  | _ => false

/-- From `s` to `t` the events grew by a list whose enrollment steps are `steps`, and the
registry (map and preferences) did not change. -/
def Trace (s t : FingerprintSensor) (steps : List Event) : Prop :=
  ∃ l, t.events = s.events ++ l ∧ l.filter is_enroll_step = steps ∧
    t.fingerprint_names_ = s.fingerprint_names_ ∧ t.preferences_ = s.preferences_

/-- What a part of `perform_enrollment` did: when it fell through (`none`), its enrollment steps
are `steps`; when it returned `r`, `r` is not OK. Either way the registry is unchanged. -/
def Outcome (s t : FingerprintSensor) (o : Option Nat) (steps : List Event) : Prop :=
  match o with
  | none => Trace s t steps
  | some r => r ≠ FINGERPRINT_OK ∧ ∃ l, Trace s t l

/-- The enrollment steps of a run of `perform_enrollment` that returns 0. -/
def successful_model_steps (id : Int) : List Event :=
  [Event.call (SensorCall.image2Tz 1) FINGERPRINT_OK,
   Event.call (SensorCall.image2Tz 2) FINGERPRINT_OK,
   Event.call (SensorCall.image2Tz 3) FINGERPRINT_OK,
   Event.call (SensorCall.image2Tz 4) FINGERPRINT_OK,
   Event.call (SensorCall.image2Tz 5) FINGERPRINT_OK,
   Event.call SensorCall.createModel FINGERPRINT_OK,
   Event.call (SensorCall.storeModel id) FINGERPRINT_OK]

/-- A name that `c_str()` hands over unchanged: bytes, none of them NUL. -/
def is_c_string (s : String) : Prop :=
  ∀ c ∈ s.data, 0 < c.toNat ∧ c.toNat < 256

instance (s : String) : Decidable (is_c_string s) := by
  unfold is_c_string
  infer_instance

/-! ## Concrete inputs -/

/-- A pairing code as `generate_pairing_code` produces them. -/
def demo_code : String := "0123456789abcdef0123456789abcdef"

/-- A digest. -/
def demo_hash : List Nat := List.range 32

/-- A paired device: code stored and marked valid, both persisted. -/
def demo_paired : FingerprintPairing :=
  { stored_pairing_code_ := demo_code, pairing_valid_ := true,
    prefs_pairing_code := some demo_code, prefs_pairing_valid := some true, events := [] }

/-- A device that was never paired. -/
def demo_unpaired : FingerprintPairing :=
  { stored_pairing_code_ := "", pairing_valid_ := false,
    prefs_pairing_code := none, prefs_pairing_valid := none, events := [] }

/-- The sensor acknowledges a notepad read and returns the page holding `s`. -/
def notepad_holding (s : String) : PacketReply :=
  { status := FINGERPRINT_OK, type := FINGERPRINT_ACKPACKET, data := FINGERPRINT_OK :: c_str s }

/-- The sensor acknowledges a notepad read and returns a page of 32 zero bytes, which is what a
sensor that was never written to holds. -/
def blank_notepad : PacketReply :=
  { status := FINGERPRINT_OK, type := FINGERPRINT_ACKPACKET,
    data := FINGERPRINT_OK :: List.replicate 32 0 }

/-- No packet came back. -/
def no_reply : PacketReply :=
  { status := FINGERPRINT_PACKETRECIEVEERR, type := 0, data := [] }

/-- The sensor acknowledges a notepad write. -/
def write_acknowledged : PacketReply :=
  { status := FINGERPRINT_OK, type := FINGERPRINT_ACKPACKET, data := [FINGERPRINT_OK] }

/-- The paired device after a check that read another code from the sensor. -/
def demo_mismatched : FingerprintPairing :=
  (check_pairing demo_hash (notepad_holding "ffffffffffffffffffffffffffffffff") demo_paired).2

/-- An answer of the sensor carrying only a status. -/
def status_reply (status : Nat) : Reply :=
  { status := status, fingerID := 0, confidence := 0, templateCount := 0 }

/-- A connected component with every sensor set and one enrolled name. -/
def demo_sensor : FingerprintSensor :=
  { match_id_sensor_ := true, match_name_sensor_ := true, confidence_sensor_ := true,
    enrolled_count_sensor_ := true, status_sensor_ := true, ring_sensor_ := true,
    preferences_ := [("7", "Bob")], fingerprint_names_ := [(7, "Bob")],
    connected_ := true, enrolling_ := false, enroll_id_ := 0, enroll_name_ := "",
    last_scan_time_ := 0, last_ring_state_ := false,
    finger_templateCount := 1, finger_fingerID := 0, finger_confidence := 0,
    replies := [], events := [] }

/-- Answers of a sensor during an enrollment in which the capture of pass 3 fails. -/
def failing_script : List Reply :=
  [status_reply FINGERPRINT_OK, status_reply FINGERPRINT_OK,
   status_reply FINGERPRINT_NOFINGER, status_reply FINGERPRINT_OK, status_reply FINGERPRINT_OK,
   status_reply FINGERPRINT_NOFINGER, status_reply FINGERPRINT_IMAGEFAIL]

/-- Answers of a sensor during a complete enrollment, ending with a template count of 2. -/
def successful_script : List Reply :=
  [status_reply FINGERPRINT_OK, status_reply FINGERPRINT_OK,
   status_reply FINGERPRINT_NOFINGER, status_reply FINGERPRINT_OK, status_reply FINGERPRINT_OK,
   status_reply FINGERPRINT_OK, status_reply FINGERPRINT_NOFINGER,
   status_reply FINGERPRINT_NOFINGER, status_reply FINGERPRINT_OK, status_reply FINGERPRINT_OK,
   status_reply FINGERPRINT_NOFINGER, status_reply FINGERPRINT_OK, status_reply FINGERPRINT_OK,
   status_reply FINGERPRINT_NOFINGER, status_reply FINGERPRINT_OK, status_reply FINGERPRINT_OK,
   status_reply FINGERPRINT_OK, status_reply FINGERPRINT_OK,
   { status := FINGERPRINT_OK, fingerID := 0, confidence := 0, templateCount := 2 }]

/-- What `perform_enrollment` leaves behind on `failing_script`. -/
def demo_after_failure : FingerprintSensor :=
  ((perform_enrollment 5 (enroll_begin 5 "Alice"
    { demo_sensor with replies := failing_script })).getD (0, demo_sensor)).2

/-- What `perform_enrollment` leaves behind on `successful_script`. -/
def demo_after_success : FingerprintSensor :=
  ((perform_enrollment 5 (enroll_begin 5 "Alice"
    { demo_sensor with replies := successful_script })).getD (0, demo_sensor)).2

/-- The component right after a poll that matched id 7: the latch is set, and the sensor will
answer "no finger" from now on. -/
def demo_after_match : FingerprintSensor :=
  (scan_fingerprint 1000 { demo_sensor with replies :=
    [status_reply FINGERPRINT_OK, status_reply FINGERPRINT_OK,
     { status := FINGERPRINT_OK, fingerID := 7, confidence := 120, templateCount := 0 },
     status_reply FINGERPRINT_NOFINGER, status_reply FINGERPRINT_NOFINGER,
     status_reply FINGERPRINT_NOFINGER] }).getD demo_sensor

/-- Lines 322-326 of `scan_fingerprint`: the name reported for a matched id, "Unknown" unless
`fingerprint_names_.find(id)` finds an entry. -/
def lookup_name (id : Int) (names : List (Int × String)) : String :=
  match map_find id names with
  | some found => found
  | none => "Unknown"

/-- What a match publishes, on the sensors that are set, with the LED command in between. -/
def match_observation (self : FingerprintSensor) (id confidence : Int) (name : String) :
    List Event :=
  (if self.match_id_sensor_ then [Event.publish_match_id id] else []) ++
  (if self.match_name_sensor_ then [Event.publish_match_name name] else []) ++
  (if self.confidence_sensor_ then [Event.publish_confidence confidence] else []) ++
  (if self.ring_sensor_ then [Event.publish_ring false] else []) ++
  [Event.LEDcontrol FINGERPRINT_LED_ON 0 FINGERPRINT_LED_PURPLE 0] ++
  (if self.status_sensor_ then [Event.publish_status ("Match: " ++ name)] else [])

/-- What a doorbell ring publishes, on the sensors that are set. -/
def ring_observation (self : FingerprintSensor) : List Event :=
  (if self.ring_sensor_ then [Event.publish_ring true] else []) ++
  (if self.match_id_sensor_ then [Event.publish_match_id (-1)] else []) ++
  (if self.match_name_sensor_ then [Event.publish_match_name ""] else []) ++
  (if self.confidence_sensor_ then [Event.publish_confidence 0] else []) ++
  (if self.status_sensor_ then [Event.publish_status "Doorbell ring!"] else [])


/-- The number that a list of decimal digit characters denotes. -/
def decimal_value (l : List Char) : Nat :=
  l.foldl (fun a c => a * 10 + (c.toNat - 48)) 0


/-- In every state whose map is `names`, a due scan step that captures, converts and finds `id`
returns and reports `name` for it (on the sensors that are set). -/
def match_reports (names : List (Int × String)) (id : Int) (name : String) : Prop :=
  ∀ (t : Nat) (u : FingerprintSensor) (q1 q2 q3 : Reply) (rest : List Reply),
    u.fingerprint_names_ = names →
    100 ≤ u32_sub t u.last_scan_time_ →
    u.replies = q1 :: q2 :: q3 :: rest →
    q1.status = FINGERPRINT_OK → q2.status = FINGERPRINT_OK → q3.status = FINGERPRINT_OK →
    (q3.fingerID : Int) = id →
    ∃ s, scan_fingerprint t u = some s ∧
      s.events = u.events ++
        [Event.call SensorCall.getImage FINGERPRINT_OK,
         Event.LEDcontrol FINGERPRINT_LED_FLASHING 25 FINGERPRINT_LED_RED 0,
         Event.call (SensorCall.image2Tz 1) FINGERPRINT_OK,
         Event.call SensorCall.fingerSearch FINGERPRINT_OK] ++
        match_observation u id q3.confidence name ++
        [Event.delay 3000]

/-- The registry entries of `id` (map entry, key presence and stored string) are the same in
both states. -/
def same_entry (id : Int) (s t : FingerprintSensor) : Prop :=
  map_find id t.fingerprint_names_ = map_find id s.fingerprint_names_ ∧
  preferences_isKey (String_of_int id) t.preferences_ =
    preferences_isKey (String_of_int id) s.preferences_ ∧
  ∀ d, preferences_getString (String_of_int id) d t.preferences_ =
    preferences_getString (String_of_int id) d s.preferences_


/-- Answers of a sensor to a scan step that captures, converts and finds nothing. -/
def ring_script : List Reply :=
  [status_reply FINGERPRINT_OK, status_reply FINGERPRINT_OK, status_reply FINGERPRINT_NOTFOUND]

/-- Answers of a sensor to a scan step that captures, converts and finds `id`. -/
def match_script (id confidence : Nat) : List Reply :=
  [status_reply FINGERPRINT_OK, status_reply FINGERPRINT_OK,
   { status := FINGERPRINT_OK, fingerID := id, confidence := confidence, templateCount := 0 }]

/-- The component after the complete enrollment of id 5 as "Alice". -/
def demo_after_enroll : FingerprintSensor :=
  (enroll_fingerprint 5 "Alice" { demo_sensor with replies := successful_script }).getD
    demo_sensor


/-- The component at power-up, before `setup`: not connected, an empty map, and the name of
id 7 in the preferences from an earlier run. -/
def demo_boot : FingerprintSensor :=
  { demo_sensor with connected_ := false, fingerprint_names_ := [] }


/-- The lowercase hexadecimal digits, in order. -/
def hex_digits : List Char := "0123456789abcdef".data

/-- The two-digit lowercase hexadecimal rendering of a byte, high digit first. -/
def lower_hex_of_byte (b : Nat) : List Char :=
  [hex_digits.getD (b / 16) '0', hex_digits.getD (b % 16) '0']

/-- Whether an event is a `getImage` command. -/
def is_getImage : Event → Bool
  | Event.call SensorCall.getImage _ => true
  | _ => false

/-- The times, among those of successive scan steps, at which the step called `getImage`. -/
def poll_times : List Nat → FingerprintSensor → List Nat
  | [], _ => []
  | t :: ts, self =>
      match scan_fingerprint t self with
      | none => []
      | some s =>
          if (new_events self s).any is_getImage then t :: poll_times ts s
          else poll_times ts s

/-- The component some 50 ms before `millis()` wraps around, having just polled. -/
def demo_before_wrap : FingerprintSensor :=
  { demo_sensor with
    last_scan_time_ := 2 ^ 32 - 50
    replies := [status_reply FINGERPRINT_NOFINGER, status_reply FINGERPRINT_NOFINGER] }

/-- Operations on the registry that the host can invoke. -/
inductive RegistryOp where
  | enroll (id : Int) (name : String)
  | delete (id : Int)
  | clear
deriving DecidableEq, Repr

/-- Run one registry operation. -/
def RegistryOp.run : RegistryOp → FingerprintSensor → Option FingerprintSensor
  | .enroll id name, self => enroll_fingerprint id name self
  | .delete id, self => delete_fingerprint id self
  | .clear, self => clear_all self

/-- Run registry operations in sequence. -/
def run_registry_ops : List RegistryOp → FingerprintSensor → Option FingerprintSensor
  | [], self => some self
  | op :: ops, self =>
      match op.run self with
      | none => none
      | some s => run_registry_ops ops s

/-- The name an enrollment carries is not empty and has no NUL byte. -/
def RegistryOp.name_ok : RegistryOp → Prop
  | .enroll _ name => name ≠ "" ∧ is_c_string name
  | _ => True

instance (op : RegistryOp) : Decidable op.name_ok := by
  cases op <;> unfold RegistryOp.name_ok <;> infer_instance

/-- The map that `load_fingerprint_names` builds, starting from an empty map, from the
preferences of `self`. -/
def reloaded_names (self : FingerprintSensor) : List (Int × String) :=
  (load_fingerprint_names { self with fingerprint_names_ := [] }).fingerprint_names_

/-- What `load_fingerprint_names` takes from the preferences for id `i`. -/
def loaded_entry (prefs : List (String × String)) (i : Int) : Option (Int × String) :=
  if preferences_isKey (String_of_int i) prefs then
    if (preferences_getString (String_of_int i) "" prefs).length > 0 then
      some (i, string_of_buffer (c_str (preferences_getString (String_of_int i) "" prefs)))
    else none
  else none

/-- The ids `load_fingerprint_names` goes through, in order. -/
def slot_ids : List Int := (List.range' 1 200).map (fun n : Nat => (n : Int))

/-- The map an operation sequence leaves in memory, next to the map a reload builds from the
preferences it leaves. -/
def maps_after (ops : List RegistryOp) (self : FingerprintSensor) :
    Option (List (Int × String) × List (Int × String)) :=
  (run_registry_ops ops self).map (fun s => (s.fingerprint_names_, reloaded_names s))

/-- Answers of a sensor to a complete enrollment followed by a deletion with its count. -/
def registry_script : List Reply :=
  successful_script ++ [status_reply FINGERPRINT_OK, status_reply FINGERPRINT_OK]

/-- Enroll id 5 as "Alice", then delete id 7. -/
def demo_registry_ops : List RegistryOp :=
  [RegistryOp.enroll 5 "Alice", RegistryOp.delete 7]

/-- The component after `demo_registry_ops` on `registry_script`. -/
def demo_after_ops : FingerprintSensor :=
  (run_registry_ops demo_registry_ops { demo_sensor with replies := registry_script }).getD
    demo_sensor

/-- Driver commands answered by the sensor, and writes to the preferences. -/
def is_command : Event → Bool
  | Event.call _ _ => true
  | Event.preferences_putString _ _ => true
  | Event.preferences_remove _ => true
  | Event.preferences_clear => true
  | _ => false

/-- From `s` to `t` the events grew by a list whose commands are `commands`. -/
def Commands (s t : FingerprintSensor) (commands : List Event) : Prop :=
  ∃ l, t.events = s.events ++ l ∧ l.filter is_command = commands

/-- The polls of a wait loop: one `getImage` for each of the answers, in order. -/
def polls (answers : List Nat) : List Event :=
  answers.map (Event.call SensorCall.getImage)

/-- Answers under which the two wait loops of a pass keep polling: `lifted` for the wait until
the finger is lifted (anything but "no finger"), `waiting` for the wait until an image is
captured (anything but OK and the two errors that end the enrollment). -/
def keeps_polling (lifted waiting : List Nat) : Prop :=
  (∀ a ∈ lifted, a ≠ FINGERPRINT_NOFINGER) ∧
  (∀ a ∈ waiting, a ≠ FINGERPRINT_OK ∧ a ≠ FINGERPRINT_PACKETRECIEVEERR ∧
    a ≠ FINGERPRINT_IMAGEFAIL)

instance (lifted waiting : List Nat) : Decidable (keeps_polling lifted waiting) := by
  unfold keeps_polling
  infer_instance

/-- The commands of capture pass `pass` when it completes: from the second pass on, the polls
answered `lifted` and the one answered "no finger"; then the polls answered `waiting`, the
`getImage` answered OK (the capture), and `image2Tz(pass)` answered OK. -/
def capture_pass_commands (pass : Nat) (lifted waiting : List Nat) : List Event :=
  (if pass > 1 then polls lifted ++ [Event.call SensorCall.getImage FINGERPRINT_NOFINGER]
   else []) ++
  polls waiting ++
  [Event.call SensorCall.getImage FINGERPRINT_OK,
   Event.call (SensorCall.image2Tz pass) FINGERPRINT_OK]

/-- The commands of the capture passes `passes`, in order, with the answers polled through in
each of them. -/
def capture_passes_commands (passes : List Nat) (answers : List (List Nat × List Nat)) :
    List Event :=
  (List.zip passes answers).flatMap
    (fun p => capture_pass_commands p.1 p.2.1 p.2.2)

/-- The part of a string before its first NUL character. -/
def before_first_nul (s : String) : String :=
  String.mk (s.data.takeWhile (fun c => decide (c.toNat ≠ 0)))

/-- The answers polled through in each pass of the enrollment on `successful_script`: in pass 3
the finger is still down at first, and then not yet back. -/
def demo_pass_answers : List (List Nat × List Nat) :=
  [([], []), ([], []), ([FINGERPRINT_OK], [FINGERPRINT_NOFINGER]), ([], []), ([], [])]

/-! ## Pairing: lemmas -/

theorem generate_pairing_code_demo :
    generate_pairing_code demo_hash = "000102030405060708090a0b0c0d0e0f" := by
  decide

theorem string_eq_iff_length_and_chars (a b : String) :
    a = b ↔ (a.length = b.length ∧ ∀ i : Nat, a.data[i]? = b.data[i]?) := by
  constructor
  · rintro rfl; exact ⟨rfl, fun _ => rfl⟩
  · rintro ⟨_, h⟩
    exact String.ext (List.ext_getElem? h)

theorem run_unacknowledged (op : PairingOp) (self : FingerprintPairing)
    (hcode : self.stored_pairing_code_ ≠ "") (hinvalid : self.pairing_valid_ = false)
    (hpersisted : op.is_setup = true → persisted_invalid self)
    (hop : op.acknowledged_pair = false) :
    (op.run self).1 ≠ some true ∧ (op.run self).2.pairing_valid_ = false ∧
    (op.run self).2.stored_pairing_code_ = self.stored_pairing_code_ ∧
    (op.run self).2.prefs_pairing_code = self.prefs_pairing_code ∧
    (op.run self).2.prefs_pairing_valid = self.prefs_pairing_valid := by
  cases op with
  | check hash reply => simp [PairingOp.run, check_pairing, hcode, hinvalid]
  | pair hash reply =>
    have hnack :
        write_notepad 0 (c_str (generate_pairing_code hash)) 32 reply ≠ FINGERPRINT_OK := by
      simpa [PairingOp.acknowledged_pair] using hop
    simp [PairingOp.run, do_pairing, hnack, hinvalid]
  | setup hash reply =>
    obtain ⟨hc, hv⟩ := hpersisted rfl
    have hv2 : self.prefs_pairing_valid.getD false = false := by
      cases hpv : self.prefs_pairing_valid with
      | none => rfl
      | some b =>
        cases b with
        | false => rfl
        | true => exact absurd hpv hv
    simp [PairingOp.run, FingerprintPairing.setup, hc, hcode, hv2]

theorem run_ops_unacknowledged (ops : List PairingOp) (self : FingerprintPairing)
    (hcode : self.stored_pairing_code_ ≠ "") (hinvalid : self.pairing_valid_ = false)
    (hpersisted : (∃ op ∈ ops, op.is_setup = true) → persisted_invalid self)
    (hops : ∀ op ∈ ops, op.acknowledged_pair = false) :
    (∀ b ∈ (run_ops ops self).1, b ≠ some true) ∧
    (run_ops ops self).2.pairing_valid_ = false ∧
    (run_ops ops self).2.stored_pairing_code_ = self.stored_pairing_code_ ∧
    (run_ops ops self).2.prefs_pairing_code = self.prefs_pairing_code ∧
    (run_ops ops self).2.prefs_pairing_valid = self.prefs_pairing_valid := by
  induction ops generalizing self with
  | nil => simp [run_ops, hinvalid]
  | cons op ops ih =>
    have h1 := run_unacknowledged op self hcode hinvalid
      (fun hs => hpersisted ⟨op, List.mem_cons_self _ _, hs⟩) (hops op (List.mem_cons_self _ _))
    have h2 := ih (op.run self).2 (by rw [h1.2.2.1]; exact hcode) h1.2.1
      (fun ⟨o, ho, hs⟩ => by
        have hp := hpersisted ⟨o, List.mem_cons_of_mem _ ho, hs⟩
        unfold persisted_invalid at hp ⊢
        rw [h1.2.2.1, h1.2.2.2.1, h1.2.2.2.2]
        exact hp)
      (fun o ho => hops o (List.mem_cons_of_mem _ ho))
    simp only [run_ops]
    refine ⟨?_, h2.2.1, ?_, ?_, ?_⟩
    · intro b hb
      rcases List.mem_cons.mp hb with rfl | hb
      · exact h1.1
      · exact h2.1 b hb
    · rw [h2.2.2.1, h1.2.2.1]
    · rw [h2.2.2.2.1, h1.2.2.2.1]
    · rw [h2.2.2.2.2, h1.2.2.2.2]

theorem check_pairing_mismatch_invalidates (hash : List Nat) (reply : PacketReply)
    (self : FingerprintPairing)
    (hcode : self.stored_pairing_code_ ≠ "") (hvalid : self.pairing_valid_ = true)
    (hread : get_sensor_pairing_code reply ≠ "")
    (hdiff : get_sensor_pairing_code reply ≠ self.stored_pairing_code_) :
    (check_pairing hash reply self).1 = false ∧
    (check_pairing hash reply self).2.pairing_valid_ = false ∧
    (check_pairing hash reply self).2.prefs_pairing_valid = some false := by
  simp [check_pairing, hcode, hvalid, hread, hdiff]


/-! ## Sensor component: lemmas -/

theorem scan_absent_idle (t : Nat) (self s : FingerprintSensor)
    (hlatch : self.last_ring_state_ = false)
    (habsent : ∀ r ∈ self.replies, r.status = FINGERPRINT_NOFINGER)
    (hscan : scan_fingerprint t self = some s) :
    s.last_ring_state_ = false ∧ (∀ r ∈ s.replies, r.status = FINGERPRINT_NOFINGER) ∧
    (s.events = self.events ∨
      s.events = self.events ++ [Event.call SensorCall.getImage FINGERPRINT_NOFINGER]) := by
  unfold scan_fingerprint at hscan
  split at hscan
  · cases hscan; exact ⟨hlatch, habsent, Or.inl rfl⟩
  · cases hrep : self.replies with
    | nil => simp [finger_call, hrep] at hscan
    | cons r rest =>
      have hr : r.status = FINGERPRINT_NOFINGER := habsent r (by simp [hrep])
      simp [finger_call, hrep, hr, hlatch] at hscan
      subst hscan
      refine ⟨rfl, ?_, Or.inr rfl⟩
      intro q hq
      exact habsent q (by simp [hrep, hq])

theorem scan_steps_absent_idle (ts : List Nat) (self s : FingerprintSensor)
    (hlatch : self.last_ring_state_ = false)
    (habsent : ∀ r ∈ self.replies, r.status = FINGERPRINT_NOFINGER)
    (hscan : scan_steps ts self = some s) :
    s.last_ring_state_ = false ∧
    ∃ n, s.events = self.events ++
      List.replicate n (Event.call SensorCall.getImage FINGERPRINT_NOFINGER) := by
  induction ts generalizing self with
  | nil =>
    simp only [scan_steps, Option.some.injEq] at hscan
    subst hscan
    exact ⟨hlatch, 0, by simp⟩
  | cons t ts ih =>
    simp only [scan_steps] at hscan
    cases h1 : scan_fingerprint t self with
    | none => simp [h1] at hscan
    | some s1 =>
      simp only [h1] at hscan
      obtain ⟨hl1, ha1, he1⟩ := scan_absent_idle t self s1 hlatch habsent h1
      obtain ⟨hl2, n, he2⟩ := ih s1 hl1 ha1 hscan
      refine ⟨hl2, ?_⟩
      rcases he1 with he1 | he1
      · exact ⟨n, by rw [he2, he1]⟩
      · refine ⟨n + 1, ?_⟩
        rw [he2, he1, List.append_assoc]
        rfl

theorem scan_absent_returns (t : Nat) (self : FingerprintSensor)
    (hlatch : self.last_ring_state_ = false)
    (habsent : ∀ r ∈ self.replies, r.status = FINGERPRINT_NOFINGER)
    (hne : self.replies ≠ []) :
    ∃ s, scan_fingerprint t self = some s ∧ self.replies.length ≤ s.replies.length + 1 := by
  unfold scan_fingerprint
  split
  · exact ⟨self, rfl, by omega⟩
  · cases hrep : self.replies with
    | nil => exact absurd hrep hne
    | cons r rest =>
      have hr : r.status = FINGERPRINT_NOFINGER := habsent r (by simp [hrep])
      simp [finger_call, hrep, hr, hlatch]

theorem scan_steps_absent_returns (ts : List Nat) (self : FingerprintSensor)
    (hlatch : self.last_ring_state_ = false)
    (habsent : ∀ r ∈ self.replies, r.status = FINGERPRINT_NOFINGER)
    (hlen : ts.length ≤ self.replies.length) :
    ∃ final, scan_steps ts self = some final := by
  induction ts generalizing self with
  | nil => exact ⟨self, rfl⟩
  | cons t ts ih =>
    have hne : self.replies ≠ [] := by
      intro h
      rw [h] at hlen
      simp at hlen
    obtain ⟨s1, h1, hl1⟩ := scan_absent_returns t self hlatch habsent hne
    obtain ⟨hlatch1, habsent1, _⟩ := scan_absent_idle t self s1 hlatch habsent h1
    have hlen1 : ts.length ≤ s1.replies.length := by
      simp only [List.length_cons] at hlen
      omega
    obtain ⟨final, hfinal⟩ := ih s1 hlatch1 habsent1 hlen1
    exact ⟨final, by simp only [scan_steps, h1, hfinal]⟩

theorem publish_ring_eq (b : Bool) (s : FingerprintSensor) :
    publish_ring b s =
      { s with events := s.events ++ (if s.ring_sensor_ then [Event.publish_ring b] else []) } := by
  unfold publish_ring
  cases s
  split <;> simp_all

theorem publish_match_id_eq (v : Int) (s : FingerprintSensor) :
    publish_match_id v s =
      { s with events := s.events ++
          (if s.match_id_sensor_ then [Event.publish_match_id v] else []) } := by
  unfold publish_match_id
  cases s
  split <;> simp_all

theorem publish_match_name_eq (v : String) (s : FingerprintSensor) :
    publish_match_name v s =
      { s with events := s.events ++
          (if s.match_name_sensor_ then [Event.publish_match_name v] else []) } := by
  unfold publish_match_name
  cases s
  split <;> simp_all

theorem publish_confidence_eq (v : Int) (s : FingerprintSensor) :
    publish_confidence v s =
      { s with events := s.events ++
          (if s.confidence_sensor_ then [Event.publish_confidence v] else []) } := by
  unfold publish_confidence
  cases s
  split <;> simp_all

theorem scan_absent_latched (t : Nat) (self : FingerprintSensor) (r : Reply) (rest : List Reply)
    (hlatch : self.last_ring_state_ = true)
    (hdue : 100 ≤ u32_sub t self.last_scan_time_)
    (hreplies : self.replies = r :: rest)
    (habsent : r.status = FINGERPRINT_NOFINGER) :
    ∃ s, scan_fingerprint t self = some s ∧
      s.last_ring_state_ = false ∧ s.replies = rest ∧
      s.events = self.events ++ [Event.call SensorCall.getImage FINGERPRINT_NOFINGER] ++
        cleared_observation self ++
        [Event.LEDcontrol FINGERPRINT_LED_BREATHING 250 FINGERPRINT_LED_BLUE 0] := by
  have hnot : ¬ u32_sub t self.last_scan_time_ < 100 := by omega
  unfold scan_fingerprint
  simp only [hnot, if_false, finger_call, hreplies, habsent, hlatch, if_true]
  refine ⟨_, rfl, ?_, ?_, ?_⟩
  · simp only [finger_LEDcontrol, publish_ring_eq, publish_match_id_eq, publish_match_name_eq,
      publish_confidence_eq]
  · simp only [finger_LEDcontrol, publish_ring_eq, publish_match_id_eq, publish_match_name_eq,
      publish_confidence_eq]
  · simp only [finger_LEDcontrol, publish_ring_eq, publish_match_id_eq, publish_match_name_eq,
      publish_confidence_eq, cleared_observation, List.append_assoc]

theorem scan_present_latches (t0 : Nat) (s0 : FingerprintSensor) (r1 r2 r3 : Reply)
    (rest0 : List Reply)
    (hdue : 100 ≤ u32_sub t0 s0.last_scan_time_)
    (hreplies : s0.replies = r1 :: r2 :: r3 :: rest0)
    (h1 : r1.status = FINGERPRINT_OK) (h2 : r2.status = FINGERPRINT_OK)
    (h3 : r3.status = FINGERPRINT_OK ∨ r3.status = FINGERPRINT_NOTFOUND) :
    ∃ s1, scan_fingerprint t0 s0 = some s1 ∧ s1.last_ring_state_ = true := by
  have hnot : ¬ u32_sub t0 s0.last_scan_time_ < 100 := by omega
  have h1' : ¬ r1.status = FINGERPRINT_NOFINGER := by rw [h1]; decide
  unfold scan_fingerprint
  rcases h3 with h3 | h3
  · simp only [hnot, if_false, finger_call, hreplies, h1, h2, h3, if_true, finger_LEDcontrol,
      ne_eq, not_true_eq_false, h1']
    exact ⟨_, rfl, rfl⟩
  · have h3' : ¬ r3.status = FINGERPRINT_OK := by rw [h3]; decide
    simp only [hnot, if_false, finger_call, hreplies, h1, h2, h3, if_true, finger_LEDcontrol,
      ne_eq, not_true_eq_false, h1']
    exact ⟨_, rfl, rfl⟩

theorem Trace.refl (s : FingerprintSensor) : Trace s s [] :=
  ⟨[], by simp, rfl, rfl, rfl⟩

theorem Trace.trans {s t u : FingerprintSensor} {a b : List Event}
    (h1 : Trace s t a) (h2 : Trace t u b) : Trace s u (a ++ b) := by
  obtain ⟨l1, he1, hf1, hn1, hp1⟩ := h1
  obtain ⟨l2, he2, hf2, hn2, hp2⟩ := h2
  refine ⟨l1 ++ l2, ?_, ?_, hn2.trans hn1, hp2.trans hp1⟩
  · rw [he2, he1, List.append_assoc]
  · rw [List.filter_append, hf1, hf2]

theorem filter_new_events_of_trace {s t : FingerprintSensor} {steps : List Event}
    (h : Trace s t steps) :
    (new_events s t).filter is_enroll_step = steps := by
  obtain ⟨l, he, hf, _, _⟩ := h
  unfold new_events
  rw [he, List.drop_left, hf]

theorem trace_finger_call {c : SensorCall} {s t : FingerprintSensor} {r : Reply}
    (h : finger_call c s = some (r, t)) :
    Trace s t ([Event.call c r.status].filter is_enroll_step) ∧
      t.replies.length < s.replies.length := by
  unfold finger_call at h
  cases hrep : s.replies with
  | nil => simp [hrep] at h
  | cons q rest =>
    simp only [hrep, Option.some.injEq, Prod.mk.injEq] at h
    obtain ⟨rfl, rfl⟩ := h
    exact ⟨⟨_, rfl, rfl, rfl, rfl⟩, by simp⟩

theorem trace_publish_status (m : String) (s : FingerprintSensor) :
    Trace s (publish_status m s) [] := by
  unfold publish_status
  split
  · exact ⟨_, rfl, rfl, rfl, rfl⟩
  · exact Trace.refl s

theorem trace_LEDcontrol (a b c d : Nat) (s : FingerprintSensor) :
    Trace s (finger_LEDcontrol a b c d s) [] :=
  ⟨_, rfl, rfl, rfl, rfl⟩

theorem trace_delay (ms : Nat) (s : FingerprintSensor) : Trace s (delay ms s) [] :=
  ⟨_, rfl, rfl, rfl, rfl⟩

theorem replies_finger_call {c : SensorCall} {s t : FingerprintSensor} {r : Reply}
    (h : finger_call c s = some (r, t)) : s.replies = r :: t.replies := by
  unfold finger_call at h
  cases hrep : s.replies with
  | nil => simp [hrep] at h
  | cons q rest =>
    simp only [hrep, Option.some.injEq, Prod.mk.injEq] at h
    obtain ⟨rfl, rfl⟩ := h
    rfl

/-- The fuel `replies.length + 1` is enough for `wait_no_finger`: any larger fuel gives the same
result, because every iteration takes one answer from the script. -/
theorem wait_no_finger_fuel (fuel fuel2 : Nat) (s : FingerprintSensor)
    (h1 : s.replies.length < fuel) (h2 : s.replies.length < fuel2) :
    wait_no_finger fuel s = wait_no_finger fuel2 s := by
  induction fuel generalizing s fuel2 with
  | zero => omega
  | succ fuel ih =>
    cases fuel2 with
    | zero => omega
    | succ fuel2 =>
      simp only [wait_no_finger]
      cases hc : finger_call SensorCall.getImage s with
      | none => rfl
      | some p =>
        obtain ⟨r, s1⟩ := p
        have hrep := replies_finger_call hc
        have hlen : s.replies.length = s1.replies.length + 1 := by rw [hrep]; rfl
        simp only []
        split
        · exact ih fuel2 (delay 50 s1) (by simp only [delay]; omega) (by simp only [delay]; omega)
        · rfl

/-- The fuel `replies.length + 1` is enough for `wait_for_finger`. -/
theorem wait_for_finger_fuel (fuel fuel2 : Nat) (s : FingerprintSensor)
    (h1 : s.replies.length < fuel) (h2 : s.replies.length < fuel2) :
    wait_for_finger fuel s = wait_for_finger fuel2 s := by
  induction fuel generalizing s fuel2 with
  | zero => omega
  | succ fuel ih =>
    cases fuel2 with
    | zero => omega
    | succ fuel2 =>
      simp only [wait_for_finger]
      cases hc : finger_call SensorCall.getImage s with
      | none => rfl
      | some p =>
        obtain ⟨r, s1⟩ := p
        have hrep := replies_finger_call hc
        have hlen : s.replies.length = s1.replies.length + 1 := by rw [hrep]; rfl
        simp only []
        split
        · rfl
        · split
          · exact ih fuel2 (delay 50 s1) (by simp only [delay]; omega)
              (by simp only [delay]; omega)
          · rfl

theorem trace_wait_no_finger (fuel : Nat) (s t : FingerprintSensor)
    (h : wait_no_finger fuel s = some t) : Trace s t [] := by
  induction fuel generalizing s with
  | zero => simp [wait_no_finger] at h
  | succ fuel ih =>
    simp only [wait_no_finger] at h
    cases hc : finger_call SensorCall.getImage s with
    | none => simp [hc] at h
    | some p =>
      obtain ⟨r, s1⟩ := p
      simp only [hc] at h
      have h1 := (trace_finger_call hc).1
      simp only [List.filter, is_enroll_step, is_model_call] at h1
      split at h
      · have h2 := ih _ h
        simpa using h1.trans ((trace_delay 50 s1).trans h2)
      · cases h; exact h1

theorem trace_wait_for_finger (fuel : Nat) (s t : FingerprintSensor) (o : Option Nat)
    (h : wait_for_finger fuel s = some (o, t)) :
    Trace s t [] ∧ ∀ r, o = some r → r ≠ FINGERPRINT_OK := by
  induction fuel generalizing s with
  | zero => simp [wait_for_finger] at h
  | succ fuel ih =>
    simp only [wait_for_finger] at h
    cases hc : finger_call SensorCall.getImage s with
    | none => simp [hc] at h
    | some p =>
      obtain ⟨r, s1⟩ := p
      simp only [hc] at h
      have h1 := (trace_finger_call hc).1
      simp only [List.filter, is_enroll_step, is_model_call] at h1
      split at h
      · rename_i herr
        simp only [Option.some.injEq, Prod.mk.injEq] at h
        obtain ⟨rfl, rfl⟩ := h
        refine ⟨h1, ?_⟩
        intro q hq
        cases hq
        rcases herr with herr | herr <;> rw [herr] <;> decide
      · split at h
        · obtain ⟨h2, h3⟩ := ih _ h
          exact ⟨by simpa using h1.trans ((trace_delay 50 s1).trans h2), h3⟩
        · simp only [Option.some.injEq, Prod.mk.injEq] at h
          obtain ⟨rfl, rfl⟩ := h
          exact ⟨by simpa using h1.trans (trace_delay 50 s1), by simp⟩

theorem trace_wait_finger_lifted (pass : Nat) (s t : FingerprintSensor)
    (h : wait_finger_lifted pass s = some t) : Trace s t [] := by
  unfold wait_finger_lifted at h
  split at h
  · split at h
    · simp at h
    · rename_i s0 hs0
      cases h
      have hw := trace_wait_no_finger _ _ _ hs0
      simpa using (trace_LEDcontrol _ _ _ _ s).trans (hw.trans (trace_delay 500 s0))
  · cases h
    exact Trace.refl s

theorem outcome_enrollment_pass (pass : Nat) (s t : FingerprintSensor) (o : Option Nat)
    (h : enrollment_pass pass s = some (o, t)) :
    Outcome s t o [Event.call (SensorCall.image2Tz pass) FINGERPRINT_OK] := by
  unfold enrollment_pass at h
  simp only at h
  split at h
  · simp at h
  · rename_i s1 hlift
    have t1 : Trace s s1 [] := by
      simpa using (trace_publish_status _ s).trans (trace_wait_finger_lifted _ _ _ hlift)
    split at h
    · simp at h
    · rename_i r s2 hwf
      simp only [Option.some.injEq, Prod.mk.injEq] at h
      obtain ⟨rfl, rfl⟩ := h
      obtain ⟨t2, hr⟩ := trace_wait_for_finger _ _ _ _ hwf
      exact ⟨hr r rfl, _, t1.trans ((trace_LEDcontrol _ _ _ _ _).trans t2)⟩
    · rename_i s2 hwf
      obtain ⟨t2, _⟩ := trace_wait_for_finger _ _ _ _ hwf
      have t12 : Trace s s2 [] := by
        simpa using t1.trans ((trace_LEDcontrol _ _ _ _ _).trans t2)
      cases hc : finger_call (SensorCall.image2Tz pass) s2 with
      | none => simp [hc] at h
      | some p =>
        obtain ⟨r, s3⟩ := p
        simp only [hc] at h
        have t3 := (trace_finger_call hc).1
        simp only [List.filter, is_enroll_step, is_model_call] at t3
        split at h
        · rename_i hne
          simp only [Option.some.injEq, Prod.mk.injEq] at h
          obtain ⟨rfl, rfl⟩ := h
          exact ⟨hne, _, t12.trans t3⟩
        · rename_i heq
          simp only [Option.some.injEq, Prod.mk.injEq] at h
          obtain ⟨rfl, rfl⟩ := h
          have heq : r.status = FINGERPRINT_OK := by simpa using heq
          rw [heq] at t3
          show Trace s _ _
          simpa using
            t12.trans (t3.trans ((trace_LEDcontrol _ _ _ _ _).trans (trace_delay 1000 _)))

theorem outcome_enrollment_passes (passes : List Nat) (s t : FingerprintSensor) (o : Option Nat)
    (h : enrollment_passes passes s = some (o, t)) :
    Outcome s t o
      (passes.map (fun pass => Event.call (SensorCall.image2Tz pass) FINGERPRINT_OK)) := by
  induction passes generalizing s with
  | nil =>
    simp only [enrollment_passes, Option.some.injEq, Prod.mk.injEq] at h
    obtain ⟨rfl, rfl⟩ := h
    exact Trace.refl s
  | cons pass rest ih =>
    simp only [enrollment_passes] at h
    split at h
    · simp at h
    · rename_i r s1 hp
      simp only [Option.some.injEq, Prod.mk.injEq] at h
      obtain ⟨rfl, rfl⟩ := h
      exact outcome_enrollment_pass pass s _ _ hp
    · rename_i s1 hp
      have h1 : Trace s s1 _ := outcome_enrollment_pass pass s _ _ hp
      have h2 := ih s1 h
      cases o with
      | none => exact h1.trans h2
      | some r =>
        obtain ⟨hr, l, hl⟩ := h2
        exact ⟨hr, _, h1.trans hl⟩

theorem trace_perform_enrollment (id : Int) (s t : FingerprintSensor) (result : Int)
    (h : perform_enrollment id s = some (result, t)) :
    (result = 0 → Trace s t (successful_model_steps id)) ∧ ∃ l, Trace s t l := by
  unfold perform_enrollment at h
  split at h
  · simp at h
  · rename_i r s1 hp
    simp only [Option.some.injEq, Prod.mk.injEq] at h
    obtain ⟨rfl, rfl⟩ := h
    obtain ⟨hr, l, hl⟩ : Outcome s s1 (some r) _ := outcome_enrollment_passes _ s _ _ hp
    refine ⟨fun h0 => absurd (by exact_mod_cast h0) hr, l, hl⟩
  · rename_i s1 hp
    have t1 : Trace s s1 _ := outcome_enrollment_passes _ s _ _ hp
    simp only at h
    cases hc : finger_call SensorCall.createModel
        (publish_status "Creating fingerprint model..." s1) with
    | none => simp [hc] at h
    | some p =>
      obtain ⟨r, s2⟩ := p
      simp only [hc] at h
      have t2 := (trace_finger_call hc).1
      simp only [List.filter, is_enroll_step, is_model_call] at t2
      have t12 := t1.trans ((trace_publish_status _ s1).trans t2)
      split at h
      · rename_i hne
        simp only [Option.some.injEq, Prod.mk.injEq] at h
        obtain ⟨rfl, rfl⟩ := h
        exact ⟨fun h0 => absurd (by exact_mod_cast h0) hne, _, t12⟩
      · rename_i heq
        have heq : r.status = FINGERPRINT_OK := by simpa using heq
        rw [heq] at t12
        cases hc2 : finger_call (SensorCall.storeModel id)
            (publish_status "Storing fingerprint..." s2) with
        | none => simp [hc2] at h
        | some p2 =>
          obtain ⟨r2, s3⟩ := p2
          simp only [hc2] at h
          have t3 := (trace_finger_call hc2).1
          simp only [List.filter, is_enroll_step, is_model_call] at t3
          have t123 := t12.trans ((trace_publish_status _ s2).trans t3)
          split at h
          · rename_i hne2
            simp only [Option.some.injEq, Prod.mk.injEq] at h
            obtain ⟨rfl, rfl⟩ := h
            exact ⟨fun h0 => absurd (by exact_mod_cast h0) hne2, _, t123⟩
          · rename_i heq2
            have heq2 : r2.status = FINGERPRINT_OK := by simpa using heq2
            rw [heq2] at t123
            simp only [Option.some.injEq, Prod.mk.injEq] at h
            obtain ⟨rfl, rfl⟩ := h
            exact ⟨fun _ => by simpa [successful_model_steps] using t123, _, t123⟩

theorem events_finger_call {c : SensorCall} {s t : FingerprintSensor} {r : Reply}
    (h : finger_call c s = some (r, t)) : t.events = s.events ++ [Event.call c r.status] := by
  unfold finger_call at h
  cases hrep : s.replies with
  | nil => simp [hrep] at h
  | cons q rest =>
    simp only [hrep, Option.some.injEq, Prod.mk.injEq] at h
    obtain ⟨rfl, rfl⟩ := h
    rfl

theorem perform_enrollment_ok_last (id : Int) (s t : FingerprintSensor)
    (h : perform_enrollment id s = some (0, t)) :
    ∃ pre, t.events = pre ++ [Event.call (SensorCall.storeModel id) FINGERPRINT_OK] := by
  unfold perform_enrollment at h
  split at h
  · simp at h
  · rename_i r s1 hp
    simp only [Option.some.injEq, Prod.mk.injEq] at h
    obtain ⟨hr, _⟩ := h
    obtain ⟨hne, _⟩ : Outcome s s1 (some r) _ := outcome_enrollment_passes _ s _ _ hp
    exact absurd (by exact_mod_cast hr) hne
  · simp only at h
    split at h
    · simp at h
    · rename_i r s2 hc
      split at h
      · rename_i hne
        simp only [Option.some.injEq, Prod.mk.injEq] at h
        exact absurd (by exact_mod_cast h.1) hne
      · split at h
        · simp at h
        · rename_i r2 s3 hc2
          split at h
          · rename_i hne2
            simp only [Option.some.injEq, Prod.mk.injEq] at h
            exact absurd (by exact_mod_cast h.1) hne2
          · rename_i heq2
            have heq2 : r2.status = FINGERPRINT_OK := by simpa using heq2
            simp only [Option.some.injEq, Prod.mk.injEq, true_and] at h
            subst h
            have he := events_finger_call hc2
            exact ⟨_, by rw [he, heq2]⟩

theorem trace_enroll_begin (id : Int) (name : String) (s : FingerprintSensor) :
    Trace s (enroll_begin id name s) [] := by
  unfold enroll_begin
  have := trace_publish_status "Enrollment started. Place finger on sensor 5 times..."
    { s with enrolling_ := true, enroll_id_ := id, enroll_name_ := name }
  obtain ⟨l, he, hf, hn, hp⟩ := this
  exact ⟨l, he, hf, hn, hp⟩

theorem map_find_assign (id : Int) (name : String) (m : List (Int × String)) :
    map_find id (map_assign id name m) = some name := by
  induction m with
  | nil => simp [map_assign, map_find]
  | cons e rest ih =>
    obtain ⟨k, v⟩ := e
    simp only [map_assign]
    split
    · simp [map_find]
    · split
      · simp [map_find]
      · rename_i h1 h2
        simp [map_find, h2, ih]

theorem preferences_get_put (key value : String) (prefs : List (String × String)) :
    preferences_isKey key (preferences_putString key value prefs) = true ∧
    ∀ d, preferences_getString key d (preferences_putString key value prefs) = value := by
  induction prefs with
  | nil => simp [preferences_putString, preferences_isKey, preferences_getString]
  | cons e rest ih =>
    obtain ⟨k, v⟩ := e
    simp only [preferences_putString]
    split
    · simp [preferences_isKey, preferences_getString]
    · rename_i h
      simp [preferences_isKey, preferences_getString, h, ih]

theorem string_of_buffer_c_str (s : String) (h : is_c_string s) :
    string_of_buffer (c_str s) = s := by
  unfold string_of_buffer c_str
  apply String.ext
  show List.map Char.ofNat (List.takeWhile _ (List.map _ s.data ++ [0])) = s.data
  have key : ∀ l : List Char, (∀ c ∈ l, 0 < c.toNat ∧ c.toNat < 256) →
      List.map Char.ofNat (List.takeWhile (fun b => decide (b ≠ 0))
        (List.map (fun c : Char => c.toNat % 256) l ++ [0])) = l := by
    intro l
    induction l with
    | nil => intro _; simp [List.takeWhile]
    | cons c rest ih =>
      intro hl
      have hc := hl c (List.mem_cons_self _ _)
      have hmod : c.toNat % 256 = c.toNat := Nat.mod_eq_of_lt hc.2
      have hne : c.toNat ≠ 0 := Nat.pos_iff_ne_zero.mp hc.1
      simp only [List.map_cons, List.cons_append, List.takeWhile, hmod]
      simp only [ne_eq, hne, not_false_eq_true, decide_True, List.map_cons, Char.ofNat_toNat]
      exact congrArg (c :: ·) (ih (fun d hd => hl d (List.mem_cons_of_mem _ hd)))
  exact key s.data h

theorem publish_status_eq (v : String) (s : FingerprintSensor) :
    publish_status v s =
      { s with events := s.events ++
          (if s.status_sensor_ then [Event.publish_status v] else []) } := by
  unfold publish_status
  cases s
  split <;> simp_all

theorem publish_enrolled_count_eq (v : Int) (s : FingerprintSensor) :
    publish_enrolled_count v s =
      { s with events := s.events ++
          (if s.enrolled_count_sensor_ then [Event.publish_enrolled_count v] else []) } := by
  unfold publish_enrolled_count
  cases s
  split <;> simp_all

theorem scan_match (t : Nat) (self : FingerprintSensor) (r1 r2 r3 : Reply) (rest : List Reply)
    (hdue : 100 ≤ u32_sub t self.last_scan_time_)
    (hreplies : self.replies = r1 :: r2 :: r3 :: rest)
    (h1 : r1.status = FINGERPRINT_OK) (h2 : r2.status = FINGERPRINT_OK)
    (h3 : r3.status = FINGERPRINT_OK) :
    ∃ s, scan_fingerprint t self = some s ∧
      s.events = self.events ++
        [Event.call SensorCall.getImage FINGERPRINT_OK,
         Event.LEDcontrol FINGERPRINT_LED_FLASHING 25 FINGERPRINT_LED_RED 0,
         Event.call (SensorCall.image2Tz 1) FINGERPRINT_OK,
         Event.call SensorCall.fingerSearch FINGERPRINT_OK] ++
        match_observation self r3.fingerID r3.confidence
          (lookup_name r3.fingerID self.fingerprint_names_) ++
        [Event.delay 3000] ∧
      s.fingerprint_names_ = self.fingerprint_names_ ∧
      s.preferences_ = self.preferences_ ∧
      s.last_ring_state_ = true ∧
      s.replies = rest ∧
      s.last_scan_time_ = t % 2 ^ 32 := by
  have hnot : ¬ u32_sub t self.last_scan_time_ < 100 := by omega
  have h1' : ¬ r1.status = FINGERPRINT_NOFINGER := by rw [h1]; decide
  unfold scan_fingerprint
  simp only [hnot, if_false, finger_call, hreplies, h1, h2, h3, if_true, finger_LEDcontrol,
    ne_eq, not_true_eq_false, h1']
  refine ⟨_, rfl, ?_, ?_, ?_, ?_, ?_, ?_⟩
  · simp only [delay, publish_status_eq, publish_ring_eq, publish_match_id_eq,
      publish_match_name_eq, publish_confidence_eq, match_observation, lookup_name,
      List.append_assoc, List.cons_append, List.nil_append]
  · simp only [delay, publish_status_eq, publish_ring_eq, publish_match_id_eq,
      publish_match_name_eq, publish_confidence_eq]
  · simp only [delay, publish_status_eq, publish_ring_eq, publish_match_id_eq,
      publish_match_name_eq, publish_confidence_eq]
  · simp only [delay]
  · simp only [delay, publish_status_eq, publish_ring_eq, publish_match_id_eq,
      publish_match_name_eq, publish_confidence_eq]
  · simp only [delay, publish_status_eq, publish_ring_eq, publish_match_id_eq,
      publish_match_name_eq, publish_confidence_eq]

theorem scan_ring (t : Nat) (self : FingerprintSensor) (r1 r2 r3 : Reply) (rest : List Reply)
    (hdue : 100 ≤ u32_sub t self.last_scan_time_)
    (hreplies : self.replies = r1 :: r2 :: r3 :: rest)
    (h1 : r1.status = FINGERPRINT_OK) (h2 : r2.status = FINGERPRINT_OK)
    (h3 : r3.status = FINGERPRINT_NOTFOUND) :
    ∃ s, scan_fingerprint t self = some s ∧
      s.events = self.events ++
        [Event.call SensorCall.getImage FINGERPRINT_OK,
         Event.LEDcontrol FINGERPRINT_LED_FLASHING 25 FINGERPRINT_LED_RED 0,
         Event.call (SensorCall.image2Tz 1) FINGERPRINT_OK,
         Event.call SensorCall.fingerSearch FINGERPRINT_NOTFOUND] ++
        ring_observation self ++ [Event.delay 1000] ∧
      s.fingerprint_names_ = self.fingerprint_names_ ∧
      s.preferences_ = self.preferences_ ∧
      s.last_ring_state_ = true ∧
      s.replies = rest ∧
      s.last_scan_time_ = t % 2 ^ 32 := by
  have hnot : ¬ u32_sub t self.last_scan_time_ < 100 := by omega
  have h1' : ¬ r1.status = FINGERPRINT_NOFINGER := by rw [h1]; decide
  have h3' : ¬ FINGERPRINT_NOTFOUND = FINGERPRINT_OK := by decide
  unfold scan_fingerprint
  simp only [hnot, if_false, finger_call, hreplies, h1, h2, h3, h3', if_true, finger_LEDcontrol,
    ne_eq, not_true_eq_false, h1']
  refine ⟨_, rfl, ?_, ?_, ?_, ?_, ?_, ?_⟩
  · simp only [delay, publish_status_eq, publish_ring_eq, publish_match_id_eq,
      publish_match_name_eq, publish_confidence_eq, ring_observation,
      List.append_assoc, List.cons_append, List.nil_append]
  · simp only [delay, publish_status_eq, publish_ring_eq, publish_match_id_eq,
      publish_match_name_eq, publish_confidence_eq]
  · simp only [delay, publish_status_eq, publish_ring_eq, publish_match_id_eq,
      publish_match_name_eq, publish_confidence_eq]
  · simp only [delay]
  · simp only [delay, publish_status_eq, publish_ring_eq, publish_match_id_eq,
      publish_match_name_eq, publish_confidence_eq]
  · simp only [delay, publish_status_eq, publish_ring_eq, publish_match_id_eq,
      publish_match_name_eq, publish_confidence_eq]


theorem new_events_of_append {s t : FingerprintSensor} {l : List Event}
    (h : t.events = s.events ++ l) : new_events s t = l := by
  unfold new_events
  rw [h, List.drop_left]

theorem not_mem_cleared_observation (self : FingerprintSensor) :
    Event.publish_ring true ∉ cleared_observation self := by
  unfold cleared_observation
  intro h
  simp only [List.mem_append] at h
  rcases h with ((h | h) | h) | h <;> split at h <;> simp at h

theorem not_mem_match_observation (self : FingerprintSensor) (id confidence : Int)
    (name : String) : Event.publish_ring true ∉ match_observation self id confidence name := by
  unfold match_observation
  intro h
  simp only [List.mem_append] at h
  rcases h with ((((h | h) | h) | h) | h) | h <;> first | (split at h <;> simp at h) | simp at h

/-- Every due scan step that returns took an answer to `getImage`, recorded the time, left the
registry alone, and published ring=true only on the not-found outcome. -/
theorem scan_due_cases (t : Nat) (self s : FingerprintSensor)
    (hdue : 100 ≤ u32_sub t self.last_scan_time_)
    (h : scan_fingerprint t self = some s) :
    ∃ r rest more, self.replies = r :: rest ∧
      s.last_scan_time_ = t % 2 ^ 32 ∧
      s.fingerprint_names_ = self.fingerprint_names_ ∧
      s.preferences_ = self.preferences_ ∧
      s.events = self.events ++ Event.call SensorCall.getImage r.status :: more ∧
      (Event.publish_ring true ∈ more →
        ∃ r2 r3 rest3, rest = r2 :: r3 :: rest3 ∧ r.status = FINGERPRINT_OK ∧
          r2.status = FINGERPRINT_OK ∧ r3.status = FINGERPRINT_NOTFOUND) := by
  have hnot : ¬ u32_sub t self.last_scan_time_ < 100 := by omega
  have hne02 : ¬ FINGERPRINT_OK = FINGERPRINT_NOFINGER := by decide
  cases hrep : self.replies with
  | nil => simp [scan_fingerprint, hnot, finger_call, hrep] at h
  | cons r rest =>
    by_cases hnf : r.status = FINGERPRINT_NOFINGER
    · by_cases hl : self.last_ring_state_ = true
      · unfold scan_fingerprint at h
        simp only [hnot, if_false, finger_call, hrep, hnf, hl, if_true, Option.some.injEq] at h
        subst h
        refine ⟨r, rest, cleared_observation self ++
          [Event.LEDcontrol FINGERPRINT_LED_BREATHING 250 FINGERPRINT_LED_BLUE 0], rfl,
          ?_, ?_, ?_, ?_, ?_⟩
        · simp only [finger_LEDcontrol, publish_ring_eq, publish_match_id_eq,
            publish_match_name_eq, publish_confidence_eq]
        · simp only [finger_LEDcontrol, publish_ring_eq, publish_match_id_eq,
            publish_match_name_eq, publish_confidence_eq]
        · simp only [finger_LEDcontrol, publish_ring_eq, publish_match_id_eq,
            publish_match_name_eq, publish_confidence_eq]
        · simp only [finger_LEDcontrol, publish_ring_eq, publish_match_id_eq,
            publish_match_name_eq, publish_confidence_eq, cleared_observation, hnf,
            List.append_assoc, List.cons_append, List.nil_append]
        · intro hm
          simp only [List.mem_append, List.mem_singleton] at hm
          rcases hm with hm | hm
          · exact absurd hm (not_mem_cleared_observation self)
          · simp at hm
      · have hl2 : self.last_ring_state_ = false := by simpa using hl
        unfold scan_fingerprint at h
        simp only [hnot, if_false, finger_call, hrep, hnf, hl2, if_true, Option.some.injEq,
          Bool.false_eq_true] at h
        subst h
        exact ⟨r, rest, [], rfl, rfl, rfl, rfl, by rw [hnf], by simp⟩
    · by_cases hok : r.status = FINGERPRINT_OK
      · cases rest with
        | nil =>
          simp [scan_fingerprint, hnot, finger_call, hrep, hne02, hok, finger_LEDcontrol] at h
        | cons r2 rest2 =>
          by_cases hok2 : r2.status = FINGERPRINT_OK
          · cases rest2 with
            | nil =>
              simp [scan_fingerprint, hnot, finger_call, hrep, hne02, hok, hok2,
                finger_LEDcontrol] at h
            | cons r3 rest3 =>
              by_cases hok3 : r3.status = FINGERPRINT_OK
              · obtain ⟨s2, hs2, he, hn, hp, _, _, ht⟩ :=
                  scan_match t self r r2 r3 rest3 hdue hrep hok hok2 hok3
                rw [h] at hs2
                cases hs2
                refine ⟨r, r2 :: r3 :: rest3,
                  [Event.LEDcontrol FINGERPRINT_LED_FLASHING 25 FINGERPRINT_LED_RED 0,
                   Event.call (SensorCall.image2Tz 1) FINGERPRINT_OK,
                   Event.call SensorCall.fingerSearch FINGERPRINT_OK] ++
                  match_observation self r3.fingerID r3.confidence
                    (lookup_name r3.fingerID self.fingerprint_names_) ++
                  [Event.delay 3000], rfl, ht, hn, hp, ?_, ?_⟩
                · rw [he, hok]
                  simp only [List.append_assoc, List.cons_append, List.nil_append]
                · intro hm
                  simp only [List.mem_append, List.mem_cons, List.mem_singleton,
                    List.not_mem_nil, or_false] at hm
                  rcases hm with (hm | hm) | hm
                  · simp at hm
                  · exact absurd hm (not_mem_match_observation _ _ _ _)
                  · simp at hm
              · by_cases hnot3 : r3.status = FINGERPRINT_NOTFOUND
                · obtain ⟨s2, hs2, he, hn, hp, _, _, ht⟩ :=
                    scan_ring t self r r2 r3 rest3 hdue hrep hok hok2 hnot3
                  rw [h] at hs2
                  cases hs2
                  refine ⟨r, r2 :: r3 :: rest3,
                    [Event.LEDcontrol FINGERPRINT_LED_FLASHING 25 FINGERPRINT_LED_RED 0,
                     Event.call (SensorCall.image2Tz 1) FINGERPRINT_OK,
                     Event.call SensorCall.fingerSearch FINGERPRINT_NOTFOUND] ++
                    ring_observation self ++ [Event.delay 1000], rfl, ht, hn, hp, ?_, ?_⟩
                  · rw [he, hok]
                    simp only [List.append_assoc, List.cons_append, List.nil_append]
                  · intro _
                    exact ⟨r2, r3, rest3, rfl, hok, hok2, hnot3⟩
                · unfold scan_fingerprint at h
                  simp only [hnot, if_false, finger_call, hrep, hne02, hok, hok2, hok3, hnot3,
                    if_true, Option.some.injEq, finger_LEDcontrol, ne_eq, not_true_eq_false]
                    at h
                  subst h
                  exact ⟨r, r2 :: r3 :: rest3,
                    [Event.LEDcontrol FINGERPRINT_LED_FLASHING 25 FINGERPRINT_LED_RED 0,
                     Event.call (SensorCall.image2Tz 1) FINGERPRINT_OK,
                     Event.call SensorCall.fingerSearch r3.status], rfl, rfl, rfl, rfl,
                    by simp [hok], by simp⟩
          · unfold scan_fingerprint at h
            simp only [hnot, if_false, finger_call, hrep, hne02, hok, hok2,
              if_true, Option.some.injEq, finger_LEDcontrol, ne_eq, not_true_eq_false,
              not_false_eq_true] at h
            subst h
            exact ⟨r, r2 :: rest2,
              [Event.LEDcontrol FINGERPRINT_LED_FLASHING 25 FINGERPRINT_LED_RED 0,
               Event.call (SensorCall.image2Tz 1) r2.status], rfl, rfl, rfl, rfl,
              by simp [hok], by simp⟩
      · unfold scan_fingerprint at h
        simp only [hnot, if_false, finger_call, hrep, hnf, hok, if_true, Option.some.injEq,
          ne_eq, not_false_eq_true] at h
        subst h
        exact ⟨r, rest, [], rfl, rfl, rfl, rfl, rfl, by simp⟩


theorem digitChar_value (d : Nat) (h : d < 10) :
    (Nat.digitChar d).toNat - 48 = d ∧ Nat.digitChar d ≠ '-' := by
  interval_cases d <;> decide

theorem decimal_value_append (l : List Char) (c : Char) :
    decimal_value (l ++ [c]) = decimal_value l * 10 + (c.toNat - 48) := by
  simp [decimal_value, List.foldl_append]

theorem toDigitsCore_decimal (fuel n : Nat) (ds : List Char) (h : n < fuel) :
    ∃ pre, Nat.toDigitsCore 10 fuel n ds = pre ++ ds ∧ decimal_value pre = n ∧
      pre ≠ [] ∧ ∀ c ∈ pre, c ≠ '-' := by
  induction fuel generalizing n ds with
  | zero => omega
  | succ fuel ih =>
    have hd := digitChar_value (n % 10) (Nat.mod_lt _ (by decide))
    simp only [Nat.toDigitsCore]
    split
    · rename_i hz
      refine ⟨[Nat.digitChar (n % 10)], rfl, ?_, by simp, ?_⟩
      · simp only [decimal_value, List.foldl, Nat.zero_mul, Nat.zero_add]
        rw [hd.1]
        omega
      · intro c hc
        simp only [List.mem_singleton] at hc
        rw [hc]
        exact hd.2
    · rename_i hz
      obtain ⟨pre, hpre, hval, hne, hdig⟩ :=
        ih (n / 10) (Nat.digitChar (n % 10) :: ds) (by omega)
      refine ⟨pre ++ [Nat.digitChar (n % 10)], ?_, ?_, by simp, ?_⟩
      · rw [hpre]; simp
      · rw [decimal_value_append, hval, hd.1]
        omega
      · intro c hc
        simp only [List.mem_append, List.mem_singleton] at hc
        rcases hc with hc | hc
        · exact hdig c hc
        · rw [hc]; exact hd.2

theorem repr_decimal (n : Nat) :
    decimal_value (Nat.repr n).data = n ∧ (Nat.repr n).data ≠ [] ∧
      ∀ c ∈ (Nat.repr n).data, c ≠ '-' := by
  obtain ⟨pre, hpre, hval, hne, hdig⟩ := toDigitsCore_decimal (n + 1) n [] (by omega)
  have : (Nat.repr n).data = pre := by
    simp [Nat.repr, Nat.toDigits, hpre, List.asString]
  rw [this]
  exact ⟨hval, hne, hdig⟩

theorem String_of_int_injective (i j : Int) (h : String_of_int i = String_of_int j) : i = j := by
  unfold String_of_int at h
  cases i with
  | ofNat m =>
    cases j with
    | ofNat n =>
      have h2 : Nat.repr m = Nat.repr n := h
      have := congrArg (fun s => decimal_value s.data) h2
      simp only [(repr_decimal m).1, (repr_decimal n).1] at this
      rw [this]
    | negSucc n =>
      have h2 : Nat.repr m = "-" ++ Nat.repr (n + 1) := h
      have hd := (repr_decimal m).2
      have h3 : (Nat.repr m).data = '-' :: (Nat.repr (n + 1)).data := by rw [h2]; rfl
      exact absurd rfl (hd.2 '-' (by rw [h3]; simp))
  | negSucc m =>
    cases j with
    | ofNat n =>
      have h2 : "-" ++ Nat.repr (m + 1) = Nat.repr n := h
      have hd := (repr_decimal n).2
      have h3 : (Nat.repr n).data = '-' :: (Nat.repr (m + 1)).data := by rw [← h2]; rfl
      exact absurd rfl (hd.2 '-' (by rw [h3]; simp))
    | negSucc n =>
      have h2 : "-" ++ Nat.repr (m + 1) = "-" ++ Nat.repr (n + 1) := h
      have h3 : (Nat.repr (m + 1)).data = (Nat.repr (n + 1)).data := by
        have := congrArg String.data h2
        simpa using this
      have := congrArg decimal_value h3
      simp only [(repr_decimal (m + 1)).1, (repr_decimal (n + 1)).1] at this
      have : m = n := by omega
      rw [this]


theorem map_find_assign_ne (id j : Int) (name : String) (m : List (Int × String))
    (h : j ≠ id) : map_find j (map_assign id name m) = map_find j m := by
  induction m with
  | nil => simp [map_assign, map_find, Ne.symm h]
  | cons e rest ih =>
    obtain ⟨k, v⟩ := e
    simp only [map_assign]
    split
    · simp [map_find, Ne.symm h]
    · split
      · rename_i hk
        subst hk
        simp [map_find, Ne.symm h]
      · simp only [map_find, ih]

theorem map_find_erase (id j : Int) (m : List (Int × String)) :
    map_find j (map_erase id m) = if j = id then none else map_find j m := by
  induction m with
  | nil => simp [map_erase, map_find]
  | cons e rest ih =>
    obtain ⟨k, v⟩ := e
    unfold map_erase at ih ⊢
    by_cases hk : k = id
    · subst hk
      simp only [List.filter, ne_eq, not_true_eq_false, decide_False, ih, map_find]
      by_cases hj : j = k
      · simp [hj]
      · simp [hj, Ne.symm hj]
    · simp only [List.filter, ne_eq, hk, not_false_eq_true, decide_True, map_find, ih]
      by_cases hj : j = id
      · subst hj
        simp [hk]
      · simp [hj]

theorem preferences_put_ne (key other value : String) (prefs : List (String × String))
    (h : other ≠ key) :
    preferences_isKey other (preferences_putString key value prefs) =
      preferences_isKey other prefs ∧
    ∀ d, preferences_getString other d (preferences_putString key value prefs) =
      preferences_getString other d prefs := by
  induction prefs with
  | nil => simp [preferences_putString, preferences_isKey, preferences_getString, Ne.symm h]
  | cons e rest ih =>
    obtain ⟨k, v⟩ := e
    simp only [preferences_putString]
    split
    · rename_i hk
      subst hk
      simp [preferences_isKey, preferences_getString, Ne.symm h]
    · simp only [preferences_isKey, preferences_getString, ih.1, ih.2, implies_true, and_self]

theorem preferences_remove_spec (key other : String) (prefs : List (String × String)) :
    preferences_isKey other (preferences_remove key prefs) =
      (if other = key then false else preferences_isKey other prefs) ∧
    ∀ d, preferences_getString other d (preferences_remove key prefs) =
      (if other = key then d else preferences_getString other d prefs) := by
  induction prefs with
  | nil => simp [preferences_remove, preferences_isKey, preferences_getString]
  | cons e rest ih =>
    obtain ⟨k, v⟩ := e
    unfold preferences_remove at ih ⊢
    by_cases hk : k = key
    · subst hk
      simp only [List.filter, ne_eq, not_true_eq_false, decide_False, ih.1, ih.2,
        preferences_isKey, preferences_getString]
      by_cases ho : other = k
      · simp [ho]
      · simp [ho, Ne.symm ho]
    · simp only [List.filter, ne_eq, hk, not_false_eq_true, decide_True, preferences_isKey,
        preferences_getString, ih.1, ih.2]
      by_cases ho : other = key
      · subst ho
        simp [hk]
      · simp [ho]

theorem lookup_name_spec (id : Int) (names : List (Int × String)) :
    (∀ name, map_find id names = some name → lookup_name id names = name) ∧
    (map_find id names = none → lookup_name id names = "Unknown") := by
  unfold lookup_name
  constructor
  · intro name h
    rw [h]
  · intro h
    rw [h]

theorem match_reports_lookup (names : List (Int × String)) (id : Int) :
    match_reports names id (lookup_name id names) := by
  intro t u q1 q2 q3 rest hn hdue hrep h1 h2 h3 hid
  obtain ⟨s, hs, he, _⟩ := scan_match t u q1 q2 q3 rest hdue hrep h1 h2 h3
  refine ⟨s, hs, ?_⟩
  rw [he, hn, hid]


theorem enroll_fingerprint_success (id : Int) (name : String)
    (self after : FingerprintSensor) (r : Reply) (rest : List Reply)
    (hconn : self.connected_ = true) (hid : 1 ≤ id ∧ id ≤ 200)
    (hperf : perform_enrollment id (enroll_begin id name self) = some (0, after))
    (hcount : after.replies = r :: rest) :
    ∃ s, enroll_fingerprint id name self = some s ∧
      s.fingerprint_names_ = map_assign id name self.fingerprint_names_ ∧
      s.preferences_ = preferences_putString (String_of_int id) (string_of_buffer (c_str name))
        self.preferences_ := by
  obtain ⟨hzero, _⟩ := trace_perform_enrollment id _ _ _ hperf
  obtain ⟨l, he, hf, hn, hp⟩ := (trace_enroll_begin id name self).trans (hzero rfl)
  have hid2 : ¬ (id < 1 ∨ id > 200) := by omega
  unfold enroll_fingerprint
  simp only [hconn, Bool.not_true, Bool.false_eq_true, if_false, hid2, hperf, if_true,
    finger_getTemplateCount, finger_call, publish_status_eq, save_name, hcount,
    publish_enrolled_count_eq, finger_LEDcontrol, hn, hp]
  exact ⟨_, rfl, rfl, rfl⟩

/-- Whatever `enroll_fingerprint` returns, the registry is either untouched or has the name
saved under a valid id. -/
theorem enroll_fingerprint_registry (id : Int) (name : String) (self s : FingerprintSensor)
    (h : enroll_fingerprint id name self = some s) :
    (s.fingerprint_names_ = self.fingerprint_names_ ∧ s.preferences_ = self.preferences_) ∨
    ((1 ≤ id ∧ id ≤ 200) ∧
      s.fingerprint_names_ = map_assign id name self.fingerprint_names_ ∧
      s.preferences_ = preferences_putString (String_of_int id) (string_of_buffer (c_str name))
        self.preferences_) := by
  unfold enroll_fingerprint at h
  split at h
  · simp only [Option.some.injEq] at h
    subst h
    left
    simp only [publish_status_eq, and_self]
  · split at h
    · simp only [Option.some.injEq] at h
      subst h
      left
      simp only [publish_status_eq, and_self]
    · rename_i hidn
      have hid : 1 ≤ id ∧ id ≤ 200 := by omega
      split at h
      · simp at h
      · rename_i result after hperf
        obtain ⟨_, l, hl⟩ := trace_perform_enrollment id _ _ _ hperf
        obtain ⟨_, _, _, hn, hp⟩ := (trace_enroll_begin id name self).trans hl
        by_cases hres : result = 0
        · simp only [hres, if_true] at h
          cases hc : finger_getTemplateCount
              (publish_status "Enrollment successful!" (save_name id name after)) with
          | none => simp [hc] at h
          | some s2 =>
            simp only [hc, Option.some.injEq] at h
            subst h
            right
            refine ⟨hid, ?_, ?_⟩
            · unfold finger_getTemplateCount at hc
              split at hc
              · simp at hc
              · rename_i r s3 hcall
                simp only [Option.some.injEq] at hc
                subst hc
                obtain ⟨⟨_, _, _, hn3, _⟩, _⟩ := trace_finger_call hcall
                simp only [finger_LEDcontrol, publish_enrolled_count_eq, hn3,
                  publish_status_eq, save_name, hn]
            · unfold finger_getTemplateCount at hc
              split at hc
              · simp at hc
              · rename_i r s3 hcall
                simp only [Option.some.injEq] at hc
                subst hc
                obtain ⟨⟨_, _, _, _, hp3⟩, _⟩ := trace_finger_call hcall
                simp only [finger_LEDcontrol, publish_enrolled_count_eq, hp3,
                  publish_status_eq, save_name, hp]
        · simp only [hres, if_false, Option.some.injEq] at h
          subst h
          left
          simp only [finger_LEDcontrol, publish_status_eq, hn, hp, and_self]

/-- Whatever `delete_fingerprint` returns, the registry is either untouched or has the entry of
a valid id removed. -/
theorem delete_fingerprint_registry (id : Int) (self s : FingerprintSensor)
    (h : delete_fingerprint id self = some s) :
    (s.fingerprint_names_ = self.fingerprint_names_ ∧ s.preferences_ = self.preferences_) ∨
    ((1 ≤ id ∧ id ≤ 200) ∧
      s.fingerprint_names_ = map_erase id self.fingerprint_names_ ∧
      s.preferences_ = preferences_remove (String_of_int id) self.preferences_) := by
  unfold delete_fingerprint at h
  split at h
  · simp only [Option.some.injEq] at h
    subst h
    exact Or.inl ⟨rfl, rfl⟩
  · split at h
    · simp only [Option.some.injEq] at h
      subst h
      exact Or.inl ⟨rfl, rfl⟩
    · rename_i hidn
      have hid : 1 ≤ id ∧ id ≤ 200 := by omega
      split at h
      · simp at h
      · rename_i r s1 hcall
        obtain ⟨⟨_, _, _, hn, hp⟩, _⟩ := trace_finger_call hcall
        split at h
        · cases hc : finger_getTemplateCount
              (publish_status "Fingerprint deleted" (remove_name id s1)) with
          | none => simp [hc] at h
          | some s2 =>
            simp only [hc, Option.some.injEq] at h
            subst h
            unfold finger_getTemplateCount at hc
            split at hc
            · simp at hc
            · rename_i r3 s3 hcall3
              simp only [Option.some.injEq] at hc
              subst hc
              obtain ⟨⟨_, _, _, hn3, hp3⟩, _⟩ := trace_finger_call hcall3
              right
              refine ⟨hid, ?_, ?_⟩
              · simp only [publish_enrolled_count_eq, hn3, publish_status_eq, remove_name, hn]
              · simp only [publish_enrolled_count_eq, hp3, publish_status_eq, remove_name, hp]
        · simp only [Option.some.injEq] at h
          subst h
          left
          simp only [publish_status_eq, hn, hp, and_self]

theorem delete_fingerprint_success (id : Int) (self : FingerprintSensor) (rd rc : Reply)
    (rest : List Reply)
    (hconn : self.connected_ = true) (hid : 1 ≤ id ∧ id ≤ 200)
    (hreplies : self.replies = rd :: rc :: rest) (hok : rd.status = FINGERPRINT_OK) :
    ∃ s, delete_fingerprint id self = some s ∧
      s.fingerprint_names_ = map_erase id self.fingerprint_names_ ∧
      s.preferences_ = preferences_remove (String_of_int id) self.preferences_ := by
  have hid2 : ¬ (id < 1 ∨ id > 200) := by omega
  unfold delete_fingerprint
  simp only [hconn, Bool.not_true, Bool.false_eq_true, if_false, hid2, finger_call, hreplies,
    hok, if_true, finger_getTemplateCount, publish_status_eq, remove_name,
    publish_enrolled_count_eq]
  exact ⟨_, rfl, rfl, rfl⟩

/-- Whatever `clear_all` returns, the registry is either untouched or empty. -/
theorem clear_all_registry (self s : FingerprintSensor) (h : clear_all self = some s) :
    (s.fingerprint_names_ = self.fingerprint_names_ ∧ s.preferences_ = self.preferences_) ∨
    (s.fingerprint_names_ = [] ∧ s.preferences_ = []) := by
  unfold clear_all at h
  split at h
  · simp only [Option.some.injEq] at h
    subst h
    exact Or.inl ⟨rfl, rfl⟩
  · split at h
    · simp at h
    · rename_i r s1 hcall
      obtain ⟨⟨_, _, _, hn, hp⟩, _⟩ := trace_finger_call hcall
      split at h
      · simp only [Option.some.injEq] at h
        subst h
        right
        simp only [publish_enrolled_count_eq, publish_status_eq, and_self]
      · simp only [Option.some.injEq] at h
        subst h
        left
        simp only [publish_status_eq, hn, hp, and_self]

theorem hex_digit_ne_zero (n : Nat) : hex_digit n ≠ 0 := by
  unfold hex_digit
  split <;> omega

theorem generate_pairing_code_data (hash : List Nat) :
    (generate_pairing_code hash).data =
      (List.range 16).flatMap (fun i => (sprintf_02x (hash.getD i 0)).map Char.ofNat) := by
  have hr : List.range 16 = [0, 1, 2, 3, 4, 5, 6, 7, 8, 9, 10, 11, 12, 13, 14, 15] := by decide
  have hz : List.replicate 33 (0 : Nat) =
      [0, 0, 0, 0, 0, 0, 0, 0, 0, 0, 0, 0, 0, 0, 0, 0, 0, 0, 0, 0, 0, 0, 0, 0, 0, 0, 0, 0, 0, 0,
       0, 0, 0] := by decide
  unfold generate_pairing_code string_of_buffer
  simp only [hr, hz, List.foldl, sprintf_02x_at, sprintf_02x, List.getD_cons_zero,
    List.getD_cons_succ, List.set_cons_zero, List.set_cons_succ, Nat.zero_mul, Nat.zero_add,
    Nat.reduceMul, Nat.reduceAdd]
  simp [List.takeWhile, hex_digit_ne_zero, List.flatMap]


theorem hex_digit_char (d : Nat) (h : d < 16) :
    Char.ofNat (hex_digit d) = hex_digits.getD d '0' ∧ hex_digits.getD d '0' ∈ hex_digits := by
  interval_cases d <;> decide

theorem hex_digits_injective (d e : Nat) (hd : d < 16) (he : e < 16)
    (h : hex_digits.getD d '0' = hex_digits.getD e '0') : d = e := by
  interval_cases d <;> interval_cases e <;> first | rfl | (exact absurd h (by decide))

theorem sprintf_02x_lower_hex (b : Nat) (h : b < 256) :
    (sprintf_02x b).map Char.ofNat = lower_hex_of_byte b := by
  have h1 : b / 16 < 16 := by omega
  have h2 : b % 16 < 16 := by omega
  simp only [sprintf_02x, lower_hex_of_byte, Nat.mod_eq_of_lt h, List.map_cons, List.map_nil,
    (hex_digit_char _ h1).1, (hex_digit_char _ h2).1]

theorem lower_hex_of_byte_injective (b c : Nat) (hb : b < 256) (hc : c < 256)
    (h : lower_hex_of_byte b = lower_hex_of_byte c) : b = c := by
  simp only [lower_hex_of_byte, List.cons.injEq, and_true] at h
  have h1 := hex_digits_injective _ _ (by omega) (by omega) h.1
  have h2 := hex_digits_injective _ _ (by omega) (by omega) h.2
  omega

theorem take_eq_map_getD (l : List Nat) (n : Nat) (h : n ≤ l.length) :
    l.take n = (List.range n).map (fun i => l.getD i 0) := by
  apply List.ext_getElem
  · simp [h]
  · intro i h1 h2
    simp only [List.length_take, List.length_map, List.length_range] at h1 h2
    simp only [List.getElem_take, List.getElem_map, List.getElem_range]
    rw [List.getD_eq_getElem?_getD, List.getElem?_eq_getElem (by omega)]
    rfl

theorem flatMap_lower_hex_injective (l m : List Nat)
    (hl : ∀ b ∈ l, b < 256) (hm : ∀ b ∈ m, b < 256)
    (h : l.flatMap lower_hex_of_byte = m.flatMap lower_hex_of_byte) : l = m := by
  induction l generalizing m with
  | nil =>
    cases m with
    | nil => rfl
    | cons c m => simp [List.flatMap, lower_hex_of_byte] at h
  | cons b l ih =>
    cases m with
    | nil => simp [List.flatMap, lower_hex_of_byte] at h
    | cons c m =>
      simp only [List.flatMap_cons, lower_hex_of_byte, List.cons_append, List.nil_append,
        List.cons.injEq] at h
      obtain ⟨h1, h2, h3⟩ := h
      have hbc : b = c := lower_hex_of_byte_injective b c (hl b (List.mem_cons_self _ _))
        (hm c (List.mem_cons_self _ _)) (by simp only [lower_hex_of_byte, h1, h2])
      rw [hbc, ih m (fun x hx => hl x (List.mem_cons_of_mem _ hx))
        (fun x hx => hm x (List.mem_cons_of_mem _ hx)) h3]

theorem generate_pairing_code_lower_hex (hash : List Nat) (hlen : 16 ≤ hash.length)
    (hbytes : ∀ b ∈ hash, b < 256) :
    (generate_pairing_code hash).data = (hash.take 16).flatMap lower_hex_of_byte := by
  rw [generate_pairing_code_data, take_eq_map_getD hash 16 hlen, List.flatMap_map]
  apply List.flatMap_congr
  intro i hi
  apply sprintf_02x_lower_hex
  have hi2 : i < 16 := List.mem_range.mp hi
  rw [List.getD_eq_getElem?_getD, List.getElem?_eq_getElem (by omega)]
  exact hbytes _ (List.getElem_mem _)


theorem hex_code_properties (code code2 : String) (hash other : List Nat)
    (hlen : hash.length = 32) (hbytes : ∀ b ∈ hash, b < 256)
    (hbytes2 : ∀ b ∈ other, b < 256)
    (hd : code.data = (hash.take 16).flatMap lower_hex_of_byte)
    (hd2 : code2.data = (other.take 16).flatMap lower_hex_of_byte) :
    code.length = 32 ∧
    (∀ c ∈ code.data, c ∈ hex_digits) ∧
    (hash.take 16 = other.take 16 → code = code2) ∧
    (hash.take 16 ≠ other.take 16 → code ≠ code2) := by
  have hmem : ∀ l : List Nat, ∀ c ∈ l.flatMap lower_hex_of_byte, c ∈ hex_digits := by
    intro l c hc
    obtain ⟨b, _, hcb⟩ := List.mem_flatMap.mp hc
    simp only [lower_hex_of_byte, List.mem_cons, List.mem_singleton, List.not_mem_nil,
      or_false] at hcb
    rcases hcb with hcb | hcb
    · rw [hcb]
      by_cases h16 : b / 16 < 16
      · exact (hex_digit_char _ h16).2
      · rw [List.getD_eq_default _ _ (by simp only [hex_digits]; exact Nat.le_of_not_lt h16)]
        decide
    · rw [hcb]
      exact (hex_digit_char _ (Nat.mod_lt _ (by decide))).2
  have hlength : ∀ l : List Nat, (l.flatMap lower_hex_of_byte).length = 2 * l.length := by
    intro l
    induction l with
    | nil => rfl
    | cons b l ih =>
      simp only [List.flatMap_cons, List.length_append, ih, lower_hex_of_byte, List.length_cons,
        List.length_nil]
      omega
  refine ⟨?_, ?_, ?_, ?_⟩
  · have hl : code.length = code.data.length := rfl
    rw [hl, hd, hlength, List.length_take]
    omega
  · rw [hd]
    exact hmem _
  · intro h
    apply String.ext
    rw [hd, hd2, h]
  · intro h heq
    apply h
    apply flatMap_lower_hex_injective
    · exact fun b hb => hbytes b (List.mem_of_mem_take hb)
    · exact fun b hb => hbytes2 b (List.mem_of_mem_take hb)
    · rw [← hd, ← hd2, heq]

theorem scan_rate_limited (t : Nat) (self : FingerprintSensor)
    (h : u32_sub t self.last_scan_time_ < 100) : scan_fingerprint t self = some self := by
  simp only [scan_fingerprint, h, if_true]

theorem u32_sub_mod_right (a b : Nat) : u32_sub a (b % 2 ^ 32) = u32_sub a b := by
  simp only [u32_sub, Nat.mod_mod]

theorem chain_u32_mod (t : Nat) (l : List Nat)
    (h : List.Chain (fun a b => 100 ≤ u32_sub b a) (t % 2 ^ 32) l) :
    List.Chain (fun a b => 100 ≤ u32_sub b a) t l := by
  cases l with
  | nil => exact List.Chain.nil
  | cons b l =>
    rw [List.chain_cons] at h ⊢
    exact ⟨by rw [← u32_sub_mod_right]; exact h.1, h.2⟩

theorem poll_times_chain (ts : List Nat) (self : FingerprintSensor) :
    List.Chain (fun a b => 100 ≤ u32_sub b a) self.last_scan_time_ (poll_times ts self) := by
  induction ts generalizing self with
  | nil => exact List.Chain.nil
  | cons t ts ih =>
    simp only [poll_times]
    by_cases hdue : 100 ≤ u32_sub t self.last_scan_time_
    · cases hs : scan_fingerprint t self with
      | none => exact List.Chain.nil
      | some s =>
        obtain ⟨r, rest, more, _, hlast, _, _, he, _⟩ := scan_due_cases t self s hdue hs
        have hany : (new_events self s).any is_getImage = true := by
          rw [new_events_of_append he]
          simp [is_getImage]
        simp only [hany, if_true]
        refine List.Chain.cons hdue ?_
        have hchain := ih s
        rw [hlast] at hchain
        exact chain_u32_mod t _ hchain
    · have hlim : u32_sub t self.last_scan_time_ < 100 := by omega
      rw [scan_rate_limited t self hlim]
      have hnone : (new_events self self).any is_getImage = false := by
        simp [new_events]
      simp only [hnone, Bool.false_eq_true, if_false]
      exact ih self

theorem map_assign_append (id : Int) (name : String) (m : List (Int × String))
    (h : ∀ e ∈ m, e.1 < id) : map_assign id name m = m ++ [(id, name)] := by
  induction m with
  | nil => rfl
  | cons e rest ih =>
    obtain ⟨k, v⟩ := e
    have hk : k < id := h (k, v) (List.mem_cons_self _ _)
    have h1 : ¬ id < k := by omega
    have h2 : ¬ k = id := by omega
    simp only [map_assign, h1, h2, if_false, List.cons_append,
      ih (fun e he => h e (List.mem_cons_of_mem _ he))]

theorem loaded_entry_key (prefs : List (String × String)) (i : Int) (x : Int × String)
    (h : loaded_entry prefs i = some x) : x.1 = i := by
  unfold loaded_entry at h
  split at h
  · split at h
    · simp only [Option.some.injEq] at h
      rw [← h]
    · simp at h
  · simp at h

/-- The loop of `load_fingerprint_names` over increasing ids appends the entries it finds. -/
theorem load_loop (f : FingerprintSensor → Int → FingerprintSensor)
    (hf : ∀ u i, f u i =
      if preferences_isKey (String_of_int i) u.preferences_ then
        if (preferences_getString (String_of_int i) "" u.preferences_).length > 0 then
          { u with fingerprint_names_ := (map_assign i (string_of_buffer
              (c_str (preferences_getString (String_of_int i) "" u.preferences_)))
              u.fingerprint_names_) }
        else u
      else u)
    (l : List Int) (u : FingerprintSensor)
    (hsorted : l.Pairwise (· < ·))
    (hkeys : ∀ e ∈ u.fingerprint_names_, ∀ i ∈ l, e.1 < i) :
    (l.foldl f u).preferences_ = u.preferences_ ∧
    (l.foldl f u).fingerprint_names_ =
      u.fingerprint_names_ ++ l.filterMap (loaded_entry u.preferences_) := by
  induction l generalizing u with
  | nil => simp
  | cons a l ih =>
    have hsorted2 : l.Pairwise (· < ·) := (List.pairwise_cons.mp hsorted).2
    have ha : ∀ i ∈ l, a < i := (List.pairwise_cons.mp hsorted).1
    have hprefs : (f u a).preferences_ = u.preferences_ := by
      rw [hf]
      split
      · split <;> rfl
      · rfl
    have hnames : (f u a).fingerprint_names_ =
        u.fingerprint_names_ ++ (loaded_entry u.preferences_ a).toList := by
      rw [hf]
      unfold loaded_entry
      split
      · split
        · simp only [Option.toList]
          exact map_assign_append _ _ _
            (fun e he => hkeys e he a (List.mem_cons_self _ _))
        · simp
      · simp
    have hkeys2 : ∀ e ∈ (f u a).fingerprint_names_, ∀ i ∈ l, e.1 < i := by
      intro e he i hi
      rw [hnames] at he
      rcases List.mem_append.mp he with he | he
      · exact hkeys e he i (List.mem_cons_of_mem _ hi)
      · have hx : loaded_entry u.preferences_ a = some e := by
          cases hle : loaded_entry u.preferences_ a with
          | none => simp [hle] at he
          | some x =>
            simp only [hle, Option.toList, List.mem_singleton] at he
            rw [he]
        rw [loaded_entry_key _ _ _ hx]
        exact ha i hi
    obtain ⟨ih1, ih2⟩ := ih (f u a) hsorted2 hkeys2
    simp only [List.foldl_cons]
    refine ⟨ih1.trans hprefs, ?_⟩
    rw [ih2, hnames, hprefs, List.append_assoc]
    congr 1
    cases hle : loaded_entry u.preferences_ a with
    | none => simp [List.filterMap_cons, hle]
    | some x => simp [List.filterMap_cons, hle]

theorem slot_ids_sorted : slot_ids.Pairwise (· < ·) := by
  unfold slot_ids
  rw [List.pairwise_map]
  exact (List.pairwise_lt_range' 1 200).imp (fun h => by exact_mod_cast h)

theorem mem_slot_ids (id : Int) : id ∈ slot_ids ↔ 1 ≤ id ∧ id ≤ 200 := by
  unfold slot_ids
  simp only [List.mem_map, List.mem_range'_1]
  constructor
  · rintro ⟨n, ⟨h1, h2⟩, rfl⟩
    omega
  · intro h
    exact ⟨id.toNat, by omega, by omega⟩

theorem slot_ids_eq : ((List.range' 1 200 : List Nat) : List Int) = slot_ids := by
  unfold slot_ids
  simp only [bind_pure_comp, List.map_eq_map]

theorem reloaded_names_eq (self : FingerprintSensor) :
    reloaded_names self = slot_ids.filterMap (loaded_entry self.preferences_) := by
  unfold reloaded_names load_fingerprint_names
  rw [slot_ids_eq]
  exact (load_loop _ (fun _ _ => rfl) slot_ids
    { self with fingerprint_names_ := [] } slot_ids_sorted (by simp)).2

theorem map_assign_front (id : Int) (name : String) (m : List (Int × String))
    (h : ∀ e ∈ m, id < e.1) : map_assign id name m = (id, name) :: m := by
  cases m with
  | nil => rfl
  | cons e rest =>
    obtain ⟨k, v⟩ := e
    have hk : id < k := h (k, v) (List.mem_cons_self _ _)
    simp [map_assign, hk]

theorem filterMap_agree (f g : Int → Option (Int × String)) (l : List Int)
    (h : ∀ i ∈ l, g i = f i) : l.filterMap g = l.filterMap f := by
  induction l with
  | nil => rfl
  | cons a l ih =>
    have ha : g a = f a := h a (List.mem_cons_self _ _)
    have hl : l.filterMap g = l.filterMap f := ih (fun i hi => h i (List.mem_cons_of_mem _ hi))
    simp only [List.filterMap_cons, ha, hl]

theorem filterMap_keys (f : Int → Option (Int × String)) (l : List Int)
    (hkey : ∀ i x, f i = some x → x.1 = i) :
    ∀ e ∈ l.filterMap f, e.1 ∈ l := by
  intro e he
  obtain ⟨i, hi, hfi⟩ := List.mem_filterMap.mp he
  rw [hkey i e hfi]
  exact hi

/-- Assigning to the map built from a sorted id list only changes what the assigned id gives. -/
theorem map_assign_filterMap (f g : Int → Option (Int × String)) (n : Int) (v : String)
    (hkey : ∀ i x, f i = some x → x.1 = i)
    (hn : g n = some (n, v)) (hother : ∀ i, i ≠ n → g i = f i)
    (l : List Int) (hsorted : l.Pairwise (· < ·)) (hmem : n ∈ l) :
    map_assign n v (l.filterMap f) = l.filterMap g := by
  induction l with
  | nil => simp at hmem
  | cons a l ih =>
    have hsorted2 : l.Pairwise (· < ·) := (List.pairwise_cons.mp hsorted).2
    have ha : ∀ i ∈ l, a < i := (List.pairwise_cons.mp hsorted).1
    by_cases han : a = n
    · subst han
      have hrest : l.filterMap g = l.filterMap f :=
        filterMap_agree f g l (fun i hi => hother i (ne_of_gt (ha i hi)))
      have hfront : ∀ e ∈ l.filterMap f, a < e.1 :=
        fun e he => ha _ (filterMap_keys f l hkey e he)
      simp only [List.filterMap_cons, hn, hrest]
      cases hfa : f a with
      | none => exact map_assign_front a v _ hfront
      | some x =>
        obtain ⟨k, w⟩ := x
        have hk : k = a := hkey a (k, w) hfa
        subst hk
        simp [map_assign]
    · have hmem2 : n ∈ l := by
        rcases List.mem_cons.mp hmem with h | h
        · exact absurd h.symm han
        · exact h
      have hlt : a < n := ha n hmem2
      have hga : g a = f a := hother a han
      simp only [List.filterMap_cons, hga]
      cases hfa : f a with
      | none => exact ih hsorted2 hmem2
      | some x =>
        obtain ⟨k, w⟩ := x
        have hk : k = a := hkey a (k, w) hfa
        subst hk
        have h1 : ¬ n < k := not_lt.mpr (le_of_lt hlt)
        simp only [map_assign, h1, if_false, han]
        rw [ih hsorted2 hmem2]

/-- Erasing from the map built from an id list only removes what the erased id gives. -/
theorem map_erase_filterMap (f g : Int → Option (Int × String)) (n : Int)
    (hkey : ∀ i x, f i = some x → x.1 = i)
    (hn : g n = none) (hother : ∀ i, i ≠ n → g i = f i) (l : List Int) :
    map_erase n (l.filterMap f) = l.filterMap g := by
  induction l with
  | nil => rfl
  | cons a l ih =>
    unfold map_erase at ih ⊢
    by_cases han : a = n
    · subst han
      simp only [List.filterMap_cons, hn]
      cases hfa : f a with
      | none => exact ih
      | some x =>
        have hk : x.1 = a := hkey a x hfa
        simp only [List.filter, hk, ne_eq, not_true_eq_false, decide_False]
        exact ih
    · have hga : g a = f a := hother a han
      simp only [List.filterMap_cons, hga]
      cases hfa : f a with
      | none => exact ih
      | some x =>
        have hk : x.1 = a := hkey a x hfa
        simp only [List.filter, hk, ne_eq, han, not_false_eq_true, decide_True]
        rw [ih]

theorem loaded_entry_put (prefs : List (String × String)) (n i : Int) (v : String) :
    loaded_entry (preferences_putString (String_of_int n) v prefs) i =
      if i = n then (if v.length > 0 then some (n, string_of_buffer (c_str v)) else none)
      else loaded_entry prefs i := by
  by_cases hin : i = n
  · subst hin
    obtain ⟨h1, h2⟩ := preferences_get_put (String_of_int i) v prefs
    simp only [loaded_entry, h1, h2, if_true]
  · have hkeyne : String_of_int i ≠ String_of_int n :=
      fun h => hin (String_of_int_injective i n h)
    obtain ⟨h1, h2⟩ := preferences_put_ne (String_of_int n) (String_of_int i) v prefs hkeyne
    simp only [loaded_entry, h1, h2, hin, if_false]

theorem loaded_entry_remove (prefs : List (String × String)) (n i : Int) :
    loaded_entry (preferences_remove (String_of_int n) prefs) i =
      if i = n then none else loaded_entry prefs i := by
  obtain ⟨h1, h2⟩ := preferences_remove_spec (String_of_int n) (String_of_int i) prefs
  by_cases hin : i = n
  · subst hin
    simp [loaded_entry, h1]
  · have hkeyne : String_of_int i ≠ String_of_int n :=
      fun h => hin (String_of_int_injective i n h)
    simp only [loaded_entry, h1, h2, hin, hkeyne, if_false]

theorem loaded_entry_empty (i : Int) : loaded_entry [] i = none := by
  simp [loaded_entry, preferences_isKey]

theorem length_pos_of_ne_empty (s : String) (h : s ≠ "") : s.length > 0 := by
  have hl : s.length = s.data.length := rfl
  rw [hl]
  apply List.length_pos.mpr
  intro hd
  exact h (String.ext hd)

/-- A successful enrollment with a non-empty name without NUL keeps reload and map equal. -/
theorem reload_after_enroll (id : Int) (name : String) (self s : FingerprintSensor)
    (hname : name ≠ "" ∧ is_c_string name)
    (hinv : reloaded_names self = self.fingerprint_names_)
    (h : enroll_fingerprint id name self = some s) :
    reloaded_names s = s.fingerprint_names_ := by
  rw [reloaded_names_eq] at hinv ⊢
  rcases enroll_fingerprint_registry id name self s h with ⟨hn, hp⟩ | ⟨hid, hn, hp⟩
  · rw [hn, hp, hinv]
  · rw [hn, hp, ← hinv, string_of_buffer_c_str name hname.2]
    symm
    apply map_assign_filterMap _ _ id name (loaded_entry_key self.preferences_)
    · rw [loaded_entry_put]
      simp only [if_true, length_pos_of_ne_empty name hname.1,
        string_of_buffer_c_str name hname.2]
    · intro i hi
      rw [loaded_entry_put]
      simp only [hi, if_false]
    · exact slot_ids_sorted
    · exact (mem_slot_ids id).mpr hid

theorem reload_after_delete (id : Int) (self s : FingerprintSensor)
    (hinv : reloaded_names self = self.fingerprint_names_)
    (h : delete_fingerprint id self = some s) :
    reloaded_names s = s.fingerprint_names_ := by
  rw [reloaded_names_eq] at hinv ⊢
  rcases delete_fingerprint_registry id self s h with ⟨hn, hp⟩ | ⟨_, hn, hp⟩
  · rw [hn, hp, hinv]
  · rw [hn, hp, ← hinv]
    symm
    apply map_erase_filterMap _ _ id (loaded_entry_key self.preferences_)
    · rw [loaded_entry_remove]
      simp only [if_true]
    · intro i hi
      rw [loaded_entry_remove]
      simp only [hi, if_false]

theorem reload_after_clear (self s : FingerprintSensor)
    (hinv : reloaded_names self = self.fingerprint_names_)
    (h : clear_all self = some s) :
    reloaded_names s = s.fingerprint_names_ := by
  rw [reloaded_names_eq] at hinv ⊢
  rcases clear_all_registry self s h with ⟨hn, hp⟩ | ⟨hn, hp⟩
  · rw [hn, hp, hinv]
  · rw [hn, hp]
    apply List.filterMap_eq_nil_iff.mpr
    intro i _
    exact loaded_entry_empty i

theorem Commands.nil (s : FingerprintSensor) : Commands s s [] :=
  ⟨[], by simp, rfl⟩

theorem Commands.append {s t u : FingerprintSensor} {a b : List Event}
    (h1 : Commands s t a) (h2 : Commands t u b) : Commands s u (a ++ b) := by
  obtain ⟨l1, he1, hf1⟩ := h1
  obtain ⟨l2, he2, hf2⟩ := h2
  refine ⟨l1 ++ l2, ?_, ?_⟩
  · rw [he2, he1, List.append_assoc]
  · rw [List.filter_append, hf1, hf2]

theorem filter_new_events_of_commands {s t : FingerprintSensor} {commands : List Event}
    (h : Commands s t commands) :
    (new_events s t).filter is_command = commands := by
  obtain ⟨l, he, hf⟩ := h
  unfold new_events
  rw [he, List.drop_left, hf]

theorem commands_finger_call {c : SensorCall} {s t : FingerprintSensor} {r : Reply}
    (h : finger_call c s = some (r, t)) : Commands s t [Event.call c r.status] := by
  unfold finger_call at h
  cases hrep : s.replies with
  | nil => simp [hrep] at h
  | cons q rest =>
    simp only [hrep, Option.some.injEq, Prod.mk.injEq] at h
    obtain ⟨rfl, rfl⟩ := h
    exact ⟨_, rfl, rfl⟩

theorem commands_publish_status (m : String) (s : FingerprintSensor) :
    Commands s (publish_status m s) [] := by
  unfold publish_status
  split
  · exact ⟨_, rfl, rfl⟩
  · exact Commands.nil s

theorem commands_publish_enrolled_count (n : Int) (s : FingerprintSensor) :
    Commands s (publish_enrolled_count n s) [] := by
  unfold publish_enrolled_count
  split
  · exact ⟨_, rfl, rfl⟩
  · exact Commands.nil s

theorem commands_LEDcontrol (a b c d : Nat) (s : FingerprintSensor) :
    Commands s (finger_LEDcontrol a b c d s) [] :=
  ⟨_, rfl, rfl⟩

theorem commands_delay (ms : Nat) (s : FingerprintSensor) : Commands s (delay ms s) [] :=
  ⟨_, rfl, rfl⟩

/-- The wait for the finger to be lifted polls through answers other than "no finger" and ends
on the first "no finger". -/
theorem commands_wait_no_finger (fuel : Nat) (s t : FingerprintSensor)
    (h : wait_no_finger fuel s = some t) :
    ∃ lifted, (∀ a ∈ lifted, a ≠ FINGERPRINT_NOFINGER) ∧
      Commands s t (polls lifted ++ [Event.call SensorCall.getImage FINGERPRINT_NOFINGER]) := by
  induction fuel generalizing s with
  | zero => simp [wait_no_finger] at h
  | succ fuel ih =>
    simp only [wait_no_finger] at h
    cases hc : finger_call SensorCall.getImage s with
    | none => simp [hc] at h
    | some p =>
      obtain ⟨r, s1⟩ := p
      simp only [hc] at h
      have h1 := commands_finger_call hc
      split at h
      · rename_i hne
        obtain ⟨lifted, hl, h2⟩ := ih _ h
        refine ⟨r.status :: lifted, ?_, ?_⟩
        · intro a ha
          rcases List.mem_cons.mp ha with rfl | ha
          · exact hne
          · exact hl a ha
        · have := h1.append ((commands_delay 50 s1).append h2)
          simpa [polls] using this
      · rename_i heq
        have heq : r.status = FINGERPRINT_NOFINGER := by simpa using heq
        cases h
        refine ⟨[], by simp, ?_⟩
        rw [heq] at h1
        simpa [polls] using h1

/-- The wait for the finger, when it ends with an image, polls through answers that are neither
OK nor one of the two errors, and ends on the first OK. -/
theorem commands_wait_for_finger (fuel : Nat) (s t : FingerprintSensor)
    (h : wait_for_finger fuel s = some (none, t)) :
    ∃ waiting, (∀ a ∈ waiting, a ≠ FINGERPRINT_OK ∧ a ≠ FINGERPRINT_PACKETRECIEVEERR ∧
        a ≠ FINGERPRINT_IMAGEFAIL) ∧
      Commands s t (polls waiting ++ [Event.call SensorCall.getImage FINGERPRINT_OK]) := by
  induction fuel generalizing s with
  | zero => simp [wait_for_finger] at h
  | succ fuel ih =>
    simp only [wait_for_finger] at h
    cases hc : finger_call SensorCall.getImage s with
    | none => simp [hc] at h
    | some p =>
      obtain ⟨r, s1⟩ := p
      simp only [hc] at h
      have h1 := commands_finger_call hc
      split at h
      · simp at h
      · rename_i herr
        split at h
        · rename_i hne
          obtain ⟨waiting, hw, h2⟩ := ih _ h
          refine ⟨r.status :: waiting, ?_, ?_⟩
          · intro a ha
            rcases List.mem_cons.mp ha with rfl | ha
            · exact ⟨hne, fun h1 => herr (Or.inl h1), fun h2 => herr (Or.inr h2)⟩
            · exact hw a ha
          · have := h1.append ((commands_delay 50 s1).append h2)
            simpa [polls] using this
        · rename_i heq
          have heq : r.status = FINGERPRINT_OK := by simpa using heq
          simp only [Option.some.injEq, Prod.mk.injEq, true_and] at h
          subst h
          refine ⟨[], by simp, ?_⟩
          rw [heq] at h1
          simpa [polls] using h1.append (commands_delay 50 s1)

theorem commands_wait_finger_lifted (pass : Nat) (s t : FingerprintSensor)
    (h : wait_finger_lifted pass s = some t) :
    ∃ lifted, (∀ a ∈ lifted, a ≠ FINGERPRINT_NOFINGER) ∧
      Commands s t
        (if pass > 1 then polls lifted ++ [Event.call SensorCall.getImage FINGERPRINT_NOFINGER]
         else []) := by
  unfold wait_finger_lifted at h
  split at h
  · rename_i hpass
    split at h
    · simp at h
    · rename_i s0 hs0
      cases h
      obtain ⟨lifted, hl, hw⟩ := commands_wait_no_finger _ _ _ hs0
      refine ⟨lifted, hl, ?_⟩
      simp only [hpass, if_true]
      simpa using (commands_LEDcontrol _ _ _ _ s).append (hw.append (commands_delay 500 s0))
  · rename_i hpass
    cases h
    refine ⟨[], by simp, ?_⟩
    simp only [hpass, if_false]
    exact Commands.nil s

/-- A capture pass that completes has polled, captured an image and converted it into the
buffer of the pass. -/
theorem commands_enrollment_pass (pass : Nat) (s t : FingerprintSensor)
    (h : enrollment_pass pass s = some (none, t)) :
    ∃ lifted waiting, keeps_polling lifted waiting ∧
      Commands s t (capture_pass_commands pass lifted waiting) := by
  unfold enrollment_pass at h
  simp only at h
  split at h
  · simp at h
  · rename_i s1 hlift
    obtain ⟨lifted, hl, c1⟩ := commands_wait_finger_lifted _ _ _ hlift
    have c01 := (commands_publish_status
      ("Enrollment pass " ++ toString pass ++ "/5: Place finger") s).append c1
    split at h
    · simp at h
    · simp at h
    · rename_i s2 hwf
      obtain ⟨waiting, hw, c2⟩ := commands_wait_for_finger _ _ _ hwf
      have c02 := c01.append ((commands_LEDcontrol _ _ _ _ _).append c2)
      cases hc : finger_call (SensorCall.image2Tz pass) s2 with
      | none => simp [hc] at h
      | some p =>
        obtain ⟨r, s3⟩ := p
        simp only [hc] at h
        have c3 := commands_finger_call hc
        split at h
        · simp at h
        · rename_i heq
          have heq : r.status = FINGERPRINT_OK := by simpa using heq
          simp only [Option.some.injEq, Prod.mk.injEq, true_and] at h
          subst h
          rw [heq] at c3
          refine ⟨lifted, waiting, ⟨hl, hw⟩, ?_⟩
          have := c02.append (c3.append ((commands_LEDcontrol FINGERPRINT_LED_ON 0
            FINGERPRINT_LED_PURPLE 0 s3).append (commands_delay 1000 _)))
          unfold capture_pass_commands
          simpa [List.append_assoc] using this

theorem commands_enrollment_passes (passes : List Nat) (s t : FingerprintSensor)
    (h : enrollment_passes passes s = some (none, t)) :
    ∃ answers : List (List Nat × List Nat), answers.length = passes.length ∧
      (∀ p ∈ answers, keeps_polling p.1 p.2) ∧
      Commands s t (capture_passes_commands passes answers) := by
  induction passes generalizing s with
  | nil =>
    simp only [enrollment_passes, Option.some.injEq, Prod.mk.injEq, true_and] at h
    subst h
    exact ⟨[], rfl, by simp, Commands.nil s⟩
  | cons pass rest ih =>
    simp only [enrollment_passes] at h
    split at h
    · simp at h
    · simp at h
    · rename_i s1 hp
      obtain ⟨lifted, waiting, hk, c1⟩ := commands_enrollment_pass pass s s1 hp
      obtain ⟨answers, hlen, hall, c2⟩ := ih s1 h
      refine ⟨(lifted, waiting) :: answers, by simp [hlen], ?_, ?_⟩
      · intro p hp
        rcases List.mem_cons.mp hp with rfl | hp
        · exact hk
        · exact hall p hp
      · have := c1.append c2
        simpa [capture_passes_commands] using this

/-- A run of `perform_enrollment` that returns 0 consists of five completed capture passes, then
`createModel` and `storeModel(id)`, both answered OK. -/
theorem commands_perform_enrollment (id : Int) (s t : FingerprintSensor)
    (h : perform_enrollment id s = some (0, t)) :
    ∃ answers : List (List Nat × List Nat), answers.length = 5 ∧
      (∀ p ∈ answers, keeps_polling p.1 p.2) ∧
      Commands s t (capture_passes_commands [1, 2, 3, 4, 5] answers ++
        [Event.call SensorCall.createModel FINGERPRINT_OK,
         Event.call (SensorCall.storeModel id) FINGERPRINT_OK]) := by
  unfold perform_enrollment at h
  split at h
  · simp at h
  · rename_i r s1 hp
    simp only [Option.some.injEq, Prod.mk.injEq] at h
    obtain ⟨hr, _⟩ := h
    obtain ⟨hne, _⟩ : Outcome s s1 (some r) _ := outcome_enrollment_passes _ s _ _ hp
    exact absurd (by exact_mod_cast hr) hne
  · rename_i s1 hp
    obtain ⟨answers, hlen, hall, c1⟩ := commands_enrollment_passes _ s s1 hp
    simp only at h
    cases hc : finger_call SensorCall.createModel
        (publish_status "Creating fingerprint model..." s1) with
    | none => simp [hc] at h
    | some p =>
      obtain ⟨r, s2⟩ := p
      simp only [hc] at h
      have c2 := commands_finger_call hc
      split at h
      · rename_i hne
        simp only [Option.some.injEq, Prod.mk.injEq] at h
        exact absurd (by exact_mod_cast h.1) hne
      · rename_i heq
        have heq : r.status = FINGERPRINT_OK := by simpa using heq
        rw [heq] at c2
        cases hc2 : finger_call (SensorCall.storeModel id)
            (publish_status "Storing fingerprint..." s2) with
        | none => simp [hc2] at h
        | some p2 =>
          obtain ⟨r2, s3⟩ := p2
          simp only [hc2] at h
          have c3 := commands_finger_call hc2
          split at h
          · rename_i hne
            simp only [Option.some.injEq, Prod.mk.injEq] at h
            exact absurd (by exact_mod_cast h.1) hne
          · rename_i heq2
            have heq2 : r2.status = FINGERPRINT_OK := by simpa using heq2
            rw [heq2] at c3
            simp only [Option.some.injEq, Prod.mk.injEq, true_and] at h
            subst h
            refine ⟨answers, hlen, hall, ?_⟩
            have := c1.append ((commands_publish_status _ s1).append
              (c2.append ((commands_publish_status _ s2).append c3)))
            simpa using this

/-- What `c_str()` hands over of a string of bytes is its part before the first NUL. -/
theorem string_of_buffer_c_str_cut (s : String) (h : ∀ c ∈ s.data, c.toNat < 256) :
    string_of_buffer (c_str s) = before_first_nul s := by
  unfold string_of_buffer c_str before_first_nul
  congr 1
  have key : ∀ l : List Char, (∀ c ∈ l, c.toNat < 256) →
      List.map Char.ofNat (List.takeWhile (fun b => decide (b ≠ 0))
        (List.map (fun c : Char => c.toNat % 256) l ++ [0])) =
      l.takeWhile (fun c => decide (c.toNat ≠ 0)) := by
    intro l
    induction l with
    | nil => intro _; simp [List.takeWhile]
    | cons c rest ih =>
      intro hl
      have hc := hl c (List.mem_cons_self _ _)
      have hmod : c.toNat % 256 = c.toNat := Nat.mod_eq_of_lt hc
      simp only [List.map_cons, List.cons_append, List.takeWhile, hmod]
      by_cases hz : c.toNat = 0
      · simp [hz]
      · simp only [ne_eq, hz, not_false_eq_true, decide_True, List.map_cons, Char.ofNat_toNat]
        exact congrArg (c :: ·) (ih (fun d hd => hl d (List.mem_cons_of_mem _ hd)))
  exact key s.data h

/-- What `enroll_fingerprint` does after `perform_enrollment` returned 0. -/
theorem enroll_fingerprint_success_events (id : Int) (name : String)
    (self after : FingerprintSensor) (r : Reply) (rest : List Reply)
    (hconn : self.connected_ = true) (hid : 1 ≤ id ∧ id ≤ 200)
    (hperf : perform_enrollment id (enroll_begin id name self) = some (0, after))
    (hcount : after.replies = r :: rest) :
    ∃ s, enroll_fingerprint id name self = some s ∧
      s.events = after.events ++
        ([Event.preferences_putString (String_of_int id) (string_of_buffer (c_str name))] ++
         (if after.status_sensor_ then [Event.publish_status "Enrollment successful!"]
          else []) ++
         [Event.call SensorCall.getTemplateCount r.status] ++
         (if after.enrolled_count_sensor_ then [Event.publish_enrolled_count r.templateCount]
          else []) ++
         [Event.LEDcontrol FINGERPRINT_LED_BREATHING 250 FINGERPRINT_LED_BLUE 0]) ∧
      s.fingerprint_names_ = map_assign id name after.fingerprint_names_ ∧
      s.preferences_ = preferences_putString (String_of_int id) (string_of_buffer (c_str name))
        after.preferences_ := by
  have hid2 : ¬ (id < 1 ∨ id > 200) := by omega
  unfold enroll_fingerprint
  simp only [hconn, Bool.not_true, Bool.false_eq_true, if_false, hid2, hperf, if_true,
    finger_getTemplateCount, finger_call, publish_status_eq, save_name, hcount,
    publish_enrolled_count_eq, finger_LEDcontrol]
  refine ⟨_, rfl, ?_, rfl, rfl⟩
  simp only [List.append_assoc]

theorem commands_enroll_begin (id : Int) (name : String) (self : FingerprintSensor) :
    Commands self (enroll_begin id name self) [] := by
  unfold enroll_begin
  have h0 : Commands self
      { self with enrolling_ := true, enroll_id_ := id, enroll_name_ := name } [] :=
    ⟨[], by simp, rfl⟩
  simpa using h0.append (commands_publish_status _ _)

/-! ## The claims -/

/-- C1 (the code departs from it). The claim: with a non-empty local secret marked valid, every
notepad read that succeeds with content different from the secret makes `check_pairing` set
`pairing_valid_` to false, persist that, and return false. On a paired device whose sensor
answers the read with OK and a page of 32 zero bytes (a sensor never written to), the read
succeeds and the page differs from the secret, yet `check_pairing` takes the "communication
error" exit: it returns false with `pairing_valid_` still true, nothing persisted and nothing
published. -/
theorem check_pairing_blank_notepad_not_invalidated :
    (read_notepad 0 (List.replicate 33 0) 32 blank_notepad).1 = FINGERPRINT_OK ∧
    (read_notepad 0 (List.replicate 33 0) 32 blank_notepad).2.take 32 ≠
      (c_str demo_paired.stored_pairing_code_).take 32 ∧
    demo_paired.stored_pairing_code_ ≠ "" ∧
    demo_paired.pairing_valid_ = true ∧
    check_pairing demo_hash blank_notepad demo_paired =
      (false, { demo_paired with
        events := [PairingEvent.sensor_command [FINGERPRINT_READNOTEPAD, 0]] }) := by
  decide

/-- C2. From a state with a stored secret and `pairing_valid_` false (what a detected mismatch
leaves), any sequence of `check_pairing`, `do_pairing` and reboots (`setup`, when the persisted
record is the invalidated one) that contains no `do_pairing` with an acknowledged write returns
true at no step and ends with `pairing_valid_` false, the stored secret and the persisted flag
unchanged, whatever the sensor's notepad answers; so `pairing_valid_` is true again only if some
operation was a `do_pairing` whose write the sensor acknowledged. -/
theorem no_silent_recovery (ops : List PairingOp) (self : FingerprintPairing)
    (hcode : self.stored_pairing_code_ ≠ "") (hinvalid : self.pairing_valid_ = false)
    (hpersisted : (∃ op ∈ ops, op.is_setup = true) → persisted_invalid self) :
    ((∀ op ∈ ops, op.acknowledged_pair = false) →
      (∀ b ∈ (run_ops ops self).1, b ≠ some true) ∧
      (run_ops ops self).2.pairing_valid_ = false ∧
      (run_ops ops self).2.stored_pairing_code_ = self.stored_pairing_code_ ∧
      (run_ops ops self).2.prefs_pairing_valid = self.prefs_pairing_valid) ∧
    ((run_ops ops self).2.pairing_valid_ = true →
      ∃ op ∈ ops, op.acknowledged_pair = true) := by
  constructor
  · intro hops
    have h := run_ops_unacknowledged ops self hcode hinvalid hpersisted hops
    exact ⟨h.1, h.2.1, h.2.2.1, h.2.2.2.2⟩
  · intro hvalid
    by_contra hnone
    have hops : ∀ op ∈ ops, op.acknowledged_pair = false := by
      intro op hop
      cases hack : op.acknowledged_pair with
      | false => rfl
      | true => exact absurd ⟨op, hop, hack⟩ hnone
    have h := run_ops_unacknowledged ops self hcode hinvalid hpersisted hops
    rw [h.2.1] at hvalid
    exact Bool.noConfusion hvalid

/-- Witness for C2: after a mismatch, a check against a sensor holding the original secret, a
reboot and another such check all leave the pairing invalid, and both checks return false. -/
theorem no_silent_recovery_witness :
    demo_mismatched.stored_pairing_code_ ≠ "" ∧ demo_mismatched.pairing_valid_ = false ∧
    (run_ops [PairingOp.check demo_hash (notepad_holding demo_code),
        PairingOp.setup demo_hash (notepad_holding demo_code),
        PairingOp.check demo_hash (notepad_holding demo_code)] demo_mismatched).1 =
      [some false, none, some false] ∧
    (run_ops [PairingOp.check demo_hash (notepad_holding demo_code),
        PairingOp.setup demo_hash (notepad_holding demo_code),
        PairingOp.check demo_hash (notepad_holding demo_code)] demo_mismatched).2.pairing_valid_ =
      false ∧
    (run_ops [PairingOp.check demo_hash (notepad_holding demo_code),
        PairingOp.setup demo_hash (notepad_holding demo_code),
        PairingOp.check demo_hash (notepad_holding demo_code)]
      demo_mismatched).2.stored_pairing_code_ = demo_code :=
  ⟨by decide, by decide, by decide,
    ((no_silent_recovery [PairingOp.check demo_hash (notepad_holding demo_code),
      PairingOp.setup demo_hash (notepad_holding demo_code),
      PairingOp.check demo_hash (notepad_holding demo_code)] demo_mismatched (by decide)
      (by decide) (fun _ => by decide)).1 (by decide)).2.1,
    ((no_silent_recovery [PairingOp.check demo_hash (notepad_holding demo_code),
      PairingOp.setup demo_hash (notepad_holding demo_code),
      PairingOp.check demo_hash (notepad_holding demo_code)] demo_mismatched (by decide)
      (by decide) (fun _ => by decide)).1 (by decide)).2.2.1⟩

/-- C3. With a non-empty local secret marked valid, `check_pairing` returns true exactly when
the string read from the sensor has the length of the stored secret and the same character at
every position, and it then publishes pairing-valid true and an empty warning; a read string
that is a proper prefix of the stored secret, or that properly extends it, is rejected. (A failed
read yields the empty string, which a non-empty secret never equals.) -/
theorem check_pairing_accepts_iff_exact (hash : List Nat) (reply : PacketReply)
    (self : FingerprintPairing)
    (hcode : self.stored_pairing_code_ ≠ "") (hvalid : self.pairing_valid_ = true) :
    ((check_pairing hash reply self).1 = true ↔
      ((get_sensor_pairing_code reply).length = self.stored_pairing_code_.length ∧
       ∀ i : Nat,
         (get_sensor_pairing_code reply).data[i]? = self.stored_pairing_code_.data[i]?)) ∧
    ((check_pairing hash reply self).1 = true →
      (check_pairing hash reply self).2.events = self.events ++
        [PairingEvent.sensor_command [FINGERPRINT_READNOTEPAD, 0],
         PairingEvent.publish_pairing_valid true,
         PairingEvent.publish_pairing_warning ""]) ∧
    ((get_sensor_pairing_code reply).data <+: self.stored_pairing_code_.data →
      (get_sensor_pairing_code reply).data ≠ self.stored_pairing_code_.data →
      (check_pairing hash reply self).1 = false) ∧
    (self.stored_pairing_code_.data <+: (get_sensor_pairing_code reply).data →
      (get_sensor_pairing_code reply).data ≠ self.stored_pairing_code_.data →
      (check_pairing hash reply self).1 = false) := by
  have key : (check_pairing hash reply self).1 = true ↔
      get_sensor_pairing_code reply = self.stored_pairing_code_ := by
    by_cases h1 : get_sensor_pairing_code reply = ""
    · have : ¬ ("" = self.stored_pairing_code_) := fun h => hcode h.symm
      simp [check_pairing, hcode, hvalid, h1, this]
    · by_cases h2 : get_sensor_pairing_code reply = self.stored_pairing_code_
      · simp [check_pairing, hcode, hvalid, h2]
      · simp [check_pairing, hcode, hvalid, h1, h2]
  have hne : (get_sensor_pairing_code reply).data ≠ self.stored_pairing_code_.data →
      (check_pairing hash reply self).1 = false := by
    intro hd
    cases hb : (check_pairing hash reply self).1 with
    | false => rfl
    | true => exact absurd (congrArg String.data (key.mp hb)) hd
  refine ⟨?_, ?_, fun _ hd => hne hd, fun _ hd => hne hd⟩
  · rw [key]; exact string_eq_iff_length_and_chars _ _
  · intro hb
    have heq := key.mp hb
    simp [check_pairing, hcode, hvalid, heq]

/-- Witness for C3: the first 16 characters of the stored code are not accepted. -/
theorem check_pairing_accepts_iff_exact_witness :
    demo_paired.stored_pairing_code_ ≠ "" ∧ demo_paired.pairing_valid_ = true ∧
    (check_pairing demo_hash (notepad_holding "0123456789abcdef") demo_paired).1 = false :=
  ⟨by decide, by decide,
    (check_pairing_accepts_iff_exact demo_hash (notepad_holding "0123456789abcdef") demo_paired
      (by decide) (by decide)).2.2.1 (by decide) (by decide)⟩

/-- C4. With no local secret stored, `check_pairing` is `do_pairing`, and when the sensor
acknowledges the notepad write it returns true with `pairing_valid_` true, the generated code in
`stored_pairing_code_`, and the same code and valid=true in the preferences. -/
theorem check_pairing_first_boot_pairs (hash : List Nat) (reply : PacketReply)
    (self : FingerprintPairing)
    (hempty : self.stored_pairing_code_ = "")
    (hack : write_notepad 0 (c_str (generate_pairing_code hash)) 32 reply = FINGERPRINT_OK) :
    check_pairing hash reply self = do_pairing hash reply self ∧
    (check_pairing hash reply self).1 = true ∧
    (check_pairing hash reply self).2.pairing_valid_ = true ∧
    (check_pairing hash reply self).2.stored_pairing_code_ = generate_pairing_code hash ∧
    (check_pairing hash reply self).2.prefs_pairing_code = some (generate_pairing_code hash) ∧
    (check_pairing hash reply self).2.prefs_pairing_valid = some true := by
  simp [check_pairing, hempty, do_pairing, hack]

/-- Witness for C4: first check of a device that was never paired. -/
theorem check_pairing_first_boot_pairs_witness :
    demo_unpaired.stored_pairing_code_ = "" ∧
    write_notepad 0 (c_str (generate_pairing_code demo_hash)) 32 write_acknowledged =
      FINGERPRINT_OK ∧
    (check_pairing demo_hash write_acknowledged demo_unpaired).1 = true ∧
    (check_pairing demo_hash write_acknowledged demo_unpaired).2.pairing_valid_ = true ∧
    (check_pairing demo_hash write_acknowledged demo_unpaired).2.stored_pairing_code_ =
      generate_pairing_code demo_hash ∧
    (check_pairing demo_hash write_acknowledged demo_unpaired).2.prefs_pairing_code =
      some (generate_pairing_code demo_hash) ∧
    (check_pairing demo_hash write_acknowledged demo_unpaired).2.prefs_pairing_valid =
      some true :=
  ⟨by decide, by decide,
    (check_pairing_first_boot_pairs demo_hash write_acknowledged demo_unpaired (by decide)
      (by decide)).2⟩

/-- C5. Whatever the prior pairing state, when the notepad write of `do_pairing` is not
acknowledged with OK, `do_pairing` returns false and `stored_pairing_code_`, `pairing_valid_` and
both persisted values are as before: the only effects are the write command itself and the
"Pairing failed" warning. -/
theorem do_pairing_unacknowledged_keeps_state (hash : List Nat) (reply : PacketReply)
    (self : FingerprintPairing)
    (hnack : write_notepad 0 (c_str (generate_pairing_code hash)) 32 reply ≠ FINGERPRINT_OK) :
    (do_pairing hash reply self).1 = false ∧
    (do_pairing hash reply self).2.stored_pairing_code_ = self.stored_pairing_code_ ∧
    (do_pairing hash reply self).2.pairing_valid_ = self.pairing_valid_ ∧
    (do_pairing hash reply self).2.prefs_pairing_code = self.prefs_pairing_code ∧
    (do_pairing hash reply self).2.prefs_pairing_valid = self.prefs_pairing_valid ∧
    (do_pairing hash reply self).2.events = self.events ++
      [PairingEvent.sensor_command (write_notepad_packet 0 (c_str (generate_pairing_code hash)) 32),
       PairingEvent.publish_pairing_warning "Pairing failed - check sensor connection"] := by
  simp [do_pairing, hnack]

/-- Witness for C5: re-pairing a paired device while the sensor does not answer. -/
theorem do_pairing_unacknowledged_keeps_state_witness :
    write_notepad 0 (c_str (generate_pairing_code demo_hash)) 32 no_reply ≠ FINGERPRINT_OK ∧
    (do_pairing demo_hash no_reply demo_paired).1 = false ∧
    (do_pairing demo_hash no_reply demo_paired).2.stored_pairing_code_ = demo_code ∧
    (do_pairing demo_hash no_reply demo_paired).2.pairing_valid_ = true :=
  ⟨by decide,
    (do_pairing_unacknowledged_keeps_state demo_hash no_reply demo_paired (by decide)).1,
    (do_pairing_unacknowledged_keeps_state demo_hash no_reply demo_paired (by decide)).2.1,
    (do_pairing_unacknowledged_keeps_state demo_hash no_reply demo_paired (by decide)).2.2.1⟩

/-- C6. With a non-empty local secret marked valid, when the notepad read fails (no packet, no
acknowledge packet, or a status other than OK) `check_pairing` returns false, `pairing_valid_`
stays true, the preferences are as before, and the only effect is the read command: nothing is
written to the preference store and nothing is published. -/
theorem check_pairing_read_failure_keeps_valid (hash : List Nat) (reply : PacketReply)
    (self : FingerprintPairing)
    (hcode : self.stored_pairing_code_ ≠ "") (hvalid : self.pairing_valid_ = true)
    (hfail : (read_notepad 0 (List.replicate 33 0) 32 reply).1 ≠ FINGERPRINT_OK) :
    (check_pairing hash reply self).1 = false ∧
    (check_pairing hash reply self).2.pairing_valid_ = true ∧
    (check_pairing hash reply self).2.stored_pairing_code_ = self.stored_pairing_code_ ∧
    (check_pairing hash reply self).2.prefs_pairing_code = self.prefs_pairing_code ∧
    (check_pairing hash reply self).2.prefs_pairing_valid = self.prefs_pairing_valid ∧
    (check_pairing hash reply self).2.events = self.events ++
      [PairingEvent.sensor_command [FINGERPRINT_READNOTEPAD, 0]] := by
  have hs : get_sensor_pairing_code reply = "" := by
    simp only [get_sensor_pairing_code]
    rw [if_neg hfail]
  simp [check_pairing, hcode, hvalid, hs]

/-- Witness for C6: a check of a paired device while the sensor does not answer. -/
theorem check_pairing_read_failure_keeps_valid_witness :
    demo_paired.stored_pairing_code_ ≠ "" ∧ demo_paired.pairing_valid_ = true ∧
    (read_notepad 0 (List.replicate 33 0) 32 no_reply).1 ≠ FINGERPRINT_OK ∧
    (check_pairing demo_hash no_reply demo_paired).2.pairing_valid_ = true ∧
    (check_pairing demo_hash no_reply demo_paired).2.events =
      demo_paired.events ++ [PairingEvent.sensor_command [FINGERPRINT_READNOTEPAD, 0]] :=
  ⟨by decide, by decide, by decide,
    (check_pairing_read_failure_keeps_valid demo_hash no_reply demo_paired (by decide)
      (by decide) (by decide)).2.1,
    (check_pairing_read_failure_keeps_valid demo_hash no_reply demo_paired (by decide)
      (by decide) (by decide)).2.2.2.2.2⟩

/-- C7. For every id below 1 or above 200, `enroll_fingerprint` returns without taking any
answer from the sensor, with the registry (map and preferences) and `enrolling_` as before and
at most an error status published (no sensor command among the events), and
`delete_fingerprint` returns the state it was given. -/
theorem invalid_id_rejected (id : Int) (name : String) (self : FingerprintSensor)
    (hid : id < 1 ∨ id > 200) :
    (∃ s, enroll_fingerprint id name self = some s ∧
      s.fingerprint_names_ = self.fingerprint_names_ ∧
      s.preferences_ = self.preferences_ ∧
      s.replies = self.replies ∧
      s.enrolling_ = self.enrolling_ ∧
      s.events = self.events ++
        (if self.status_sensor_ then
          [Event.publish_status
            (if self.connected_ then "Error: Invalid ID" else "Error: Sensor not connected")]
         else [])) ∧
    delete_fingerprint id self = some self := by
  constructor
  · cases hc : self.connected_ <;> cases hs : self.status_sensor_ <;>
      simp [enroll_fingerprint, publish_status, hc, hs, hid]
  · cases hc : self.connected_ <;> simp [delete_fingerprint, hc, hid]

/-- Witness for C7: id 201. -/
theorem invalid_id_rejected_witness :
    ((201 : Int) < 1 ∨ (201 : Int) > 200) ∧
    (∃ s, enroll_fingerprint 201 "Alice" demo_sensor = some s ∧
      s.fingerprint_names_ = demo_sensor.fingerprint_names_ ∧
      s.preferences_ = demo_sensor.preferences_ ∧
      s.replies = demo_sensor.replies ∧
      s.enrolling_ = demo_sensor.enrolling_ ∧
      s.events = demo_sensor.events ++
        (if demo_sensor.status_sensor_ then
          [Event.publish_status
            (if demo_sensor.connected_ then "Error: Invalid ID"
             else "Error: Sensor not connected")]
         else [])) ∧
    delete_fingerprint 201 demo_sensor = some demo_sensor :=
  ⟨by decide, invalid_id_rejected 201 "Alice" demo_sensor (by decide)⟩

/-- C8. For every id in 1..200, every name and every script of sensor answers on which
`perform_enrollment` returns: if it returns a non-zero code, or if it ended on a capture answered
with an error (`getImage` answering PACKETRECIEVEERR or IMAGEFAIL as its last event), or if any
conversion, create-model or store-model command was answered non-OK, then `enroll_fingerprint`
returns and the in-memory map and the preferences are exactly as before the call. -/
theorem enroll_failure_keeps_registry (id : Int) (name : String)
    (self after : FingerprintSensor) (result : Int)
    (hconn : self.connected_ = true) (hid : 1 ≤ id ∧ id ≤ 200)
    (hperf : perform_enrollment id (enroll_begin id name self) = some (result, after))
    (hfail : result ≠ 0 ∨
      (∃ pre status,
        new_events (enroll_begin id name self) after =
          pre ++ [Event.call SensorCall.getImage status] ∧
        (status = FINGERPRINT_PACKETRECIEVEERR ∨ status = FINGERPRINT_IMAGEFAIL)) ∨
      (∃ c status, is_model_call c = true ∧ status ≠ FINGERPRINT_OK ∧
        Event.call c status ∈ new_events (enroll_begin id name self) after)) :
    ∃ s, enroll_fingerprint id name self = some s ∧
      s.fingerprint_names_ = self.fingerprint_names_ ∧
      s.preferences_ = self.preferences_ := by
  obtain ⟨hzero, l, hl⟩ := trace_perform_enrollment id _ _ _ hperf
  have hres : result ≠ 0 := by
    rcases hfail with h | ⟨pre, status, hnew, _⟩ | ⟨c, status, hc, hs, hmem⟩
    · exact h
    · intro h0
      subst h0
      obtain ⟨pre2, hlast⟩ := perform_enrollment_ok_last id _ _ hperf
      obtain ⟨l2, he2, _⟩ := hzero rfl
      have hl2 : new_events (enroll_begin id name self) after = l2 := by
        unfold new_events
        rw [he2, List.drop_left]
      rw [hl2] at hnew
      rw [he2, hnew, ← List.append_assoc] at hlast
      have := (List.append_inj' hlast rfl).2
      simp at this
    · intro h0
      have hsteps := filter_new_events_of_trace (hzero h0)
      have hin : Event.call c status ∈
          (new_events (enroll_begin id name self) after).filter is_enroll_step :=
        List.mem_filter.mpr ⟨hmem, by simpa [is_enroll_step] using hc⟩
      rw [hsteps] at hin
      simp [successful_model_steps] at hin
      rcases hin with h | h | h | h | h | h | h <;> exact hs h.2
  obtain ⟨_, _, _, hn, hp⟩ := (trace_enroll_begin id name self).trans hl
  have hid2 : ¬ (id < 1 ∨ id > 200) := by omega
  have hrun : enroll_fingerprint id name self = some
      (finger_LEDcontrol FINGERPRINT_LED_BREATHING 250 FINGERPRINT_LED_BLUE 0
        { (publish_status "Enrollment failed!" after) with enrolling_ := false }) := by
    unfold enroll_fingerprint
    simp only [hconn, Bool.not_true, Bool.false_eq_true, if_false, hid2, hperf, hres]
  refine ⟨_, hrun, ?_, ?_⟩
  · simp only [finger_LEDcontrol, publish_status]
    split <;> exact hn
  · simp only [finger_LEDcontrol, publish_status]
    split <;> exact hp

/-- Witness for C8: the capture of pass 3 fails; the registry still holds only id 7. -/
theorem enroll_failure_keeps_registry_witness :
    demo_sensor.connected_ = true ∧ ((1 : Int) ≤ 5 ∧ (5 : Int) ≤ 200) ∧
    perform_enrollment 5 (enroll_begin 5 "Alice" { demo_sensor with replies := failing_script }) =
      some ((FINGERPRINT_IMAGEFAIL : Int), demo_after_failure) ∧
    ∃ s, enroll_fingerprint 5 "Alice" { demo_sensor with replies := failing_script } = some s ∧
      s.fingerprint_names_ = [(7, "Bob")] ∧ s.preferences_ = [("7", "Bob")] :=
  ⟨by decide, by decide, by decide,
    enroll_failure_keeps_registry 5 "Alice" { demo_sensor with replies := failing_script }
      demo_after_failure (FINGERPRINT_IMAGEFAIL : Int) (by decide) (by decide) (by decide)
      (Or.inr (Or.inl ⟨(new_events (enroll_begin 5 "Alice"
          { demo_sensor with replies := failing_script }) demo_after_failure).dropLast,
        FINGERPRINT_IMAGEFAIL, by decide, Or.inr rfl⟩))⟩

/-- C9, as stated, fails for a name with a NUL character. The enrollment of id 5 under the name
"A", NUL, "B" succeeds (`perform_enrollment` returns 0); afterwards the in-memory map gives the
whole name for id 5, but the preferences hold "A" under key "5": `putString` receives
`name.c_str()`, which ends at the first NUL. -/
theorem enrollment_stores_name_up_to_nul :
    (perform_enrollment 5
      (enroll_begin 5 "A\x00B" { demo_sensor with replies := successful_script })).map
        Prod.fst = some 0 ∧
    (enroll_fingerprint 5 "A\x00B" { demo_sensor with replies := successful_script }).map
      (fun s => (map_find 5 s.fingerprint_names_,
        preferences_getString (String_of_int 5) "" s.preferences_)) =
      some (some "A\x00B", "A") := by
  decide

/-- C9, amended. When `perform_enrollment` returns 0 (and the sensor answers the template-count
query that follows), `enroll_fingerprint` returns, and the driver commands and preference writes
of the whole call are, in this order: for each pass k = 1..5 the polls of its wait loops (from
pass 2 on, `getImage` until "no finger"; then `getImage` while the answer is neither OK nor an
error), the `getImage` answered OK that captures the image, and `image2Tz(k)` answered OK; then
`createModel` and `storeModel(id)`, both answered OK; then the `putString` of `name.c_str()`
under the key `String(id)`; then the template-count query. Until `perform_enrollment` has
returned, the map and the preferences are unchanged. Afterwards the in-memory map gives `name`
for `id`, and the preferences hold for `String(id)` what `name.c_str()` denotes: the part of
`name` before its first NUL, which is `name` itself when it has none. -/
theorem successful_enrollment_steps (id : Int) (name : String)
    (self after : FingerprintSensor) (r : Reply) (rest : List Reply)
    (hconn : self.connected_ = true) (hid : 1 ≤ id ∧ id ≤ 200)
    (hperf : perform_enrollment id (enroll_begin id name self) = some (0, after))
    (hcount : after.replies = r :: rest) :
    ∃ s, enroll_fingerprint id name self = some s ∧
      (∃ answers : List (List Nat × List Nat), answers.length = 5 ∧
        (∀ p ∈ answers, keeps_polling p.1 p.2) ∧
        (new_events self s).filter is_command =
          capture_passes_commands [1, 2, 3, 4, 5] answers ++
          [Event.call SensorCall.createModel FINGERPRINT_OK,
           Event.call (SensorCall.storeModel id) FINGERPRINT_OK,
           Event.preferences_putString (String_of_int id) (string_of_buffer (c_str name)),
           Event.call SensorCall.getTemplateCount r.status]) ∧
      (new_events self s).filter is_enroll_step =
        [Event.call (SensorCall.image2Tz 1) FINGERPRINT_OK,
         Event.call (SensorCall.image2Tz 2) FINGERPRINT_OK,
         Event.call (SensorCall.image2Tz 3) FINGERPRINT_OK,
         Event.call (SensorCall.image2Tz 4) FINGERPRINT_OK,
         Event.call (SensorCall.image2Tz 5) FINGERPRINT_OK,
         Event.call SensorCall.createModel FINGERPRINT_OK,
         Event.call (SensorCall.storeModel id) FINGERPRINT_OK,
         Event.preferences_putString (String_of_int id) (string_of_buffer (c_str name))] ∧
      (after.fingerprint_names_ = self.fingerprint_names_ ∧
        after.preferences_ = self.preferences_) ∧
      s.fingerprint_names_ = map_assign id name self.fingerprint_names_ ∧
      s.preferences_ = preferences_putString (String_of_int id) (string_of_buffer (c_str name))
        self.preferences_ ∧
      map_find id s.fingerprint_names_ = some name ∧
      preferences_isKey (String_of_int id) s.preferences_ = true ∧
      preferences_getString (String_of_int id) "" s.preferences_ =
        string_of_buffer (c_str name) ∧
      ((∀ c ∈ name.data, c.toNat < 256) →
        preferences_getString (String_of_int id) "" s.preferences_ = before_first_nul name) ∧
      (is_c_string name → preferences_getString (String_of_int id) "" s.preferences_ = name) := by
  obtain ⟨hzero, _⟩ := trace_perform_enrollment id _ _ _ hperf
  obtain ⟨l, he, hf, hn, hp⟩ := (trace_enroll_begin id name self).trans (hzero rfl)
  obtain ⟨answers, hlen, hall, l2, he2, hf2⟩ := commands_perform_enrollment id _ _ hperf
  obtain ⟨l1, he1, hf1⟩ := commands_enroll_begin id name self
  obtain ⟨s, hs, hev, hsn, hsp⟩ :=
    enroll_fingerprint_success_events id name self after r rest hconn hid hperf hcount
  have hput := preferences_get_put (String_of_int id) (string_of_buffer (c_str name))
    self.preferences_
  have hget : preferences_getString (String_of_int id) "" s.preferences_ =
      string_of_buffer (c_str name) := by
    rw [hsp, hp]
    exact hput.2 ""
  refine ⟨s, hs, ⟨answers, hlen, hall, ?_⟩, ?_, ⟨hn, hp⟩, ?_, ?_, ?_, ?_, hget, ?_, ?_⟩
  · unfold new_events
    rw [hev, he2, he1, List.append_assoc, List.append_assoc, List.drop_left,
      List.filter_append, List.filter_append, hf1, hf2]
    cases after.status_sensor_ <;> cases after.enrolled_count_sensor_ <;>
      simp [List.filter, is_command]
  · unfold new_events
    rw [hev, he, List.append_assoc, List.drop_left, List.filter_append, hf]
    cases after.status_sensor_ <;> cases after.enrolled_count_sensor_ <;>
      simp [List.filter, is_enroll_step, is_model_call, successful_model_steps]
  · rw [hsn, hn]
  · rw [hsp, hp]
  · rw [hsn]
    exact map_find_assign _ _ _
  · rw [hsp, hp]
    exact hput.1
  · intro hb
    rw [hget]
    exact string_of_buffer_c_str_cut name hb
  · intro hc
    rw [hget]
    exact string_of_buffer_c_str name hc

/-- Witness for C9: a complete enrollment of id 5 as "Alice", in whose third pass the finger is
at first still down and then not yet back. -/
theorem successful_enrollment_steps_witness :
    demo_sensor.connected_ = true ∧ ((1 : Int) ≤ 5 ∧ (5 : Int) ≤ 200) ∧
    perform_enrollment 5
        (enroll_begin 5 "Alice" { demo_sensor with replies := successful_script }) =
      some (0, demo_after_success) ∧
    (∀ p ∈ demo_pass_answers, keeps_polling p.1 p.2) ∧
    (new_events { demo_sensor with replies := successful_script } demo_after_enroll).filter
        is_command =
      capture_passes_commands [1, 2, 3, 4, 5] demo_pass_answers ++
        [Event.call SensorCall.createModel FINGERPRINT_OK,
         Event.call (SensorCall.storeModel 5) FINGERPRINT_OK,
         Event.preferences_putString "5" "Alice",
         Event.call SensorCall.getTemplateCount FINGERPRINT_OK] ∧
    ∃ s, enroll_fingerprint 5 "Alice" { demo_sensor with replies := successful_script } =
        some s ∧
      map_find 5 s.fingerprint_names_ = some "Alice" ∧
      preferences_getString (String_of_int 5) "" s.preferences_ = "Alice" :=
  ⟨by decide, by decide, by decide, by decide, by decide,
    (successful_enrollment_steps 5 "Alice" { demo_sensor with replies := successful_script }
      demo_after_success
      { status := FINGERPRINT_OK, fingerID := 0, confidence := 0, templateCount := 2 } []
      (by decide) (by decide) (by decide) (by decide)).imp
      (fun _ h => ⟨h.1, h.2.2.2.2.2.2.1, h.2.2.2.2.2.2.2.2.2.2 (by decide)⟩)⟩

/-- C10. In a state whose `last_ring_state_` is set, a due scan step that finds no finger
publishes the cleared observation once (ring=false, id=-1, empty name, confidence 0, each on its
sensor when set), returns the LED to breathing blue and clears `last_ring_state_`. Any further
scan steps during which the sensor keeps answering "no finger" return (as long as the script has
an answer for each), leave the latch clear, and add nothing to the events but `getImage` polls:
nothing is published. A due scan step whose search answers OK (match) or NOTFOUND (ring) leaves
`last_ring_state_` set. -/
theorem finger_absent_clears_once (t : Nat) (ts : List Nat) (self : FingerprintSensor)
    (r : Reply) (rest : List Reply)
    (hlatch : self.last_ring_state_ = true)
    (hdue : 100 ≤ u32_sub t self.last_scan_time_)
    (hreplies : self.replies = r :: rest)
    (habsent : r.status = FINGERPRINT_NOFINGER)
    (hrest : ∀ q ∈ rest, q.status = FINGERPRINT_NOFINGER) :
    (∃ s, scan_fingerprint t self = some s ∧
      s.last_ring_state_ = false ∧
      s.events = self.events ++ [Event.call SensorCall.getImage FINGERPRINT_NOFINGER] ++
        cleared_observation self ++
        [Event.LEDcontrol FINGERPRINT_LED_BREATHING 250 FINGERPRINT_LED_BLUE 0] ∧
      (ts.length ≤ rest.length → ∃ final, scan_steps ts s = some final) ∧
      ∀ final, scan_steps ts s = some final →
        final.last_ring_state_ = false ∧
        ∃ n, final.events = s.events ++
          List.replicate n (Event.call SensorCall.getImage FINGERPRINT_NOFINGER)) ∧
    (∀ (t0 : Nat) (s0 : FingerprintSensor) (r1 r2 r3 : Reply) (rest0 : List Reply),
      100 ≤ u32_sub t0 s0.last_scan_time_ →
      s0.replies = r1 :: r2 :: r3 :: rest0 →
      r1.status = FINGERPRINT_OK → r2.status = FINGERPRINT_OK →
      (r3.status = FINGERPRINT_OK ∨ r3.status = FINGERPRINT_NOTFOUND) →
      ∃ s1, scan_fingerprint t0 s0 = some s1 ∧ s1.last_ring_state_ = true) := by
  constructor
  · obtain ⟨s, hs, hl, hr, he⟩ :=
      scan_absent_latched t self r rest hlatch hdue hreplies habsent
    have hrest2 : ∀ q ∈ s.replies, q.status = FINGERPRINT_NOFINGER := by
      rw [hr]
      exact hrest
    refine ⟨s, hs, hl, he, ?_, ?_⟩
    · intro hlen
      exact scan_steps_absent_returns ts s hl hrest2 (by rw [hr]; exact hlen)
    · intro final hfinal
      exact scan_steps_absent_idle ts s final hl hrest2 hfinal
  · intro t0 s0 r1 r2 r3 rest0 hdue0 hrep0 h1 h2 h3
    exact scan_present_latches t0 s0 r1 r2 r3 rest0 hdue0 hrep0 h1 h2 h3

/-- Witness for C10: after a match on id 7, the first absent poll publishes the cleared
observation, and two further steps (one of them too early to poll) publish nothing. -/
theorem finger_absent_clears_once_witness :
    demo_after_match.last_ring_state_ = true ∧
    100 ≤ u32_sub 4100 demo_after_match.last_scan_time_ ∧
    demo_after_match.replies = status_reply FINGERPRINT_NOFINGER ::
      [status_reply FINGERPRINT_NOFINGER, status_reply FINGERPRINT_NOFINGER] ∧
    ∃ s, scan_fingerprint 4100 demo_after_match = some s ∧
      s.last_ring_state_ = false ∧
      s.events = demo_after_match.events ++
        [Event.call SensorCall.getImage FINGERPRINT_NOFINGER] ++
        [Event.publish_ring false, Event.publish_match_id (-1), Event.publish_match_name "",
         Event.publish_confidence 0] ++
        [Event.LEDcontrol FINGERPRINT_LED_BREATHING 250 FINGERPRINT_LED_BLUE 0] ∧
      ∃ final, scan_steps [4150, 4200] s = some final ∧
        final.last_ring_state_ = false ∧
        ∃ n, final.events = s.events ++
          List.replicate n (Event.call SensorCall.getImage FINGERPRINT_NOFINGER) :=
  ⟨by decide, by decide, by decide,
    (finger_absent_clears_once 4100 [4150, 4200] demo_after_match
      (status_reply FINGERPRINT_NOFINGER)
      [status_reply FINGERPRINT_NOFINGER, status_reply FINGERPRINT_NOFINGER]
      (by decide) (by decide) (by decide) (by decide) (by decide)).1.imp
      (fun _ h => ⟨h.1, h.2.1, h.2.2.1,
        (h.2.2.2.1 (by decide)).imp (fun final hf => ⟨hf, h.2.2.2.2 final hf⟩)⟩)⟩

/-- C11. A due scan step whose capture and conversion succeed and whose search answers
NOTFOUND returns, publishes ring=true, id=-1, the empty name and confidence 0 (each on its sensor
when set) and sets `last_ring_state_`. Conversely, whenever any scan step publishes ring=true,
that step was due and its capture and conversion were answered OK and its search NOTFOUND. -/
theorem not_found_rings (t : Nat) (self : FingerprintSensor) (r1 r2 r3 : Reply)
    (rest : List Reply)
    (hdue : 100 ≤ u32_sub t self.last_scan_time_)
    (hreplies : self.replies = r1 :: r2 :: r3 :: rest)
    (h1 : r1.status = FINGERPRINT_OK) (h2 : r2.status = FINGERPRINT_OK)
    (h3 : r3.status = FINGERPRINT_NOTFOUND) :
    (∃ s, scan_fingerprint t self = some s ∧
      s.events = self.events ++
        [Event.call SensorCall.getImage FINGERPRINT_OK,
         Event.LEDcontrol FINGERPRINT_LED_FLASHING 25 FINGERPRINT_LED_RED 0,
         Event.call (SensorCall.image2Tz 1) FINGERPRINT_OK,
         Event.call SensorCall.fingerSearch FINGERPRINT_NOTFOUND] ++
        ((if self.ring_sensor_ then [Event.publish_ring true] else []) ++
         (if self.match_id_sensor_ then [Event.publish_match_id (-1)] else []) ++
         (if self.match_name_sensor_ then [Event.publish_match_name ""] else []) ++
         (if self.confidence_sensor_ then [Event.publish_confidence 0] else []) ++
         (if self.status_sensor_ then [Event.publish_status "Doorbell ring!"] else [])) ++
        [Event.delay 1000] ∧
      s.last_ring_state_ = true) ∧
    (∀ (t0 : Nat) (s0 s1 : FingerprintSensor),
      scan_fingerprint t0 s0 = some s1 →
      Event.publish_ring true ∈ new_events s0 s1 →
      100 ≤ u32_sub t0 s0.last_scan_time_ ∧
      ∃ q1 q2 q3 rest0, s0.replies = q1 :: q2 :: q3 :: rest0 ∧
        q1.status = FINGERPRINT_OK ∧ q2.status = FINGERPRINT_OK ∧
        q3.status = FINGERPRINT_NOTFOUND) := by
  constructor
  · obtain ⟨s, hs, he, _, _, hl, _⟩ := scan_ring t self r1 r2 r3 rest hdue hreplies h1 h2 h3
    exact ⟨s, hs, he, hl⟩
  · intro t0 s0 s1 hscan hring
    by_cases hdue0 : 100 ≤ u32_sub t0 s0.last_scan_time_
    · obtain ⟨q, rest0, more, hrep, _, _, _, he, hmore⟩ := scan_due_cases t0 s0 s1 hdue0 hscan
      rw [new_events_of_append he] at hring
      simp only [List.mem_cons] at hring
      rcases hring with hring | hring
      · exact absurd hring (by simp)
      · obtain ⟨q2, q3, rest3, hrest, hq, hq2, hq3⟩ := hmore hring
        exact ⟨hdue0, q, q2, q3, rest3, by rw [hrep, hrest], hq, hq2, hq3⟩
    · have hlim : u32_sub t0 s0.last_scan_time_ < 100 := by omega
      simp only [scan_fingerprint, hlim, if_true, Option.some.injEq] at hscan
      subst hscan
      simp [new_events] at hring

/-- Witness for C11: an unknown finger rings the doorbell. -/
theorem not_found_rings_witness :
    100 ≤ u32_sub 1000 demo_sensor.last_scan_time_ ∧
    (∃ s, scan_fingerprint 1000 { demo_sensor with replies := ring_script } = some s ∧
      s.events =
        [Event.call SensorCall.getImage FINGERPRINT_OK,
         Event.LEDcontrol FINGERPRINT_LED_FLASHING 25 FINGERPRINT_LED_RED 0,
         Event.call (SensorCall.image2Tz 1) FINGERPRINT_OK,
         Event.call SensorCall.fingerSearch FINGERPRINT_NOTFOUND,
         Event.publish_ring true, Event.publish_match_id (-1), Event.publish_match_name "",
         Event.publish_confidence 0, Event.publish_status "Doorbell ring!",
         Event.delay 1000] ∧
      s.last_ring_state_ = true) :=
  ⟨by decide,
    (not_found_rings 1000 { demo_sensor with replies := ring_script }
      (status_reply FINGERPRINT_OK) (status_reply FINGERPRINT_OK)
      (status_reply FINGERPRINT_NOTFOUND) [] (by decide) (by decide) (by decide) (by decide)
      (by decide)).1⟩

/-- C12. A due scan step whose capture and conversion succeed and whose search answers OK with
id `i` and confidence `c` returns and publishes id=i, confidence=c and the name
`lookup_name i fingerprint_names_` (each on its sensor when set): the map entry of `i` when
there is one, "Unknown" when there is none. The map and the preferences are the same
afterwards. -/
theorem match_reports_registry_name (t : Nat) (self : FingerprintSensor) (r1 r2 r3 : Reply)
    (rest : List Reply)
    (hdue : 100 ≤ u32_sub t self.last_scan_time_)
    (hreplies : self.replies = r1 :: r2 :: r3 :: rest)
    (h1 : r1.status = FINGERPRINT_OK) (h2 : r2.status = FINGERPRINT_OK)
    (h3 : r3.status = FINGERPRINT_OK) :
    (∃ s, scan_fingerprint t self = some s ∧
      s.events = self.events ++
        [Event.call SensorCall.getImage FINGERPRINT_OK,
         Event.LEDcontrol FINGERPRINT_LED_FLASHING 25 FINGERPRINT_LED_RED 0,
         Event.call (SensorCall.image2Tz 1) FINGERPRINT_OK,
         Event.call SensorCall.fingerSearch FINGERPRINT_OK] ++
        ((if self.match_id_sensor_ then [Event.publish_match_id r3.fingerID] else []) ++
         (if self.match_name_sensor_ then
            [Event.publish_match_name (lookup_name r3.fingerID self.fingerprint_names_)]
          else []) ++
         (if self.confidence_sensor_ then [Event.publish_confidence r3.confidence] else []) ++
         (if self.ring_sensor_ then [Event.publish_ring false] else []) ++
         [Event.LEDcontrol FINGERPRINT_LED_ON 0 FINGERPRINT_LED_PURPLE 0] ++
         (if self.status_sensor_ then
            [Event.publish_status
              ("Match: " ++ lookup_name r3.fingerID self.fingerprint_names_)]
          else [])) ++
        [Event.delay 3000] ∧
      s.fingerprint_names_ = self.fingerprint_names_ ∧
      s.preferences_ = self.preferences_) ∧
    (∀ name, map_find r3.fingerID self.fingerprint_names_ = some name →
      lookup_name r3.fingerID self.fingerprint_names_ = name) ∧
    (map_find r3.fingerID self.fingerprint_names_ = none →
      lookup_name r3.fingerID self.fingerprint_names_ = "Unknown") := by
  obtain ⟨s, hs, he, hn, hp, _⟩ := scan_match t self r1 r2 r3 rest hdue hreplies h1 h2 h3
  exact ⟨⟨s, hs, he, hn, hp⟩, lookup_name_spec _ _⟩

/-- Witness for C12: id 9 was never enrolled and is reported as "Unknown"; the registry still
holds only id 7. -/
theorem match_reports_registry_name_witness :
    100 ≤ u32_sub 1000 demo_sensor.last_scan_time_ ∧
    map_find 9 demo_sensor.fingerprint_names_ = none ∧
    (∃ s, scan_fingerprint 1000 { demo_sensor with replies := match_script 9 80 } = some s ∧
      s.events =
        [Event.call SensorCall.getImage FINGERPRINT_OK,
         Event.LEDcontrol FINGERPRINT_LED_FLASHING 25 FINGERPRINT_LED_RED 0,
         Event.call (SensorCall.image2Tz 1) FINGERPRINT_OK,
         Event.call SensorCall.fingerSearch FINGERPRINT_OK,
         Event.publish_match_id 9, Event.publish_match_name "Unknown",
         Event.publish_confidence 80, Event.publish_ring false,
         Event.LEDcontrol FINGERPRINT_LED_ON 0 FINGERPRINT_LED_PURPLE 0,
         Event.publish_status "Match: Unknown", Event.delay 3000] ∧
      s.fingerprint_names_ = [(7, "Bob")] ∧ s.preferences_ = [("7", "Bob")]) :=
  ⟨by decide, by decide,
    (match_reports_registry_name 1000 { demo_sensor with replies := match_script 9 80 }
      (status_reply FINGERPRINT_OK) (status_reply FINGERPRINT_OK)
      { status := FINGERPRINT_OK, fingerID := 9, confidence := 80, templateCount := 0 } []
      (by decide) (by decide) (by decide) (by decide) (by decide)).1⟩

/-- C13. For every id in 1..200 and every name: after a successful `enroll_fingerprint`
(`perform_enrollment` returns 0 and the template-count query is answered), every match on `id`
in a state with the resulting map is reported with `name`, and the registry entries of every
other id (map entry, preference key and stored string) are as before. After a successful
`delete_fingerprint` of `id` (connected, delete-model answered OK, count query answered) in any
state, every match on `id` is reported as "Unknown", and the entries of every other id are as
before. -/
theorem registry_round_trip (id : Int) (name : String) (self after : FingerprintSensor)
    (r : Reply) (rest : List Reply)
    (hconn : self.connected_ = true) (hid : 1 ≤ id ∧ id ≤ 200)
    (hperf : perform_enrollment id (enroll_begin id name self) = some (0, after))
    (hcount : after.replies = r :: rest) :
    (∃ s, enroll_fingerprint id name self = some s ∧
      match_reports s.fingerprint_names_ id name ∧
      ∀ j, j ≠ id → same_entry j self s) ∧
    (∀ (u : FingerprintSensor) (rd rc : Reply) (rest2 : List Reply),
      u.connected_ = true → u.replies = rd :: rc :: rest2 → rd.status = FINGERPRINT_OK →
      ∃ s2, delete_fingerprint id u = some s2 ∧
        match_reports s2.fingerprint_names_ id "Unknown" ∧
        ∀ j, j ≠ id → same_entry j u s2) := by
  constructor
  · obtain ⟨s, hs, hn, hp⟩ :=
      enroll_fingerprint_success id name self after r rest hconn hid hperf hcount
    refine ⟨s, hs, ?_, ?_⟩
    · have hl : lookup_name id s.fingerprint_names_ = name :=
        (lookup_name_spec id s.fingerprint_names_).1 name (by rw [hn]; exact map_find_assign _ _ _)
      have := match_reports_lookup s.fingerprint_names_ id
      rw [hl] at this
      exact this
    · intro j hj
      have hkey : String_of_int j ≠ String_of_int id :=
        fun h => hj (String_of_int_injective j id h)
      have hput := preferences_put_ne (String_of_int id) (String_of_int j)
        (string_of_buffer (c_str name)) self.preferences_ hkey
      refine ⟨?_, ?_, ?_⟩
      · rw [hn]; exact map_find_assign_ne id j name _ hj
      · rw [hp]; exact hput.1
      · rw [hp]; exact hput.2
  · intro u rd rc rest2 hconnu hrep hok
    obtain ⟨s2, hs2, hn, hp⟩ := delete_fingerprint_success id u rd rc rest2 hconnu hid hrep hok
    refine ⟨s2, hs2, ?_, ?_⟩
    · have hl : lookup_name id s2.fingerprint_names_ = "Unknown" :=
        (lookup_name_spec id s2.fingerprint_names_).2 (by rw [hn, map_find_erase]; simp)
      have := match_reports_lookup s2.fingerprint_names_ id
      rw [hl] at this
      exact this
    · intro j hj
      have hkey : String_of_int j ≠ String_of_int id :=
        fun h => hj (String_of_int_injective j id h)
      have hrem := preferences_remove_spec (String_of_int id) (String_of_int j) u.preferences_
      refine ⟨?_, ?_, ?_⟩
      · rw [hn, map_find_erase]; simp [hj]
      · rw [hp, hrem.1]; simp [hkey]
      · intro d
        rw [hp, hrem.2]; simp [hkey]

/-- Witness for C13: enroll id 5 as "Alice", match it, delete it, match it again; id 7 keeps its
name throughout. -/
theorem registry_round_trip_witness :
    demo_sensor.connected_ = true ∧ ((1 : Int) ≤ 5 ∧ (5 : Int) ≤ 200) ∧
    perform_enrollment 5
        (enroll_begin 5 "Alice" { demo_sensor with replies := successful_script }) =
      some (0, demo_after_success) ∧
    (∃ s, enroll_fingerprint 5 "Alice" { demo_sensor with replies := successful_script } =
        some s ∧
      match_reports s.fingerprint_names_ 5 "Alice" ∧
      map_find 7 s.fingerprint_names_ = some "Bob") ∧
    (∃ s2, delete_fingerprint 5
        { demo_after_enroll with replies :=
            [status_reply FINGERPRINT_OK, status_reply FINGERPRINT_OK] } = some s2 ∧
      match_reports s2.fingerprint_names_ 5 "Unknown" ∧
      map_find 7 s2.fingerprint_names_ = some "Bob") :=
  ⟨by decide, by decide, by decide,
    (registry_round_trip 5 "Alice" { demo_sensor with replies := successful_script }
      demo_after_success
      { status := FINGERPRINT_OK, fingerID := 0, confidence := 0, templateCount := 2 } []
      (by decide) (by decide) (by decide) (by decide)).1.imp
      (fun _ h => ⟨h.1, h.2.1, (h.2.2 7 (by decide)).1⟩),
    ((registry_round_trip 5 "Alice" { demo_sensor with replies := successful_script }
      demo_after_success
      { status := FINGERPRINT_OK, fingerID := 0, confidence := 0, templateCount := 2 } []
      (by decide) (by decide) (by decide) (by decide)).2
      { demo_after_enroll with replies :=
          [status_reply FINGERPRINT_OK, status_reply FINGERPRINT_OK] }
      (status_reply FINGERPRINT_OK) (status_reply FINGERPRINT_OK) []
      (by decide) (by decide) (by decide)).imp
      (fun _ h => ⟨h.1, h.2.1, (h.2.2 7 (by decide)).1.trans (by decide)⟩)⟩


/-- C14, as stated, fails: when the sensor answers `emptyDatabase` with an error, `clear_all`
leaves the map and the preferences as they were and publishes no count. -/
theorem clear_all_sensor_error_keeps_registry :
    ∃ s, clear_all { demo_sensor with
        replies := [status_reply FINGERPRINT_PACKETRECIEVEERR] } = some s ∧
      s.fingerprint_names_ = [(7, "Bob")] ∧ s.preferences_ = [("7", "Bob")] ∧
      s.events = [Event.call SensorCall.emptyDatabase FINGERPRINT_PACKETRECIEVEERR,
        Event.publish_status "Clear failed!"] :=
  ⟨_, rfl, by decide, by decide, by decide⟩

/-- C14, amended. When the component is connected and the sensor answers `emptyDatabase` with
OK, `clear_all` returns with the map and the preferences empty, having published "All
fingerprints cleared" and the count 0 (each on its sensor when set). When `clear_all` returns in
a state that was not connected, or after an answer other than OK, the map and the preferences
are as before. -/
theorem clear_all_empties_registry (self : FingerprintSensor) (r : Reply) (rest : List Reply)
    (hconn : self.connected_ = true)
    (hreplies : self.replies = r :: rest) (hok : r.status = FINGERPRINT_OK) :
    (∃ s, clear_all self = some s ∧
      s.fingerprint_names_ = [] ∧ s.preferences_ = [] ∧
      (∀ id, map_find id s.fingerprint_names_ = none) ∧
      (∀ key, preferences_isKey key s.preferences_ = false) ∧
      s.events = self.events ++
        [Event.call SensorCall.emptyDatabase FINGERPRINT_OK, Event.preferences_clear] ++
        (if self.status_sensor_ then [Event.publish_status "All fingerprints cleared"]
         else []) ++
        (if self.enrolled_count_sensor_ then [Event.publish_enrolled_count 0] else [])) ∧
    (∀ (u s : FingerprintSensor), clear_all u = some s →
      (u.connected_ = false ∨
        ∃ q rest0, u.replies = q :: rest0 ∧ q.status ≠ FINGERPRINT_OK) →
      s.fingerprint_names_ = u.fingerprint_names_ ∧ s.preferences_ = u.preferences_) := by
  constructor
  · unfold clear_all
    simp only [hconn, Bool.not_true, Bool.false_eq_true, if_false, finger_call, hreplies, hok,
      if_true, publish_status_eq, publish_enrolled_count_eq]
    refine ⟨_, rfl, rfl, rfl, fun _ => rfl, fun _ => rfl, ?_⟩
    simp only [List.append_assoc, List.cons_append, List.nil_append]
  · intro u s hs hfail
    unfold clear_all at hs
    rcases hfail with hdis | ⟨q, rest0, hrep, hq⟩
    · simp only [hdis, Bool.not_false, if_true, Option.some.injEq] at hs
      subst hs
      exact ⟨rfl, rfl⟩
    · split at hs
      · simp only [Option.some.injEq] at hs
        subst hs
        exact ⟨rfl, rfl⟩
      · simp only [finger_call, hrep, hq, if_false, Option.some.injEq, publish_status_eq] at hs
        subst hs
        exact ⟨rfl, rfl⟩

/-- Witness for C14 (amended): clearing the registry of the demo component. -/
theorem clear_all_empties_registry_witness :
    demo_sensor.connected_ = true ∧
    ∃ s, clear_all { demo_sensor with replies := [status_reply FINGERPRINT_OK] } = some s ∧
      s.fingerprint_names_ = [] ∧ s.preferences_ = [] ∧
      s.events = [Event.call SensorCall.emptyDatabase FINGERPRINT_OK, Event.preferences_clear,
        Event.publish_status "All fingerprints cleared", Event.publish_enrolled_count 0] :=
  ⟨by decide,
    (clear_all_empties_registry { demo_sensor with replies := [status_reply FINGERPRINT_OK] }
      (status_reply FINGERPRINT_OK) [] (by decide) (by decide) (by decide)).1.imp
      (fun _ h => ⟨h.1, h.2.1, h.2.2.1, h.2.2.2.2.2⟩)⟩

set_option maxRecDepth 100000 in
/-- C15 (the code departs from it). The claim: every run of `setup` that ends connected has
loaded the names of the ids 1..200 from the preferences. When the first `verifyPassword` fails
and the second succeeds, `setup` ends connected with an empty map although the preferences hold
"Bob" under key "7"; when the first `verifyPassword` succeeds, the same preferences are loaded.
-/
theorem setup_second_try_skips_load :
    (∃ s, setup { demo_boot with replies :=
        [status_reply FINGERPRINT_PACKETRECIEVEERR, status_reply FINGERPRINT_OK] } = some s ∧
      s.connected_ = true ∧
      preferences_isKey (String_of_int 7) s.preferences_ = true ∧
      preferences_getString (String_of_int 7) "" s.preferences_ = "Bob" ∧
      map_find 7 s.fingerprint_names_ = none ∧
      s.fingerprint_names_ = []) ∧
    (∃ s, setup { demo_boot with replies :=
        [status_reply FINGERPRINT_OK, status_reply FINGERPRINT_OK,
         { status := FINGERPRINT_OK, fingerID := 0, confidence := 0, templateCount := 1 }] } =
        some s ∧
      s.connected_ = true ∧
      s.fingerprint_names_ = [(7, "Bob")]) := by
  constructor
  · exact ⟨_, rfl, by decide, by decide, by decide, by decide, by decide⟩
  · exact ⟨_, rfl, by decide, by decide⟩


/-- C16. For every 32-byte digest, `generate_pairing_code` returns a string of exactly 32
characters, each one of `0123456789abcdef`, which is the concatenation of the two-digit
lowercase hexadecimal renderings of bytes 0..15 in order; it is the same for two digests with
the same first 16 bytes, and different for digests whose first 16 bytes differ. -/
theorem pairing_code_is_hex_of_first_half (hash other : List Nat)
    (hlen : hash.length = 32) (hbytes : ∀ b ∈ hash, b < 256)
    (hlen2 : other.length = 32) (hbytes2 : ∀ b ∈ other, b < 256) :
    (generate_pairing_code hash).length = 32 ∧
    (∀ c ∈ (generate_pairing_code hash).data, c ∈ hex_digits) ∧
    (generate_pairing_code hash).data = (hash.take 16).flatMap lower_hex_of_byte ∧
    (hash.take 16 = other.take 16 → generate_pairing_code hash = generate_pairing_code other) ∧
    (hash.take 16 ≠ other.take 16 →
      generate_pairing_code hash ≠ generate_pairing_code other) := by
  have hd := generate_pairing_code_lower_hex hash (by omega) hbytes
  have hd2 := generate_pairing_code_lower_hex other (by omega) hbytes2
  have h := hex_code_properties _ _ hash other hlen hbytes hbytes2 hd hd2
  exact ⟨h.1, h.2.1, hd, h.2.2.1, h.2.2.2⟩

/-- Witness for C16: the digest 0, 1, .., 31 and the digest that differs from it in byte 3. -/
theorem pairing_code_is_hex_of_first_half_witness :
    demo_hash.length = 32 ∧ (∀ b ∈ demo_hash, b < 256) ∧
    (demo_hash.set 3 255).length = 32 ∧ (∀ b ∈ demo_hash.set 3 255, b < 256) ∧
    demo_hash.take 16 ≠ (demo_hash.set 3 255).take 16 ∧
    (generate_pairing_code demo_hash).length = 32 ∧
    generate_pairing_code demo_hash ≠ generate_pairing_code (demo_hash.set 3 255) :=
  ⟨by decide, by decide, by decide, by decide, by decide,
    (pairing_code_is_hex_of_first_half demo_hash (demo_hash.set 3 255) (by decide) (by decide)
      (by decide) (by decide)).1,
    (pairing_code_is_hex_of_first_half demo_hash (demo_hash.set 3 255) (by decide) (by decide)
      (by decide) (by decide)).2.2.2.2 (by decide)⟩

/-- C17. A scan step whose time is less than 100 after `last_scan_time_` (difference taken
modulo 2^32) returns the state it was given: no sensor call, no change. A step that returns with
any sensor command among its events was due. A due step that returns has called `getImage` first
and has set `last_scan_time_` to its time (modulo 2^32). Hence, along any succession of scan
steps, each time at which `getImage` was called is at least 100 after the previous one, and the
first at least 100 after the initial `last_scan_time_`, all differences taken modulo 2^32. -/
theorem scan_polls_at_most_every_100ms (t : Nat) (ts : List Nat) (self : FingerprintSensor) :
    (u32_sub t self.last_scan_time_ < 100 → scan_fingerprint t self = some self) ∧
    (∀ s, scan_fingerprint t self = some s →
      (∃ e ∈ new_events self s, is_sensor_event e = true) →
      100 ≤ u32_sub t self.last_scan_time_) ∧
    (∀ s, scan_fingerprint t self = some s → 100 ≤ u32_sub t self.last_scan_time_ →
      s.last_scan_time_ = t % 2 ^ 32 ∧
      ∃ status more, s.events = self.events ++ Event.call SensorCall.getImage status :: more) ∧
    List.Chain (fun a b => 100 ≤ u32_sub b a) self.last_scan_time_ (poll_times ts self) := by
  refine ⟨scan_rate_limited t self, ?_, ?_, poll_times_chain ts self⟩
  · intro s hs hev
    by_contra hnot
    have hlim : u32_sub t self.last_scan_time_ < 100 := by omega
    rw [scan_rate_limited t self hlim] at hs
    cases hs
    obtain ⟨e, he, _⟩ := hev
    simp [new_events] at he
  · intro s hs hdue
    obtain ⟨r, rest, more, _, hlast, _, _, he, _⟩ := scan_due_cases t self s hdue hs
    exact ⟨hlast, r.status, more, he⟩

/-- Witness for C17: the last poll was 50 ms before the wraparound of `millis()`; the step at
time 20 (70 ms later) is rate-limited, the step at time 60 (110 ms later) polls, and the step at
time 130 (70 ms after that) is rate-limited again. -/
theorem scan_polls_at_most_every_100ms_witness :
    u32_sub 20 demo_before_wrap.last_scan_time_ < 100 ∧
    scan_fingerprint 20 demo_before_wrap = some demo_before_wrap ∧
    poll_times [20, 60, 130] demo_before_wrap = [60] ∧
    List.Chain (fun a b => 100 ≤ u32_sub b a) (2 ^ 32 - 50) [60] :=
  ⟨by decide,
    (scan_polls_at_most_every_100ms 20 [20, 60, 130] demo_before_wrap).1 (by decide),
    by decide,
    (scan_polls_at_most_every_100ms 20 [20, 60, 130] demo_before_wrap).2.2.2⟩

set_option maxRecDepth 100000 in
/-- C18, as stated, fails: the reload of the preferences does not always give the map the
operations produced. Starting from a component whose map is what a reload gives, a successful
enrollment of id 5 under the empty name leaves the map with an entry for 5 that the reload does
not have, because `load_fingerprint_names` skips empty names; and a successful enrollment under a
name with a NUL character leaves the whole name in the map while the reload gives the part
before the NUL, because `putString` takes the name as a C string. -/
theorem reload_drops_empty_name :
    reloaded_names demo_sensor = demo_sensor.fingerprint_names_ ∧
    maps_after [RegistryOp.enroll 5 ""] { demo_sensor with replies := successful_script } =
      some ([(5, ""), (7, "Bob")], [(7, "Bob")]) ∧
    maps_after [RegistryOp.enroll 5 "A\x00B"] { demo_sensor with replies := successful_script } =
      some ([(5, "A\x00B"), (7, "Bob")], [(5, "A"), (7, "Bob")]) := by
  decide

/-- C18, amended: reload equivalence of the registry for non-empty names without NUL. From a
component whose map is what `load_fingerprint_names` builds from its preferences, every sequence
of enroll, delete and clear_all operations, with any ids and whether or not each operation
succeeds, in which every enrolled name is non-empty and free of NUL, leaves a component whose map
is again exactly what `load_fingerprint_names` builds on an empty map from the preferences. -/
theorem reload_equivalence (ops : List RegistryOp) (self s : FingerprintSensor)
    (hnames : ∀ op ∈ ops, op.name_ok)
    (hstart : reloaded_names self = self.fingerprint_names_)
    (hrun : run_registry_ops ops self = some s) :
    reloaded_names s = s.fingerprint_names_ := by
  induction ops generalizing self with
  | nil =>
    simp only [run_registry_ops, Option.some.injEq] at hrun
    rw [← hrun]
    exact hstart
  | cons op ops ih =>
    simp only [run_registry_ops] at hrun
    cases hop : op.run self with
    | none => simp [hop] at hrun
    | some u =>
      simp only [hop] at hrun
      have hok : op.name_ok := hnames op (List.mem_cons_self _ _)
      have hu : reloaded_names u = u.fingerprint_names_ := by
        cases op with
        | enroll id name => exact reload_after_enroll id name self u hok hstart hop
        | delete id => exact reload_after_delete id self u hstart hop
        | clear => exact reload_after_clear self u hstart hop
      exact ih u (fun o ho => hnames o (List.mem_cons_of_mem _ ho)) hu hrun

set_option maxRecDepth 100000 in
/-- Witness for C18: enrolling id 5 as "Alice" and deleting id 7, both successful, lead from a
map with id 7 to a map with id 5 only, which is what the reload gives. -/
theorem reload_equivalence_witness :
    (∀ op ∈ demo_registry_ops, op.name_ok) ∧
    reloaded_names { demo_sensor with replies := registry_script } =
      demo_sensor.fingerprint_names_ ∧
    run_registry_ops demo_registry_ops { demo_sensor with replies := registry_script } =
      some demo_after_ops ∧
    demo_after_ops.fingerprint_names_ = [(5, "Alice")] ∧
    reloaded_names demo_after_ops = demo_after_ops.fingerprint_names_ :=
  ⟨by decide, by decide, by decide, by decide,
    reload_equivalence demo_registry_ops { demo_sensor with replies := registry_script }
      demo_after_ops (by decide) (by decide) (by decide)⟩

end FingerprintDoorbell
